import Mathlib

/-!
# Cast transport sender, scan result dialog controller, app list sync service

A shallow embedding of `media/cast/transport/cast_transport_sender_impl.cc`
(the `CastTransportSenderImpl` facade), of the wire types of
`media/cast/transport/cast_transport_config.h`, of the session delegate
declared in `chrome/renderer/media/cast_session_delegate.h`, of
`chrome/browser/media_galleries/media_galleries_scan_result_dialog_controller.cc`
and of `chrome/browser/ui/app_list/app_list_syncable_service.cc`.

The facade owns four member objects (`pacer_`, `rtcp_builder_`,
`audio_sender_`, `video_sender_`) whose classes are defined elsewhere.  Every
facade method is embedded as a function over an arbitrary world `W` on which
the member objects act (`Members W`); the calls a method makes are observed by
running it on the recording world `Recorder`.
-/

namespace media.cast.transport

/-! ## Wire types (`cast_transport_config.h`) -/

inductive RtcpMode where
  | kRtcpCompound
  | kRtcpReducedSize
  deriving DecidableEq, Repr

inductive VideoCodec where
  | kVp8
  | kH264
  deriving DecidableEq, Repr

inductive AudioCodec where
  | kOpus
  | kPcm16
  | kExternalAudio
  deriving DecidableEq, Repr

structure CastTransportConfig where
  receiver_ip_address : String
  local_ip_address : String
  receive_port : Int
  send_port : Int
  audio_ssrc : Nat
  video_ssrc : Nat
  video_codec : VideoCodec
  audio_codec : AudioCodec
  audio_rtp_history_ms : Int
  video_rtp_history_ms : Int
  audio_rtp_max_delay_ms : Int
  video_rtp_max_delay_ms : Int
  audio_rtp_payload_type : Int
  video_rtp_payload_type : Int
  audio_frequency : Int
  audio_channels : Int
  aes_key : String
  aes_iv_mask : String
  deriving DecidableEq, Repr

structure EncodedVideoFrame where
  codec : VideoCodec
  key_frame : Bool
  frame_id : Nat
  last_referenced_frame_id : Nat
  data : String
  deriving DecidableEq, Repr

structure EncodedAudioFrame where
  codec : AudioCodec
  frame_id : Nat
  samples : Int
  data : String
  deriving DecidableEq, Repr

/-- The constant `EncodedAudioFrame::kMaxNumberOfSamples`. -/
def EncodedAudioFrame.kMaxNumberOfSamples : Int := 48 * 2 * 100

/-- A packet is `std::vector<uint8>`. -/
abbrev Packet := List Nat

abbrev PacketList := List Packet

/-- The abstract class `PacketReceiver`: an object is known by its identity. -/
structure PacketReceiver where
  id : Nat
  deriving DecidableEq, Repr

/-- The abstract class `PacketSender`: an object is known by its identity. -/
structure PacketSender where
  id : Nat
  deriving DecidableEq, Repr

inductive RtcpSenderFrameStatus where
  | kRtcpSenderFrameStatusUnknown
  | kRtcpSenderFrameStatusDroppedByEncoder
  | kRtcpSenderFrameStatusDroppedByFlowControl
  | kRtcpSenderFrameStatusSentToNetwork
  deriving DecidableEq, Repr

structure RtcpSenderFrameLogMessage where
  frame_status : RtcpSenderFrameStatus
  rtp_timestamp : Nat
  deriving DecidableEq, Repr

abbrev RtcpSenderLogMessage := List RtcpSenderFrameLogMessage

structure RtcpSenderInfo where
  ntp_seconds : Nat
  ntp_fraction : Nat
  rtp_timestamp : Nat
  send_packet_count : Nat
  send_octet_count : Nat
  deriving DecidableEq, Repr

structure RtcpDlrrReportBlock where
  last_rr : Nat
  delay_since_last_rr : Nat
  deriving DecidableEq, Repr

/-! ## Types the facade uses from headers outside this development -/

/-- Modelled from the spec: `cast_transport_defines.h` is not part of the
sources; these are the two statuses the constructor reports. -/
inductive CastTransportStatus where
  | TRANSPORT_UNINITIALIZED
  | TRANSPORT_INITIALIZED
  deriving DecidableEq, Repr

/-- Modelled from the spec: the retransmission request, a mapping from frame
id to the set of missing packet indices within that frame (its typedef is in
`cast_transport_defines.h`, which is not part of the sources). -/
abbrev MissingFramesAndPacketsMap := List (Nat × List Nat)

/-- A `base::TimeTicks` value, as a count of ticks. -/
abbrev TimeTicks := Int

/-- A `base::TickClock*`, known by its identity. -/
structure TickClock where
  id : Nat
  deriving DecidableEq, Repr

/-- A `base::TaskRunner` reference, known by its identity. -/
structure TaskRunner where
  id : Nat
  deriving DecidableEq, Repr

/-- A `CastTransportStatusCallback`, known by its identity. -/
structure CastTransportStatusCallback where
  id : Nat
  deriving DecidableEq, Repr

/-- The objects the facade talks to: its four members and the status
callback it is constructed with. -/
inductive Callee where
  | pacer_
  | rtcp_builder_
  | audio_sender_
  | video_sender_
  | status_callback
  deriving DecidableEq, Repr

/-! ## The member objects as the facade sees them -/

/-- The methods of the member objects (and of the status callback) that
`cast_transport_sender_impl.cc` calls, as transformers of a world `W`.  Their
bodies live in other translation units; the facade is embedded for every
choice of them.  A pointer to a member (`&pacer_`) is passed as its `Callee`
name; the `NULL` external transport is `none`. -/
structure Members (W : Type) where
  pacer_ctor : TickClock → CastTransportConfig → Option PacketSender → TaskRunner →
    CastTransportStatusCallback → W → W
  rtcp_builder_ctor : Callee → W → W
  audio_sender_ctor : CastTransportConfig → TickClock → Callee → W → W
  video_sender_ctor : CastTransportConfig → TickClock → Callee → W → W
  audio_sender_initialized : W → Bool × W
  video_sender_initialized : W → Bool × W
  status_callback_Run : CastTransportStatusCallback → CastTransportStatus → W → W
  pacer_SetPacketReceiver : PacketReceiver → W → W
  pacer_InsertFakeTransportForTesting : PacketSender → W → W
  audio_sender_InsertCodedAudioFrame : EncodedAudioFrame → TimeTicks → W → W
  video_sender_InsertCodedVideoFrame : EncodedVideoFrame → TimeTicks → W → W
  rtcp_builder_SendRtcpFromRtpSender : Nat → RtcpSenderInfo → RtcpDlrrReportBlock →
    RtcpSenderLogMessage → Nat → String → W → W
  audio_sender_ResendPackets : MissingFramesAndPacketsMap → W → W
  video_sender_ResendPackets : MissingFramesAndPacketsMap → W → W
  audio_sender_GetStatistics : TimeTicks → RtcpSenderInfo → W → RtcpSenderInfo × W
  video_sender_GetStatistics : TimeTicks → RtcpSenderInfo → W → RtcpSenderInfo × W

/-! ## The facade (`cast_transport_sender_impl.cc`) -/

namespace CastTransportSenderImpl

variable {W : Type}

/-- The member initialiser list of the constructor:
`pacer_(clock, &config, NULL, transport_task_runner, status_callback)`,
`rtcp_builder_(&pacer_)`, `audio_sender_(config, clock, &pacer_)`,
`video_sender_(config, clock, &pacer_)`. -/
def ctor_members (d : Members W) (clock : TickClock) (config : CastTransportConfig)
    (status_callback : CastTransportStatusCallback) (transport_task_runner : TaskRunner)
    (w : W) : W :=
  let w1 := d.pacer_ctor clock config none transport_task_runner status_callback w
  let w2 := d.rtcp_builder_ctor Callee.pacer_ w1
  let w3 := d.audio_sender_ctor config clock Callee.pacer_ w2
  d.video_sender_ctor config clock Callee.pacer_ w3

/-- The body of the constructor.  The condition
`audio_sender_.initialized() && video_sender_.initialized()` is evaluated left
to right and the right operand only when the left one is true. -/
def ctor_body (d : Members W) (status_callback : CastTransportStatusCallback) (w : W) : W :=
  let (a, w1) := d.audio_sender_initialized w
  if a then
    let (v, w2) := d.video_sender_initialized w1
    if v then
      d.status_callback_Run status_callback CastTransportStatus.TRANSPORT_INITIALIZED w2
    else
      d.status_callback_Run status_callback CastTransportStatus.TRANSPORT_UNINITIALIZED w2
  else
    d.status_callback_Run status_callback CastTransportStatus.TRANSPORT_UNINITIALIZED w1

/-- The constructor `CastTransportSenderImpl::CastTransportSenderImpl`: the
member initialisers, then the body. -/
def ctor (d : Members W) (clock : TickClock) (config : CastTransportConfig)
    (status_callback : CastTransportStatusCallback) (transport_task_runner : TaskRunner)
    (w : W) : W :=
  ctor_body d status_callback (ctor_members d clock config status_callback transport_task_runner w)

def SetPacketReceiver (d : Members W) (packet_receiver : PacketReceiver) (w : W) : W :=
  d.pacer_SetPacketReceiver packet_receiver w

def InsertCodedAudioFrame (d : Members W) (audio_frame : EncodedAudioFrame)
    (recorded_time : TimeTicks) (w : W) : W :=
  d.audio_sender_InsertCodedAudioFrame audio_frame recorded_time w

def InsertCodedVideoFrame (d : Members W) (video_frame : EncodedVideoFrame)
    (capture_time : TimeTicks) (w : W) : W :=
  d.video_sender_InsertCodedVideoFrame video_frame capture_time w

def SendRtcpFromRtpSender (d : Members W) (packet_type_flags : Nat)
    (sender_info : RtcpSenderInfo) (dlrr : RtcpDlrrReportBlock)
    (sender_log : RtcpSenderLogMessage) (sending_ssrc : Nat) (c_name : String) (w : W) : W :=
  d.rtcp_builder_SendRtcpFromRtpSender packet_type_flags sender_info dlrr sender_log
    sending_ssrc c_name w

def ResendPackets (d : Members W) (is_audio : Bool)
    (missing_packets : MissingFramesAndPacketsMap) (w : W) : W :=
  if is_audio then
    d.audio_sender_ResendPackets missing_packets w
  else
    d.video_sender_ResendPackets missing_packets w

/-- The out-parameter `sender_info` is passed in with its current contents and
returned with what the callee wrote. -/
def RtpAudioStatistics (d : Members W) (now : TimeTicks) (sender_info : RtcpSenderInfo)
    (w : W) : RtcpSenderInfo × W :=
  d.audio_sender_GetStatistics now sender_info w

def RtpVideoStatistics (d : Members W) (now : TimeTicks) (sender_info : RtcpSenderInfo)
    (w : W) : RtcpSenderInfo × W :=
  d.video_sender_GetStatistics now sender_info w

def InsertFakeTransportForTesting (d : Members W) (fake_transport : PacketSender) (w : W) : W :=
  d.pacer_InsertFakeTransportForTesting fake_transport w

end CastTransportSenderImpl

/-! ## The sequence of facade operations of a session -/

/-- One call of a public method of the facade after construction, with its
arguments. -/
inductive Op where
  | SetPacketReceiver (packet_receiver : PacketReceiver)
  | InsertCodedAudioFrame (audio_frame : EncodedAudioFrame) (recorded_time : TimeTicks)
  | InsertCodedVideoFrame (video_frame : EncodedVideoFrame) (capture_time : TimeTicks)
  | SendRtcpFromRtpSender (packet_type_flags : Nat) (sender_info : RtcpSenderInfo)
      (dlrr : RtcpDlrrReportBlock) (sender_log : RtcpSenderLogMessage) (sending_ssrc : Nat)
      (c_name : String)
  | ResendPackets (is_audio : Bool) (missing_packets : MissingFramesAndPacketsMap)
  | RtpAudioStatistics (now : TimeTicks) (sender_info : RtcpSenderInfo)
  | RtpVideoStatistics (now : TimeTicks) (sender_info : RtcpSenderInfo)
  | InsertFakeTransportForTesting (fake_transport : PacketSender)
  deriving DecidableEq, Repr

/-- Runs one facade operation.  Every facade method returns `void`; the two
statistics methods hand their result back through the out-parameter, which is
the first component of the result here (`none` for the other methods). -/
def Op.run {W : Type} (d : Members W) : Op → W → Option RtcpSenderInfo × W
  | Op.SetPacketReceiver r, w => (none, CastTransportSenderImpl.SetPacketReceiver d r w)
  | Op.InsertCodedAudioFrame f t, w => (none, CastTransportSenderImpl.InsertCodedAudioFrame d f t w)
  | Op.InsertCodedVideoFrame f t, w => (none, CastTransportSenderImpl.InsertCodedVideoFrame d f t w)
  | Op.SendRtcpFromRtpSender fl si dl lg ss cn, w =>
      (none, CastTransportSenderImpl.SendRtcpFromRtpSender d fl si dl lg ss cn w)
  | Op.ResendPackets a m, w => (none, CastTransportSenderImpl.ResendPackets d a m w)
  | Op.RtpAudioStatistics now si, w =>
      let (out, w1) := CastTransportSenderImpl.RtpAudioStatistics d now si w
      (some out, w1)
  | Op.RtpVideoStatistics now si, w =>
      let (out, w1) := CastTransportSenderImpl.RtpVideoStatistics d now si w
      (some out, w1)
  | Op.InsertFakeTransportForTesting t, w =>
      (none, CastTransportSenderImpl.InsertFakeTransportForTesting d t w)

/-- Runs a sequence of facade operations, first to last. -/
def runOps {W : Type} (d : Members W) : List Op → W → W
  | [], w => w
  | op :: ops, w => runOps d ops (op.run d w).2

/-! ## The recording world: which calls does the facade make? -/

/-- A call the facade makes on a member object or on the status callback,
with the arguments it passes. -/
inductive Call where
  | pacer_ctor (clock : TickClock) (config : CastTransportConfig)
      (external_transport : Option PacketSender) (transport_task_runner : TaskRunner)
      (status_callback : CastTransportStatusCallback)
  | rtcp_builder_ctor (paced_packet_sender : Callee)
  | audio_sender_ctor (config : CastTransportConfig) (clock : TickClock)
      (paced_packet_sender : Callee)
  | video_sender_ctor (config : CastTransportConfig) (clock : TickClock)
      (paced_packet_sender : Callee)
  | audio_sender_initialized
  | video_sender_initialized
  | status_callback_Run (status_callback : CastTransportStatusCallback)
      (status : CastTransportStatus)
  | pacer_SetPacketReceiver (packet_receiver : PacketReceiver)
  | pacer_InsertFakeTransportForTesting (fake_transport : PacketSender)
  | audio_sender_InsertCodedAudioFrame (audio_frame : EncodedAudioFrame)
      (recorded_time : TimeTicks)
  | video_sender_InsertCodedVideoFrame (video_frame : EncodedVideoFrame)
      (capture_time : TimeTicks)
  | rtcp_builder_SendRtcpFromRtpSender (packet_type_flags : Nat) (sender_info : RtcpSenderInfo)
      (dlrr : RtcpDlrrReportBlock) (sender_log : RtcpSenderLogMessage) (sending_ssrc : Nat)
      (c_name : String)
  | audio_sender_ResendPackets (missing_packets : MissingFramesAndPacketsMap)
  | video_sender_ResendPackets (missing_packets : MissingFramesAndPacketsMap)
  | audio_sender_GetStatistics (now : TimeTicks) (sender_info : RtcpSenderInfo)
  | video_sender_GetStatistics (now : TimeTicks) (sender_info : RtcpSenderInfo)
  deriving DecidableEq, Repr

/-- The object a call is made on. -/
def Call.callee : Call → Callee
  | Call.pacer_ctor _ _ _ _ _ => Callee.pacer_
  | Call.rtcp_builder_ctor _ => Callee.rtcp_builder_
  | Call.audio_sender_ctor _ _ _ => Callee.audio_sender_
  | Call.video_sender_ctor _ _ _ => Callee.video_sender_
  | Call.audio_sender_initialized => Callee.audio_sender_
  | Call.video_sender_initialized => Callee.video_sender_
  | Call.status_callback_Run _ _ => Callee.status_callback
  | Call.pacer_SetPacketReceiver _ => Callee.pacer_
  | Call.pacer_InsertFakeTransportForTesting _ => Callee.pacer_
  | Call.audio_sender_InsertCodedAudioFrame _ _ => Callee.audio_sender_
  | Call.video_sender_InsertCodedVideoFrame _ _ => Callee.video_sender_
  | Call.rtcp_builder_SendRtcpFromRtpSender _ _ _ _ _ _ => Callee.rtcp_builder_
  | Call.audio_sender_ResendPackets _ => Callee.audio_sender_
  | Call.video_sender_ResendPackets _ => Callee.video_sender_
  | Call.audio_sender_GetStatistics _ _ => Callee.audio_sender_
  | Call.video_sender_GetStatistics _ _ => Callee.video_sender_

/-- The calls of a log that are made on the object `c`, in order. -/
def callsOn (c : Callee) (calls : List Call) : List Call :=
  calls.filter (fun x => decide (x.callee = c))

/-- The statuses a log hands to the status callback, in order. -/
def statusReports : List Call → List CastTransportStatus
  | [] => []
  | Call.status_callback_Run _ s :: rest => s :: statusReports rest
  | _ :: rest => statusReports rest

/-- The recording world: the answers the two senders give when asked, and the
log of calls made so far. -/
structure Recorder where
  audio_initialized : Bool
  video_initialized : Bool
  audio_statistics : TimeTicks → RtcpSenderInfo → RtcpSenderInfo
  video_statistics : TimeTicks → RtcpSenderInfo → RtcpSenderInfo
  calls : List Call

/-- Appends one call to the log. -/
def Recorder.record (c : Call) (r : Recorder) : Recorder :=
  { r with calls := r.calls ++ [c] }

/-- The member objects of the recording world: each method logs its call and
does nothing else; a query also returns the recorded answer. -/
def recorder : Members Recorder where
  pacer_ctor clock config ext runner cb r := r.record (Call.pacer_ctor clock config ext runner cb)
  rtcp_builder_ctor p r := r.record (Call.rtcp_builder_ctor p)
  audio_sender_ctor config clock p r := r.record (Call.audio_sender_ctor config clock p)
  video_sender_ctor config clock p r := r.record (Call.video_sender_ctor config clock p)
  audio_sender_initialized r := (r.audio_initialized, r.record Call.audio_sender_initialized)
  video_sender_initialized r := (r.video_initialized, r.record Call.video_sender_initialized)
  status_callback_Run cb s r := r.record (Call.status_callback_Run cb s)
  pacer_SetPacketReceiver x r := r.record (Call.pacer_SetPacketReceiver x)
  pacer_InsertFakeTransportForTesting x r := r.record (Call.pacer_InsertFakeTransportForTesting x)
  audio_sender_InsertCodedAudioFrame f t r := r.record (Call.audio_sender_InsertCodedAudioFrame f t)
  video_sender_InsertCodedVideoFrame f t r := r.record (Call.video_sender_InsertCodedVideoFrame f t)
  rtcp_builder_SendRtcpFromRtpSender fl si dl lg ss cn r :=
    r.record (Call.rtcp_builder_SendRtcpFromRtpSender fl si dl lg ss cn)
  audio_sender_ResendPackets m r := r.record (Call.audio_sender_ResendPackets m)
  video_sender_ResendPackets m r := r.record (Call.video_sender_ResendPackets m)
  audio_sender_GetStatistics now si r :=
    (r.audio_statistics now si, r.record (Call.audio_sender_GetStatistics now si))
  video_sender_GetStatistics now si r :=
    (r.video_statistics now si, r.record (Call.video_sender_GetStatistics now si))

/-- The calls `f` adds to the log of `r`. -/
def newCalls (f : Recorder → Recorder) (r : Recorder) : List Call :=
  (f r).calls.drop r.calls.length

/-- The call on a member object that a facade operation makes. -/
def Op.call : Op → Call
  | Op.SetPacketReceiver r => Call.pacer_SetPacketReceiver r
  | Op.InsertCodedAudioFrame f t => Call.audio_sender_InsertCodedAudioFrame f t
  | Op.InsertCodedVideoFrame f t => Call.video_sender_InsertCodedVideoFrame f t
  | Op.SendRtcpFromRtpSender fl si dl lg ss cn =>
      Call.rtcp_builder_SendRtcpFromRtpSender fl si dl lg ss cn
  | Op.ResendPackets true m => Call.audio_sender_ResendPackets m
  | Op.ResendPackets false m => Call.video_sender_ResendPackets m
  | Op.RtpAudioStatistics now si => Call.audio_sender_GetStatistics now si
  | Op.RtpVideoStatistics now si => Call.video_sender_GetStatistics now si
  | Op.InsertFakeTransportForTesting t => Call.pacer_InsertFakeTransportForTesting t

/-! ## The per-media senders and the Pacer, from the specification -/

/-- Modelled from the spec: the Pacer (class `PacedSender`, not part of the
sources).  It holds the inbound packet receiver, the substituted network
sender, and the packets it has accepted for rate-limited dispatch. -/
structure PacerModel where
  packet_receiver : Option PacketReceiver
  fake_transport : Option PacketSender
  queued : PacketList
  deriving DecidableEq, Repr

/-- Modelled from the spec: `enqueue(packet_list, media_kind)` of the Pacer
accepts the packets produced by a per-media sender and queues them. -/
def PacerModel.enqueue (packets : PacketList) (p : PacerModel) : PacerModel :=
  { p with queued := p.queued ++ packets }

/-- Modelled from the spec: a per-media sender (the classes of
`audio_sender_` and `video_sender_`, not part of the sources): whether it was
constructed with a valid configuration, and its cumulative send counters. -/
structure SenderModel where
  initialized : Bool
  send_packet_count : Nat
  send_octet_count : Nat
  deriving DecidableEq, Repr

/-- The number of bytes in a list of packets. -/
def octets (packets : PacketList) : Nat :=
  (packets.map List.length).sum

/-- Modelled from the spec: `insert_coded_frame(frame, time)` of a per-media
sender.  If `initialized()` does not hold the call is a no-op; otherwise the
frame is packetized (by the packetizer, a function of the frame and its
time) and the packets are forwarded to the Pacer and counted. -/
def SenderModel.insert_coded_frame {F : Type} (packetize : F → TimeTicks → PacketList)
    (frame : F) (time : TimeTicks) (s : SenderModel) (p : PacerModel) :
    SenderModel × PacerModel :=
  if s.initialized then
    let packets := packetize frame time
    ({ s with send_packet_count := s.send_packet_count + packets.length,
              send_octet_count := s.send_octet_count + octets packets },
     p.enqueue packets)
  else
    (s, p)

/-- The session as the specification describes it: the Pacer, the two
per-media senders feeding it, and the statuses handed to the status callback. -/
structure SessionModel where
  pacer : PacerModel
  audio_sender : SenderModel
  video_sender : SenderModel
  statuses : List CastTransportStatus
  deriving DecidableEq, Repr

/-- Modelled from the spec: the member objects acting on a `SessionModel`.
The `initialized()` queries, the two frame insertions and the status callback
follow the specification; every other method is taken from `base`, which is
arbitrary. -/
def specMembers (packetizeAudio : EncodedAudioFrame → TimeTicks → PacketList)
    (packetizeVideo : EncodedVideoFrame → TimeTicks → PacketList)
    (base : Members SessionModel) : Members SessionModel :=
  { base with
    audio_sender_initialized := fun w => (w.audio_sender.initialized, w)
    video_sender_initialized := fun w => (w.video_sender.initialized, w)
    status_callback_Run := fun _ s w => { w with statuses := w.statuses ++ [s] }
    audio_sender_InsertCodedAudioFrame := fun f t w =>
      let (s, p) := w.audio_sender.insert_coded_frame packetizeAudio f t w.pacer
      { w with audio_sender := s, pacer := p }
    video_sender_InsertCodedVideoFrame := fun f t w =>
      let (s, p) := w.video_sender.insert_coded_frame packetizeVideo f t w.pacer
      { w with video_sender := s, pacer := p } }

/-- Members that do nothing, as a `base` for `specMembers` in examples. -/
def idleMembers : Members SessionModel where
  pacer_ctor _ _ _ _ _ w := w
  rtcp_builder_ctor _ w := w
  audio_sender_ctor _ _ _ w := w
  video_sender_ctor _ _ _ w := w
  audio_sender_initialized w := (w.audio_sender.initialized, w)
  video_sender_initialized w := (w.video_sender.initialized, w)
  status_callback_Run _ _ w := w
  pacer_SetPacketReceiver _ w := w
  pacer_InsertFakeTransportForTesting _ w := w
  audio_sender_InsertCodedAudioFrame _ _ w := w
  video_sender_InsertCodedVideoFrame _ _ w := w
  rtcp_builder_SendRtcpFromRtpSender _ _ _ _ _ _ w := w
  audio_sender_ResendPackets _ w := w
  video_sender_ResendPackets _ w := w
  audio_sender_GetStatistics _ si w := (si, w)
  video_sender_GetStatistics _ si w := (si, w)

/-- Inserts a list of coded audio frames through the facade, first to last. -/
def insertAudioFrames {W : Type} (d : Members W) : List (EncodedAudioFrame × TimeTicks) → W → W
  | [], w => w
  | (f, t) :: rest, w =>
      insertAudioFrames d rest (CastTransportSenderImpl.InsertCodedAudioFrame d f t w)

/-- Inserts a list of coded video frames through the facade, first to last. -/
def insertVideoFrames {W : Type} (d : Members W) : List (EncodedVideoFrame × TimeTicks) → W → W
  | [], w => w
  | (f, t) :: rest, w =>
      insertVideoFrames d rest (CastTransportSenderImpl.InsertCodedVideoFrame d f t w)

/-- An example packetizer: one packet per frame, holding the frame id and the
length of the payload. -/
def examplePacketizeAudio (f : EncodedAudioFrame) (_ : TimeTicks) : PacketList :=
  [[f.frame_id, f.data.length]]

/-- An example packetizer for video frames, as `examplePacketizeAudio`. -/
def examplePacketizeVideo (f : EncodedVideoFrame) (_ : TimeTicks) : PacketList :=
  [[f.frame_id, f.data.length]]

/-- An example session: the audio sender is not initialized, the video sender
is, nothing has been queued or reported yet. -/
def exampleSession : SessionModel :=
  { pacer := { packet_receiver := none, fake_transport := none, queued := [] },
    audio_sender := { initialized := false, send_packet_count := 0, send_octet_count := 0 },
    video_sender := { initialized := true, send_packet_count := 0, send_octet_count := 0 },
    statuses := [] }

/-- An example audio frame. -/
def exampleAudioFrame : EncodedAudioFrame :=
  { codec := AudioCodec.kOpus, frame_id := 7, samples := 480, data := "abc" }

end media.cast.transport

/-! ## The session delegate (`cast_session_delegate.h`) -/

namespace media.cast

/-- A `media::cast::AudioSenderConfig` (declared in `cast_config.h`), known by
its identity. -/
structure AudioSenderConfig where
  id : Nat
  deriving DecidableEq, Repr

/-- A `media::cast::VideoSenderConfig` (declared in `cast_config.h`), known by
its identity. -/
structure VideoSenderConfig where
  id : Nat
  deriving DecidableEq, Repr

/-- A reference to a `media::cast::FrameInput`, known by its identity. -/
structure FrameInput where
  id : Nat
  deriving DecidableEq, Repr

end media.cast

/-- A `CastSessionDelegate::FrameInputAvailableCallback`, known by its
identity. -/
structure FrameInputAvailableCallback where
  id : Nat
  deriving DecidableEq, Repr

/-- The data members of `CastSessionDelegate` that take part in start-up
(`audio_config_`, `video_config_`, `audio_configured_`, `video_configured_`,
`frame_input_available_callbacks_`), whether the sender has been created
(`cast_sender_` is set) and with which frame input, and two observations: the
start-ups triggered so far, each with the configurations it used, and the
callback runs so far, each with the handle passed. -/
structure CastSessionDelegate where
  audio_config_ : media.cast.AudioSenderConfig
  video_config_ : media.cast.VideoSenderConfig
  audio_configured_ : Bool
  video_configured_ : Bool
  frame_input_available_callbacks_ : List FrameInputAvailableCallback
  started : Bool
  frame_input : Option media.cast.FrameInput
  startups : List (media.cast.AudioSenderConfig × media.cast.VideoSenderConfig)
  runs : List (FrameInputAvailableCallback × media.cast.FrameInput)
  deriving DecidableEq, Repr

namespace CastSessionDelegate

/-- The delegate after `CastSessionDelegate()`: nothing configured, nothing
registered, nothing started. -/
def new : CastSessionDelegate :=
  { audio_config_ := ⟨0⟩, video_config_ := ⟨0⟩, audio_configured_ := false,
    video_configured_ := false, frame_input_available_callbacks_ := [], started := false,
    frame_input := none, startups := [], runs := [] }

/-- Modelled from the spec: `StartSendingInternal`, whose body
(`cast_session_delegate.cc`) is not part of the sources.  Once both
configurations have been supplied, session start-up is triggered, exactly
once; `create` is the construction of the sender and its frame input from the
two configurations and yields `none` when it fails.  When start-up finishes
every callback registered before receives the frame-input handle; if
frame-input construction fails, no callback fires. -/
def StartSendingInternal
    (create : media.cast.AudioSenderConfig → media.cast.VideoSenderConfig →
      Option media.cast.FrameInput)
    (s : CastSessionDelegate) : CastSessionDelegate :=
  if s.started then s
  else if !(s.audio_configured_ && s.video_configured_) then s
  else
    let s1 := { s with started := true,
                       startups := s.startups ++ [(s.audio_config_, s.video_config_)],
                       frame_input := create s.audio_config_ s.video_config_ }
    match s1.frame_input with
    | none => s1
    | some h =>
        { s1 with runs := s1.runs ++ s1.frame_input_available_callbacks_.map (fun cb => (cb, h)),
                  frame_input_available_callbacks_ := [] }

/-- Modelled from the spec: delivery of the frame-input handle to a caller
that comes after start-up: it receives the handle immediately (no callback
fires when there is no handle). -/
def deliverNow (callback : FrameInputAvailableCallback) (s : CastSessionDelegate) :
    CastSessionDelegate :=
  match s.frame_input with
  | none => s
  | some h => { s with runs := s.runs ++ [(callback, h)] }

/-- Modelled from the spec: `StartAudio(config, callback)`, whose body is not
part of the sources: records the requested configuration; a call before
start-up registers the callback and starts the session if both
configurations are now supplied; a call after start-up receives the handle
immediately. -/
def StartAudio
    (create : media.cast.AudioSenderConfig → media.cast.VideoSenderConfig →
      Option media.cast.FrameInput)
    (config : media.cast.AudioSenderConfig) (callback : FrameInputAvailableCallback)
    (s : CastSessionDelegate) : CastSessionDelegate :=
  let s1 := { s with audio_config_ := config, audio_configured_ := true }
  if s1.started then deliverNow callback s1
  else
    StartSendingInternal create
      { s1 with frame_input_available_callbacks_ :=
                  s1.frame_input_available_callbacks_ ++ [callback] }

/-- Modelled from the spec: `StartVideo(config, callback)`, whose body is not
part of the sources; as `StartAudio`, for the video configuration. -/
def StartVideo
    (create : media.cast.AudioSenderConfig → media.cast.VideoSenderConfig →
      Option media.cast.FrameInput)
    (config : media.cast.VideoSenderConfig) (callback : FrameInputAvailableCallback)
    (s : CastSessionDelegate) : CastSessionDelegate :=
  let s1 := { s with video_config_ := config, video_configured_ := true }
  if s1.started then deliverNow callback s1
  else
    StartSendingInternal create
      { s1 with frame_input_available_callbacks_ :=
                  s1.frame_input_available_callbacks_ ++ [callback] }

end CastSessionDelegate

/-! ## Constructor arguments: packet sinks and network senders -/

namespace media.cast.transport

/-- The Pacer a constructor call hands to the object it constructs as its
packet sink (`paced_packet_sender`), if the call has such an argument. -/
def Call.packet_sink : Call → Option Callee
  | Call.rtcp_builder_ctor p => some p
  | Call.audio_sender_ctor _ _ p => some p
  | Call.video_sender_ctor _ _ p => some p
  | _ => none

/-- The network sender (`PacketSender`) a call hands over, if any: the
external transport of the Pacer's constructor (`none` for `NULL`) and the fake
transport of `InsertFakeTransportForTesting`. -/
def Call.network_sender : Call → Option PacketSender
  | Call.pacer_ctor _ _ external_transport _ _ => external_transport
  | Call.pacer_InsertFakeTransportForTesting t => some t
  | _ => none

/-! ## Retransmission and statistics of the per-media senders, from the specification -/

/-- Modelled from the spec: what a per-media sender keeps of a frame it has
sent, for retransmission: the frame id, the time the frame was inserted with,
and the packets of the frame in packetization order (the sender classes are
not part of the sources). -/
structure StoredFrame where
  frame_id : Nat
  time : TimeTicks
  packets : PacketList
  deriving DecidableEq, Repr

/-- Modelled from the spec: a stored frame is within the RTP history window
(`audio_rtp_history_ms` or `video_rtp_history_ms` of the configuration) when
its age at time `now` is at most the window; time is counted in milliseconds
here. -/
def withinHistory (rtp_history_ms : Int) (now : TimeTicks) (f : StoredFrame) : Bool :=
  decide (now - f.time ≤ rtp_history_ms)

/-- Modelled from the spec: the packets re-emitted for one entry
`(frame_id, packet indices)` of a retransmission request: the previously
buffered packets with these indices if the frame is buffered and still within
the history window, nothing otherwise (the request is dropped silently). -/
def resendFrame (rtp_history_ms : Int) (now : TimeTicks) (history : List StoredFrame)
    (frame_id : Nat) (indices : List Nat) : PacketList :=
  match history.find? (fun f => f.frame_id == frame_id) with
  | some f =>
      if withinHistory rtp_history_ms now f then
        indices.filterMap (fun i => f.packets.get? i)
      else []
  | none => []

/-- Modelled from the spec: `resend_packets(missing)` of a per-media sender:
for each entry of the map, in order, the packets of `resendFrame` are handed
to the Pacer. -/
def resend_packets (rtp_history_ms : Int) (now : TimeTicks) (history : List StoredFrame) :
    MissingFramesAndPacketsMap → PacerModel → PacerModel
  | [], p => p
  | (frame_id, indices) :: rest, p =>
      resend_packets rtp_history_ms now history rest
        (p.enqueue (resendFrame rtp_history_ms now history frame_id indices))

/-- The session of `SessionModel` together with the reading of the clock and
the frames each per-media sender has buffered for retransmission. -/
structure ResendSession where
  now : TimeTicks
  session : SessionModel
  audio_history : List StoredFrame
  video_history : List StoredFrame
  deriving DecidableEq, Repr

/-- The buffered frames of the sender of one media kind. -/
def ResendSession.history (w : ResendSession) (is_audio : Bool) : List StoredFrame :=
  if is_audio then w.audio_history else w.video_history

/-- The configured RTP history window of one media kind, in milliseconds. -/
def CastTransportConfig.rtp_history_ms (config : CastTransportConfig) (is_audio : Bool) : Int :=
  if is_audio then config.audio_rtp_history_ms else config.video_rtp_history_ms

/-- Modelled from the spec: the member objects acting on a `ResendSession`.
The two `ResendPackets` methods follow the specification, each sender with
its own history window and buffer; a frame insertion is the one of
`SenderModel.insert_coded_frame` and, for an initialized sender, buffers the
packets of the frame under its frame id and time; the status callback appends
to the statuses reported; every other method is taken from `base`, which is
arbitrary. -/
def resendMembers (config : CastTransportConfig)
    (packetizeAudio : EncodedAudioFrame → TimeTicks → PacketList)
    (packetizeVideo : EncodedVideoFrame → TimeTicks → PacketList)
    (base : Members ResendSession) : Members ResendSession :=
  { base with
    audio_sender_initialized := fun w => (w.session.audio_sender.initialized, w)
    video_sender_initialized := fun w => (w.session.video_sender.initialized, w)
    status_callback_Run := fun _ s w =>
      { w with session := { w.session with statuses := w.session.statuses ++ [s] } }
    audio_sender_InsertCodedAudioFrame := fun f t w =>
      let (s, p) := w.session.audio_sender.insert_coded_frame packetizeAudio f t w.session.pacer
      { w with
        session := { w.session with audio_sender := s, pacer := p }
        audio_history :=
          if w.session.audio_sender.initialized then
            w.audio_history ++ [{ frame_id := f.frame_id, time := t, packets := packetizeAudio f t }]
          else w.audio_history }
    video_sender_InsertCodedVideoFrame := fun f t w =>
      let (s, p) := w.session.video_sender.insert_coded_frame packetizeVideo f t w.session.pacer
      { w with
        session := { w.session with video_sender := s, pacer := p }
        video_history :=
          if w.session.video_sender.initialized then
            w.video_history ++ [{ frame_id := f.frame_id, time := t, packets := packetizeVideo f t }]
          else w.video_history }
    audio_sender_ResendPackets := fun m w =>
      { w with session := { w.session with
          pacer := resend_packets config.audio_rtp_history_ms w.now w.audio_history m
            w.session.pacer } }
    video_sender_ResendPackets := fun m w =>
      { w with session := { w.session with
          pacer := resend_packets config.video_rtp_history_ms w.now w.video_history m
            w.session.pacer } } }

/-- Members that do nothing, as a `base` for `resendMembers` in examples. -/
def idleResendMembers : Members ResendSession where
  pacer_ctor _ _ _ _ _ w := w
  rtcp_builder_ctor _ w := w
  audio_sender_ctor _ _ _ w := w
  video_sender_ctor _ _ _ w := w
  audio_sender_initialized w := (w.session.audio_sender.initialized, w)
  video_sender_initialized w := (w.session.video_sender.initialized, w)
  status_callback_Run _ _ w := w
  pacer_SetPacketReceiver _ w := w
  pacer_InsertFakeTransportForTesting _ w := w
  audio_sender_InsertCodedAudioFrame _ _ w := w
  video_sender_InsertCodedVideoFrame _ _ w := w
  rtcp_builder_SendRtcpFromRtpSender _ _ _ _ _ _ w := w
  audio_sender_ResendPackets _ w := w
  video_sender_ResendPackets _ w := w
  audio_sender_GetStatistics _ si w := (si, w)
  video_sender_GetStatistics _ si w := (si, w)

/-- An example configuration: both history windows are 1000 ms. -/
def exampleConfig : CastTransportConfig :=
  { receiver_ip_address := "", local_ip_address := "", receive_port := 0, send_port := 0,
    audio_ssrc := 1001, video_ssrc := 2001, video_codec := VideoCodec.kVp8,
    audio_codec := AudioCodec.kOpus, audio_rtp_history_ms := 1000,
    video_rtp_history_ms := 1000, audio_rtp_max_delay_ms := 0, video_rtp_max_delay_ms := 0,
    audio_rtp_payload_type := 127, video_rtp_payload_type := 96, audio_frequency := 48000,
    audio_channels := 2, aes_key := "", aes_iv_mask := "" }

/-- An example session with both senders initialized and nothing sent. -/
def exampleLiveSession : SessionModel :=
  { pacer := { packet_receiver := none, fake_transport := none, queued := [] },
    audio_sender := { initialized := true, send_packet_count := 0, send_octet_count := 0 },
    video_sender := { initialized := true, send_packet_count := 0, send_octet_count := 0 },
    statuses := [] }

/-- An example at time 5000 ms: the audio sender has buffered frame 1, sent at
time 0 (older than the window of `exampleConfig`), and frame 20, sent at time
4900. -/
def exampleResendSession : ResendSession :=
  { now := 5000, session := exampleLiveSession,
    audio_history := [{ frame_id := 1, time := 0, packets := [[1, 0], [1, 1]] },
                      { frame_id := 20, time := 4900, packets := [[20, 0], [20, 1]] }],
    video_history := [] }

end media.cast.transport
namespace media.cast.transport

end media.cast.transport

namespace media.cast.transport

end media.cast.transport

/-! ## Ordered containers (`std::map`, `std::set`) -/

/-- The comparison `std::less<K>` that orders the keys of a `std::map` or the
elements of a `std::set`. -/
class StdLess (K : Type) where
  less : K → K → Bool

instance : StdLess Nat := ⟨fun a b => decide (a < b)⟩

/-- Strings compare as `std::string` does: lexicographically, character by
character. -/
instance : StdLess String := ⟨fun a b => decide (a.toList < b.toList)⟩

/-- A `std::map<K, V>`: its entries in iteration order, which is ascending
key order. -/
abbrev StdMap (K V : Type) := List (K × V)

namespace StdMap

variable {K V : Type} [DecidableEq K] [StdLess K]

/-- The value at a key (`find`), `none` for `end()`. -/
def find (k : K) : StdMap K V → Option V
  | [] => none
  | (k', v) :: rest => if k' = k then some v else find k rest

/-- Assignment through `operator[]`: the entry for `k` is created at its place
in key order, or its value is replaced. -/
def insert (k : K) (v : V) : StdMap K V → StdMap K V
  | [] => [(k, v)]
  | (k', v') :: rest =>
      if StdLess.less k k' then (k, v) :: (k', v') :: rest
      else if k = k' then (k, v) :: rest
      else (k', v') :: insert k v rest

/-- Removal of the entry with key `k` (`erase`), if there is one. -/
def erase (k : K) (m : StdMap K V) : StdMap K V :=
  m.filter (fun e => decide (e.1 ≠ k))

/-- Assignment through an iterator obtained from `find(k)`: the value of the
entry for `k` is changed in place. -/
def modify (k : K) (f : V → V) : StdMap K V → StdMap K V
  | [] => []
  | (k', v) :: rest => if k' = k then (k', f v) :: rest else (k', v) :: modify k f rest

/-- The keys, in iteration order. -/
def keys (m : StdMap K V) : List K := m.map Prod.fst

/-- The values, in iteration order. -/
def values (m : StdMap K V) : List V := m.map Prod.snd

end StdMap

/-- A `std::set<K>`: its elements in ascending order. -/
abbrev StdSet (K : Type) := List K

namespace StdSet

variable {K : Type} [DecidableEq K] [StdLess K]

/-- Insertion into the set; an element already present is not added again. -/
def insert (k : K) : StdSet K → StdSet K
  | [] => [k]
  | k' :: rest =>
      if StdLess.less k k' then k :: k' :: rest
      else if k = k' then k' :: rest
      else k' :: insert k rest

/-- Membership (`ContainsKey`, `find(k) != end()`). -/
def contains (s : StdSet K) (k : K) : Bool := decide (k ∈ s)

end StdSet

/-! ## The scan result dialog controller
(`media_galleries_scan_result_dialog_controller.cc`) -/

/-- A `MediaGalleryPrefId`. -/
abbrev MediaGalleryPrefId := Nat

/-- The values of `MediaGalleryPrefInfo::Type` the controller tells apart:
`kScanResult`, `kRemovedScan`, and any other type. -/
inductive MediaGalleryType where
  | kScanResult
  | kRemovedScan
  | kOtherType
  deriving DecidableEq, Repr

/-- The members of `MediaGalleryPrefInfo` (declared in
`media_galleries_preferences.h`) that the controller reads; `absolute_path`
is the value of `AbsolutePath()`.  The three counts are counts of files, taken
as integers. -/
structure MediaGalleryPrefInfo where
  pref_id : MediaGalleryPrefId
  type : MediaGalleryType
  device_id : String
  absolute_path : String
  image_count : Int
  music_count : Int
  video_count : Int
  deriving DecidableEq, Repr

/-- The contents of the preferences (`MediaGalleriesPreferences`) that the
controller reads: `known_galleries()` and `GalleriesForExtension(extension)`,
the latter by the id of the extension. -/
structure MediaGalleriesPreferences where
  known_galleries : StdMap MediaGalleryPrefId MediaGalleryPrefInfo
  GalleriesForExtension : String → StdSet MediaGalleryPrefId

/-- The struct `MediaGalleriesScanResultDialogController::ScanResult`. -/
structure ScanResult where
  pref_info : MediaGalleryPrefInfo
  selected : Bool
  deriving DecidableEq, Repr

/-- The total `image_count + music_count + video_count` of a scan result. -/
def ScanResult.media_count (a : ScanResult) : Int :=
  a.pref_info.image_count + a.pref_info.music_count + a.pref_info.video_count

/-- The width of `int`. -/
def kIntBits : Nat := 32

/-- The value an `int` variable holds once the integer `x` has been computed
into it: `x` when it fits, and otherwise `x` wrapped into the range of `int`
(two's complement, as the compiled code does). -/
def wrapInt (x : Int) : Int :=
  (x + 2 ^ (kIntBits - 1)) % 2 ^ kIntBits - 2 ^ (kIntBits - 1)

/-- The comparator for sorting scan results: more files first, then by
absolute path.  `a_media_count` and `b_media_count` are `int` variables. -/
def ScanResultsComparator (a b : ScanResult) : Bool :=
  let a_media_count := wrapInt (a.pref_info.image_count + a.pref_info.music_count +
    a.pref_info.video_count)
  let b_media_count := wrapInt (b.pref_info.image_count + b.pref_info.music_count +
    b.pref_info.video_count)
  if a_media_count = b_media_count then
    StdLess.less a.pref_info.absolute_path b.pref_info.absolute_path
  else decide (a_media_count > b_media_count)

/-- The call `std::sort(first, last, comp)`.  The C++ standard leaves the
relative order of elements that `comp` does not tell apart unspecified; here
they keep their order.  What is proved of a sorted list is that it is a
permutation of the input ordered by `comp`, which holds of every such order. -/
def stdSort {α : Type} (comp : α → α → Bool) (l : List α) : List α :=
  l.insertionSort (fun a b => comp b a = false)

/-- The data members of `MediaGalleriesScanResultDialogController` that its
methods read or write: the extension (by its id), `scan_results_`,
`results_to_remove_`, whether `dialog_` is set, and as an observation the
number of `UpdateResults()` calls made on the dialog. -/
structure MediaGalleriesScanResultDialogController where
  extension_ : String
  scan_results_ : StdMap MediaGalleryPrefId ScanResult
  results_to_remove_ : StdSet MediaGalleryPrefId
  dialog_ : Bool
  dialog_updates : Nat
  deriving DecidableEq, Repr

/-- A call the controller makes on the preferences, on the storage monitor or
on its `on_finish_` callback while the dialog finishes. -/
inductive DialogCall where
  | RemoveGalleryChangeObserver
  | SetGalleryPermissionForExtension (extension : String) (pref_id : MediaGalleryPrefId)
      (has_permission : Bool)
  | ForgetGalleryById (pref_id : MediaGalleryPrefId)
  | on_finish_Run
  | StorageMonitor_RemoveObserver
  deriving DecidableEq, Repr

namespace MediaGalleriesScanResultDialogController

/-- The method `GetGalleryList() const`: the values of `scan_results_`, sorted
with `ScanResultsComparator`. -/
def GetGalleryList (c : MediaGalleriesScanResultDialogController) : List ScanResult :=
  stdSort ScanResultsComparator (StdMap.values c.scan_results_)

/-- The method `DidToggleGalleryId(pref_id, selected)`.  When `pref_id` is not
a key of `scan_results_` the iterator is `end()` and the assignment through it
has no defined result: `none`. -/
def DidToggleGalleryId (pref_id : MediaGalleryPrefId) (selected : Bool)
    (c : MediaGalleriesScanResultDialogController) :
    Option MediaGalleriesScanResultDialogController :=
  match StdMap.find pref_id c.scan_results_ with
  | none => none
  | some _ =>
      some { c with scan_results_ :=
        StdMap.modify pref_id (fun entry => { entry with selected := selected }) c.scan_results_ }

/-- The call `dialog_->UpdateResults()`: `none` when `dialog_` is not set. -/
def UpdateResults (c : MediaGalleriesScanResultDialogController) :
    Option MediaGalleriesScanResultDialogController :=
  if c.dialog_ then some { c with dialog_updates := c.dialog_updates + 1 } else none

/-- The method `DidForgetGallery(pref_id)`. -/
def DidForgetGallery (pref_id : MediaGalleryPrefId)
    (c : MediaGalleriesScanResultDialogController) :
    Option MediaGalleriesScanResultDialogController :=
  UpdateResults
    { c with results_to_remove_ := StdSet.insert pref_id c.results_to_remove_
             scan_results_ := StdMap.erase pref_id c.scan_results_ }

/-- The calls of the destructor, run by `delete this`; `storage_monitor` tells
whether `StorageMonitor::GetInstance()` is set. -/
def destructor_calls (storage_monitor : Bool) : List DialogCall :=
  DialogCall.RemoveGalleryChangeObserver ::
    (if storage_monitor then [DialogCall.StorageMonitor_RemoveObserver] else [])

/-- The method `DialogFinished(accepted)`, as the calls it makes, in order:
the controller removes itself from the observers of the preferences; if
accepted, it grants the permission for every selected scan result, in key
order, and forgets every gallery of `results_to_remove_`; it runs `on_finish_`
and deletes itself.  (The `DCHECK`s are debug-only.) -/
def DialogFinished (accepted : Bool) (storage_monitor : Bool)
    (c : MediaGalleriesScanResultDialogController) : List DialogCall :=
  [DialogCall.RemoveGalleryChangeObserver] ++
  (if accepted then
    (c.scan_results_.filter (fun it => it.2.selected)).map
        (fun it => DialogCall.SetGalleryPermissionForExtension c.extension_ it.1 true) ++
      c.results_to_remove_.map DialogCall.ForgetGalleryById
   else []) ++
  [DialogCall.on_finish_Run] ++
  destructor_calls storage_monitor

/-- The condition of the first loop of `UpdateFromPreferences`: the gallery is
a scan result, the extension has no access to it, and it is not in
`results_to_remove_`. -/
def wanted (permitted results_to_remove : StdSet MediaGalleryPrefId)
    (gallery : MediaGalleryPrefInfo) : Bool :=
  decide (gallery.type = MediaGalleryType.kScanResult) &&
    !StdSet.contains permitted gallery.pref_id &&
    !StdSet.contains results_to_remove gallery.pref_id

/-- One step of the first loop of `UpdateFromPreferences`, for the gallery
`gallery` of `known_galleries()`: a scan result the extension has no access to
and that is not in `results_to_remove_` is added, selected, or its `pref_info`
is updated. -/
def addOrUpdate (permitted results_to_remove : StdSet MediaGalleryPrefId)
    (scan_results : StdMap MediaGalleryPrefId ScanResult) (gallery : MediaGalleryPrefInfo) :
    StdMap MediaGalleryPrefId ScanResult :=
  if wanted permitted results_to_remove gallery then
    match StdMap.find gallery.pref_id scan_results with
    | none => StdMap.insert gallery.pref_id { pref_info := gallery, selected := true } scan_results
    | some _ =>
        StdMap.modify gallery.pref_id (fun existing => { existing with pref_info := gallery })
          scan_results
  else scan_results

/-- The last gallery of `galleries`, in iteration order, that the first loop
of `UpdateFromPreferences` adds or updates under the key `key`. -/
def lastWanted (permitted results_to_remove : StdSet MediaGalleryPrefId)
    (key : MediaGalleryPrefId) (galleries : StdMap MediaGalleryPrefId MediaGalleryPrefInfo) :
    Option MediaGalleryPrefInfo :=
  ((galleries.filter
    (fun it => wanted permitted results_to_remove it.2 && decide (it.2.pref_id = key))).getLast?).map
    Prod.snd

/-- The scan results after the first loop of `UpdateFromPreferences`. -/
def addOrUpdateAll (permitted results_to_remove : StdSet MediaGalleryPrefId)
    (galleries : StdMap MediaGalleryPrefId MediaGalleryPrefInfo)
    (scan_results : StdMap MediaGalleryPrefId ScanResult) :
    StdMap MediaGalleryPrefId ScanResult :=
  galleries.foldl (fun scan_results it => addOrUpdate permitted results_to_remove scan_results it.2)
    scan_results

/-- The test of the second loop of `UpdateFromPreferences`: the entry with key
`key` is removed when the preferences no longer list it, list it with another
type, or the extension has access to it. -/
def noLongerValid (galleries : StdMap MediaGalleryPrefId MediaGalleryPrefInfo)
    (permitted : StdSet MediaGalleryPrefId) (key : MediaGalleryPrefId) : Bool :=
  match StdMap.find key galleries with
  | none => true
  | some pref_gallery =>
      decide (pref_gallery.type ≠ MediaGalleryType.kScanResult) || StdSet.contains permitted key

/-- The method `UpdateFromPreferences()`, reading the preferences `prefs`. -/
def UpdateFromPreferences (prefs : MediaGalleriesPreferences)
    (c : MediaGalleriesScanResultDialogController) : MediaGalleriesScanResultDialogController :=
  let galleries := prefs.known_galleries
  let permitted := prefs.GalleriesForExtension c.extension_
  let added := addOrUpdateAll permitted c.results_to_remove_ galleries c.scan_results_
  { c with scan_results_ := added.filter (fun it => !noLongerValid galleries permitted it.1) }

/-- The method `OnPreferenceUpdate(extension_id, pref_id)`, reading the
preferences `prefs`. -/
def OnPreferenceUpdate (prefs : MediaGalleriesPreferences) (extension_id : String)
    (pref_id : MediaGalleryPrefId) (c : MediaGalleriesScanResultDialogController) :
    Option MediaGalleriesScanResultDialogController :=
  if extension_id = c.extension_ then
    match StdMap.find pref_id prefs.known_galleries with
    | none => UpdateResults (UpdateFromPreferences prefs c)
    | some it =>
        if it.type = MediaGalleryType.kScanResult ∨ it.type = MediaGalleryType.kRemovedScan then
          UpdateResults (UpdateFromPreferences prefs c)
        else some c
  else some c

/-- The constructor used for unit tests, with `OnPreferencesInitialized()`:
the controller starts with no scan result and nothing to remove, updates
itself from the preferences, and creates the dialog unless
`create_dialog_callback` is null. -/
def create (extension : String) (prefs : MediaGalleriesPreferences)
    (create_dialog_callback_is_null : Bool) : MediaGalleriesScanResultDialogController :=
  let c := UpdateFromPreferences prefs
    { extension_ := extension, scan_results_ := [], results_to_remove_ := [],
      dialog_ := false, dialog_updates := 0 }
  { c with dialog_ := !create_dialog_callback_is_null }

/-- A later event in the life of the controller: a call of
`UpdateFromPreferences` or of `OnPreferenceUpdate`, each with the contents of
the preferences at the time of the call. -/
inductive Update where
  | UpdateFromPreferences (prefs : MediaGalleriesPreferences)
  | OnPreferenceUpdate (prefs : MediaGalleriesPreferences) (extension_id : String)
      (pref_id : MediaGalleryPrefId)

/-- Runs one such event. -/
def Update.run : Update → MediaGalleriesScanResultDialogController →
    Option MediaGalleriesScanResultDialogController
  | Update.UpdateFromPreferences prefs, c =>
      some (MediaGalleriesScanResultDialogController.UpdateFromPreferences prefs c)
  | Update.OnPreferenceUpdate prefs extension_id pref_id, c =>
      MediaGalleriesScanResultDialogController.OnPreferenceUpdate prefs extension_id pref_id c

/-- Runs a sequence of such events, first to last; `none` as soon as one of
them has no defined result. -/
def runUpdates : List Update → MediaGalleriesScanResultDialogController →
    Option MediaGalleriesScanResultDialogController
  | [], c => some c
  | u :: rest, c =>
      match u.run c with
      | none => none
      | some c1 => runUpdates rest c1

/-- The invariant of `scan_results_`: every entry is keyed by the `pref_id` of
its `pref_info`. -/
def keyedByPrefId (c : MediaGalleriesScanResultDialogController) : Prop :=
  ∀ it ∈ c.scan_results_, it.2.pref_info.pref_id = it.1

instance (c : MediaGalleriesScanResultDialogController) : Decidable (keyedByPrefId c) := by
  unfold keyedByPrefId
  infer_instance

end MediaGalleriesScanResultDialogController

/-- Whether a call changes the preferences: it grants a permission or forgets
a gallery. -/
def DialogCall.changesPreferences : DialogCall → Bool
  | DialogCall.SetGalleryPermissionForExtension _ _ _ => true
  | DialogCall.ForgetGalleryById _ => true
  | _ => false

/-- An example gallery: a scan result with the given id and image count. -/
def exampleGallery (pref_id : MediaGalleryPrefId) (images : Int) : MediaGalleryPrefInfo :=
  { pref_id := pref_id, type := MediaGalleryType.kScanResult, device_id := "dev",
    absolute_path := "/media", image_count := images, music_count := 0, video_count := 0 }

/-- Example preferences: the scan results 1 and 2 and a gallery 3 of another
type; the extension `"ext"` has access to none of them. -/
def examplePrefs : MediaGalleriesPreferences :=
  { known_galleries :=
      [(1, exampleGallery 1 5), (2, exampleGallery 2 7),
       (3, { exampleGallery 3 1 with type := MediaGalleryType.kOtherType })],
    GalleriesForExtension := fun _ => [] }

/-- The example controller: created for the extension `"ext"` from the example
preferences, with a dialog. -/
def exampleController : MediaGalleriesScanResultDialogController :=
  MediaGalleriesScanResultDialogController.create "ext" examplePrefs false

/-- The example controller after `DidForgetGallery(1)`. -/
def exampleForgotten : MediaGalleriesScanResultDialogController :=
  { extension_ := "ext",
    scan_results_ := [(2, { pref_info := exampleGallery 2 7, selected := true })],
    results_to_remove_ := [1], dialog_ := true, dialog_updates := 1 }

/-! ## The app list syncable service (`app_list_syncable_service.cc`) -/

namespace app_list

/-- The enum `sync_pb::AppListSpecifics::AppListItemType`. -/
inductive AppListItemType where
  | TYPE_APP
  | TYPE_REMOVE_DEFAULT_APP
  | TYPE_FOLDER
  | TYPE_URL
  deriving DecidableEq, Repr

/-- A `syncer::StringOrdinal`: its internal value and whether it is valid. -/
structure StringOrdinal where
  bytes : String
  is_valid : Bool
  deriving DecidableEq, Repr

/-- The default-constructed ordinal, which is not valid. -/
def StringOrdinal.invalid : StringOrdinal := { bytes := "", is_valid := false }

/-- The method `Equals` of `StringOrdinal`: the internal values are equal. -/
def StringOrdinal.Equals (a b : StringOrdinal) : Bool := decide (a.bytes = b.bytes)

/-- The fields of `sync_pb::AppListSpecifics` the service reads and writes. -/
structure AppListSpecifics where
  item_id : String
  item_type : AppListItemType
  item_name : String
  parent_id : String
  page_ordinal : String
  item_ordinal : String
  deriving DecidableEq, Repr

/-- The struct `AppListSyncableService::SyncItem`. -/
structure SyncItem where
  item_id : String
  item_type : AppListItemType
  item_name : String
  parent_id : String
  page_ordinal : StringOrdinal
  item_ordinal : StringOrdinal
  deriving DecidableEq, Repr

/-- The constructor `SyncItem(id, type)`. -/
def SyncItem.new (id : String) (type : AppListItemType) : SyncItem :=
  { item_id := id, item_type := type, item_name := "", parent_id := "",
    page_ordinal := StringOrdinal.invalid, item_ordinal := StringOrdinal.invalid }

/-- The values of `AppListItem::GetItemType()` the service tells apart:
`ExtensionAppItem::kItemType`, `AppListFolderItem::kItemType`, any other. -/
inductive AppItemKind where
  | ExtensionAppItem
  | AppListFolderItem
  | Other
  deriving DecidableEq, Repr

/-- What the service reads of an `AppListItem`. -/
structure AppListItem where
  id : String
  title : String
  position : StringOrdinal
  kind : AppItemKind
  deriving DecidableEq, Repr

/-- The enum `syncer::SyncChange::SyncChangeType`. -/
inductive SyncChangeType where
  | ACTION_INVALID
  | ACTION_ADD
  | ACTION_UPDATE
  | ACTION_DELETE
  deriving DecidableEq, Repr

/-- A `syncer::SyncChange`: its type and the app list specifics of its data. -/
structure SyncChange where
  change_type : SyncChangeType
  specifics : AppListSpecifics
  deriving DecidableEq, Repr

/-- The error types of `syncer::SyncError` that occur here: unset (no error)
and `DATATYPE_ERROR`. -/
inductive SyncErrorType where
  | UNSET
  | DATATYPE_ERROR
  deriving DecidableEq, Repr

/-- A `syncer::SyncError`. -/
structure SyncError where
  error_type : SyncErrorType
  message : String
  deriving DecidableEq, Repr

/-- The error `syncer::SyncError()`: no error. -/
def SyncError.unset : SyncError := { error_type := SyncErrorType.UNSET, message := "" }

/-- What the service asks of the `ExtensionService`: which extensions are
installed (`GetInstalledExtension(id)` is not null) and which were installed
by default (`extension_prefs()->WasInstalledByDefault(id)`). -/
structure ExtensionService where
  installed : List String
  installed_by_default : List String
  deriving DecidableEq, Repr

/-- A call the service makes on an object outside itself. -/
inductive ServiceCall where
  | SyncProcessor_ProcessSyncChanges (change_list : List SyncChange)
  | ExtensionService_UninstallExtension (id : String)
  | flare_Run
  deriving DecidableEq, Repr

/-- The methods of the item list of the model (`model_->item_list()`, class
`AppListItemList`) that the service calls, and the validity test of
`StringOrdinal`, for an item list of type `L`.  Their bodies are in other
files; the service is embedded for every choice of them.  The methods act on
the item list only: observers of the list are not part of this embedding. -/
structure ItemListMethods (L : Type) where
  FindItem : String → L → Option AppListItem
  AddItem : AppListItem → L → L
  DeleteItem : String → L → L
  SetItemPosition : AppListItem → StringOrdinal → L → L
  IsValidOrdinal : String → Bool

/-- The data members of `AppListSyncableService` that its methods read or
write: `sync_items_`, whether `sync_processor_`, `sync_error_handler_` and
`flare_` are set, the item list of `model_`, the extension service of
`extension_system_` (`none` when `extension_service()` is null;
`extension_system_` itself is taken to be set), and as an observation the
calls made on outside objects, in order. -/
structure AppListSyncableService (L : Type) where
  sync_items_ : StdMap String SyncItem
  sync_processor_ : Bool
  sync_error_handler_ : Bool
  flare_ : Bool
  item_list : L
  extension_service : Option ExtensionService
  calls : List ServiceCall

/-- The constructor `syncer::StringOrdinal(bytes)`. -/
def StringOrdinal.ofString {L : Type} (e : ItemListMethods L) (bytes : String) : StringOrdinal :=
  { bytes := bytes, is_valid := e.IsValidOrdinal bytes }

/-- The function `UpdateSyncItemFromSync`. -/
def UpdateSyncItemFromSync {L : Type} (e : ItemListMethods L) (specifics : AppListSpecifics)
    (item : SyncItem) : SyncItem :=
  let item1 := { item with item_type := specifics.item_type, item_name := specifics.item_name,
                           parent_id := specifics.parent_id }
  let item2 :=
    if specifics.page_ordinal ≠ "" then
      { item1 with page_ordinal := StringOrdinal.ofString e specifics.page_ordinal }
    else item1
  if specifics.item_ordinal ≠ "" then
    { item2 with item_ordinal := StringOrdinal.ofString e specifics.item_ordinal }
  else item2

/-- The function `UpdateSyncItemFromAppItem`: the updated sync item and
whether it changed. -/
def UpdateSyncItemFromAppItem (app_item : AppListItem) (sync_item : SyncItem) :
    Bool × SyncItem :=
  let (changed1, item1) :=
    if sync_item.item_name ≠ app_item.title then
      (true, { sync_item with item_name := app_item.title })
    else (false, sync_item)
  if !item1.item_ordinal.is_valid || !app_item.position.Equals item1.item_ordinal then
    (true, { item1 with item_ordinal := app_item.position })
  else (changed1, item1)

/-- The function `GetSyncSpecificsFromSyncItem`; a field that is not set holds
the empty string. -/
def GetSyncSpecificsFromSyncItem (item : SyncItem) : AppListSpecifics :=
  { item_id := item.item_id, item_type := item.item_type, item_name := item.item_name,
    parent_id := item.parent_id,
    page_ordinal := if item.page_ordinal.is_valid then item.page_ordinal.bytes else "",
    item_ordinal := if item.item_ordinal.is_valid then item.item_ordinal.bytes else "" }

/-- The function `AppIsDefault`. -/
def AppIsDefault (service : Option ExtensionService) (id : String) : Bool :=
  match service with
  | none => false
  | some s => decide (id ∈ s.installed_by_default)

/-- The function `GetAppListItemType`: `none` for an unrecognized item. -/
def GetAppListItemType (item : AppListItem) : Option AppListItemType :=
  match item.kind with
  | AppItemKind.ExtensionAppItem => some AppListItemType.TYPE_APP
  | AppItemKind.AppListFolderItem => some AppListItemType.TYPE_FOLDER
  | AppItemKind.Other => none

namespace AppListSyncableService

variable {L : Type}

/-- The function `UninstallExtension`: if the service exists and the
extension is installed, `ExtensionService::UninstallExtension` is called; the
extension is then no longer installed. -/
def UninstallExtension (id : String) (s : AppListSyncableService L) : AppListSyncableService L :=
  match s.extension_service with
  | none => s
  | some service =>
      if id ∈ service.installed then
        { s with
          extension_service :=
            some { service with installed := service.installed.filter (fun x => decide (x ≠ id)) },
          calls := s.calls ++ [ServiceCall.ExtensionService_UninstallExtension id] }
      else s

/-- The method `FindSyncItem`. -/
def FindSyncItem (item_id : String) (s : AppListSyncableService L) : Option SyncItem :=
  StdMap.find item_id s.sync_items_

/-- The method `SyncStarted`.  When sync has not been started and no flare has
been obtained yet, the flare is obtained (taken to be a callback that is not
null) and run. -/
def SyncStarted (s : AppListSyncableService L) : Bool × AppListSyncableService L :=
  if s.sync_processor_ then (true, s)
  else if !s.flare_ then
    (false, { s with flare_ := true, calls := s.calls ++ [ServiceCall.flare_Run] })
  else (false, s)

/-- The method `SendSyncChange` for the sync item with id `item_id`. -/
def SendSyncChange (item_id : String) (sync_change_type : SyncChangeType)
    (s : AppListSyncableService L) : AppListSyncableService L :=
  let (started, s1) := SyncStarted s
  if !started then s1
  else
    match StdMap.find item_id s1.sync_items_ with
    | none => s1
    | some sync_item =>
        { s1 with calls := s1.calls ++
            [ServiceCall.SyncProcessor_ProcessSyncChanges
              [{ change_type := sync_change_type,
                 specifics := GetSyncSpecificsFromSyncItem sync_item }]] }

/-- The method `CreateSyncItem`. -/
def CreateSyncItem (item_id : String) (item_type : AppListItemType)
    (s : AppListSyncableService L) : AppListSyncableService L :=
  { s with sync_items_ := StdMap.insert item_id (SyncItem.new item_id item_type) s.sync_items_ }

/-- The method `DeleteSyncItem` for the sync item with id `item_id`. -/
def DeleteSyncItem (item_id : String) (s : AppListSyncableService L) :
    AppListSyncableService L :=
  let (started, s1) := SyncStarted s
  let s2 :=
    if started then
      match StdMap.find item_id s1.sync_items_ with
      | none => s1
      | some sync_item =>
          { s1 with calls := s1.calls ++
              [ServiceCall.SyncProcessor_ProcessSyncChanges
                [{ change_type := SyncChangeType.ACTION_DELETE,
                   specifics := GetSyncSpecificsFromSyncItem sync_item }]] }
    else s1
  { s2 with sync_items_ := StdMap.erase item_id s2.sync_items_ }

/-- The method `UpdateSyncItem`. -/
def UpdateSyncItem (app_item : AppListItem) (s : AppListSyncableService L) :
    AppListSyncableService L :=
  match FindSyncItem app_item.id s with
  | none => s
  | some sync_item =>
      let (changed, item1) := UpdateSyncItemFromAppItem app_item sync_item
      let s1 := { s with sync_items_ := StdMap.modify app_item.id (fun _ => item1) s.sync_items_ }
      if !changed then s1
      else SendSyncChange app_item.id SyncChangeType.ACTION_UPDATE s1

/-- The method `CreateSyncItemFromAppItem`: the id of the sync item created
(`none` for `NULL`) and the state after. -/
def CreateSyncItemFromAppItem (app_item : AppListItem) (s : AppListSyncableService L) :
    Option String × AppListSyncableService L :=
  match GetAppListItemType app_item with
  | none => (none, s)
  | some type =>
      let s1 := CreateSyncItem app_item.id type s
      let items := StdMap.modify app_item.id
        (fun item => (UpdateSyncItemFromAppItem app_item item).2) s1.sync_items_
      let s2 := { s1 with sync_items_ := items }
      (some app_item.id, SendSyncChange app_item.id SyncChangeType.ACTION_ADD s2)

/-- The method `RemoveDefaultApp(item, sync_item)` for the sync item
`sync_item`, stored under its id: whether the app was uninstalled, and the
state after.  The `CHECK_EQ` ends the process when the type of the sync item
is not `TYPE_REMOVE_DEFAULT_APP`: `none`. -/
def RemoveDefaultApp (item : AppListItem) (sync_item : SyncItem)
    (s : AppListSyncableService L) : Option (Bool × AppListSyncableService L) :=
  if sync_item.item_type ≠ AppListItemType.TYPE_REMOVE_DEFAULT_APP then none
  else if sync_item.item_type = AppListItemType.TYPE_APP ∧
      AppIsDefault s.extension_service item.id = true then
    some (true, UninstallExtension item.id s)
  else
    some (false, DeleteSyncItem sync_item.item_id s)

/-- The method `AddOrUpdateSyncItem`: the id of the sync item returned (`none`
for `NULL`) and the state after. -/
def AddOrUpdateSyncItem (app_item : AppListItem) (s : AppListSyncableService L) :
    Option (Option String × AppListSyncableService L) :=
  let item_id := app_item.id
  if item_id = "" then some (none, s)
  else
    match FindSyncItem item_id s with
    | some sync_item =>
        if sync_item.item_type ≠ AppListItemType.TYPE_REMOVE_DEFAULT_APP then
          some (some sync_item.item_id, UpdateSyncItem app_item s)
        else
          match RemoveDefaultApp app_item sync_item s with
          | none => none
          | some (true, s1) => some (none, s1)
          | some (false, s1) => some (CreateSyncItemFromAppItem app_item s1)
    | none => some (CreateSyncItemFromAppItem app_item s)

/-- The method `UpdateAppItemFromSyncItem`. -/
def UpdateAppItemFromSyncItem (e : ItemListMethods L) (sync_item : SyncItem)
    (app_item : AppListItem) (s : AppListSyncableService L) : AppListSyncableService L :=
  if !app_item.position.Equals sync_item.item_ordinal then
    { s with item_list := e.SetItemPosition app_item sync_item.item_ordinal s.item_list }
  else s

/-- The method `ProcessNewSyncItem`. -/
def ProcessNewSyncItem (sync_item : SyncItem) (s : AppListSyncableService L) :
    AppListSyncableService L :=
  match sync_item.item_type with
  | AppListItemType.TYPE_APP => s
  | AppListItemType.TYPE_REMOVE_DEFAULT_APP => UninstallExtension sync_item.item_id s
  | AppListItemType.TYPE_FOLDER => s
  | AppListItemType.TYPE_URL => s

/-- The method `ProcessExistingSyncItem`. -/
def ProcessExistingSyncItem (e : ItemListMethods L) (sync_item : SyncItem)
    (s : AppListSyncableService L) : AppListSyncableService L :=
  if sync_item.item_type = AppListItemType.TYPE_REMOVE_DEFAULT_APP then s
  else
    match e.FindItem sync_item.item_id s.item_list with
    | none => s
    | some app_item => UpdateAppItemFromSyncItem e sync_item app_item s

/-- The method `ProcessSyncItemSpecifics`: whether a new sync item was
created, and the state after. -/
def ProcessSyncItemSpecifics (e : ItemListMethods L) (specifics : AppListSpecifics)
    (s : AppListSyncableService L) : Bool × AppListSyncableService L :=
  let item_id := specifics.item_id
  if item_id = "" then (false, s)
  else
    let create := fun (s1 : AppListSyncableService L) =>
      let s2 := CreateSyncItem item_id specifics.item_type s1
      let sync_item := UpdateSyncItemFromSync e specifics (SyncItem.new item_id specifics.item_type)
      let s3 := { s2 with sync_items_ := StdMap.modify item_id (fun _ => sync_item) s2.sync_items_ }
      (true, ProcessNewSyncItem sync_item s3)
    match FindSyncItem item_id s with
    | some sync_item =>
        if sync_item.item_type = specifics.item_type then
          let item1 := UpdateSyncItemFromSync e specifics sync_item
          let s1 := { s with sync_items_ := StdMap.modify item_id (fun _ => item1) s.sync_items_ }
          (false, ProcessExistingSyncItem e item1 s1)
        else
          let s1 :=
            if sync_item.item_type ≠ AppListItemType.TYPE_REMOVE_DEFAULT_APP ∧
                specifics.item_type ≠ AppListItemType.TYPE_REMOVE_DEFAULT_APP then
              { s with item_list := e.DeleteItem item_id s.item_list }
            else s
          create { s1 with sync_items_ := StdMap.erase item_id s1.sync_items_ }
    | none => create s

/-- The method `DeleteSyncItemSpecifics`. -/
def DeleteSyncItemSpecifics (e : ItemListMethods L) (specifics : AppListSpecifics)
    (s : AppListSyncableService L) : AppListSyncableService L :=
  let item_id := specifics.item_id
  if item_id = "" then s
  else
    match StdMap.find item_id s.sync_items_ with
    | none => s
    | some sync_item =>
        let item_type := sync_item.item_type
        let s1 := { s with sync_items_ := StdMap.erase item_id s.sync_items_ }
        if item_type ≠ AppListItemType.TYPE_REMOVE_DEFAULT_APP then
          { s1 with item_list := e.DeleteItem item_id s1.item_list }
        else s1

/-- The body of the loop of `ProcessSyncChanges`, for one change. -/
def processChange (e : ItemListMethods L) (change : SyncChange) (s : AppListSyncableService L) :
    AppListSyncableService L :=
  if change.change_type = SyncChangeType.ACTION_ADD ∨
      change.change_type = SyncChangeType.ACTION_UPDATE then
    (ProcessSyncItemSpecifics e change.specifics s).2
  else if change.change_type = SyncChangeType.ACTION_DELETE then
    DeleteSyncItemSpecifics e change.specifics s
  else s

/-- The method `ProcessSyncChanges`: the error returned and the state after. -/
def ProcessSyncChanges (e : ItemListMethods L) (change_list : List SyncChange)
    (s : AppListSyncableService L) : SyncError × AppListSyncableService L :=
  if !s.sync_processor_ then
    ({ error_type := SyncErrorType.DATATYPE_ERROR,
       message := "App List syncable service is not started." }, s)
  else
    (SyncError.unset, change_list.foldl (fun s1 change => processChange e change s1) s)

end AppListSyncableService

/-- An item list as the list of its items, for examples: items are found and
deleted by id, added at the end, and moved by changing their position. -/
def listItemList : ItemListMethods (List AppListItem) where
  FindItem id l := l.find? (fun item => decide (item.id = id))
  AddItem item l := l ++ [item]
  DeleteItem id l := l.filter (fun item => decide (item.id ≠ id))
  SetItemPosition item position l :=
    l.map (fun x => if x.id = item.id then { x with position := position } else x)
  IsValidOrdinal bytes := decide (bytes ≠ "")

/-- An example: the app `"app"` was installed by default and is installed; the
service holds a `TYPE_REMOVE_DEFAULT_APP` entry for it; sync has been started. -/
def exampleService : AppListSyncableService (List AppListItem) :=
  { sync_items_ := [("app", SyncItem.new "app" AppListItemType.TYPE_REMOVE_DEFAULT_APP)],
    sync_processor_ := true, sync_error_handler_ := true, flare_ := false, item_list := [],
    extension_service := some { installed := ["app"], installed_by_default := ["app"] },
    calls := [] }

/-- The example app item for the app `"app"`. -/
def exampleAppItem : AppListItem :=
  { id := "app", title := "App", position := { bytes := "n", is_valid := true },
    kind := AppItemKind.ExtensionAppItem }

end app_list

/-! ## Removal of sync items and the initial merge (`app_list_syncable_service.cc`) -/

/-- Removal of an element from a `std::set` (`erase`), if it is there. -/
def StdSet.erase {K : Type} [DecidableEq K] (k : K) (s : StdSet K) : StdSet K :=
  s.filter (fun x => decide (x ≠ k))

namespace app_list

/-- The counts of a `syncer::SyncMergeResult` that the service sets, as
natural numbers (the class is declared in `sync/api/sync_merge_result.h`). -/
structure SyncMergeResult where
  num_items_before_association : Nat
  num_items_after_association : Nat
  num_items_added : Nat
  num_items_deleted : Nat
  num_items_modified : Nat
  deriving DecidableEq, Repr

namespace AppListSyncableService

variable {L : Type}

/-- The invariant of `sync_items_`: every sync item is stored under its own
`item_id`. -/
def keyedByItemId (s : AppListSyncableService L) : Prop :=
  ∀ it ∈ s.sync_items_, it.2.item_id = it.1

instance (s : AppListSyncableService L) : Decidable (keyedByItemId s) := by
  unfold keyedByItemId
  infer_instance

/-- The method `RemoveSyncItem(id)`. -/
def RemoveSyncItem (id : String) (s : AppListSyncableService L) : AppListSyncableService L :=
  match StdMap.find id s.sync_items_ with
  | none => s
  | some sync_item =>
      let type := sync_item.item_type
      if type = AppListItemType.TYPE_REMOVE_DEFAULT_APP then s
      else if type = AppListItemType.TYPE_APP ∧ AppIsDefault s.extension_service id = true then
        let items := StdMap.modify id
          (fun item => { item with item_type := AppListItemType.TYPE_REMOVE_DEFAULT_APP })
          s.sync_items_
        SendSyncChange sync_item.item_id SyncChangeType.ACTION_UPDATE { s with sync_items_ := items }
      else DeleteSyncItem sync_item.item_id s

/-- The variables of the loop of `MergeDataAndStartSyncing` over
`initial_sync_data`. -/
structure MergeLoop (L : Type) where
  service : AppListSyncableService L
  unsynced_items : StdSet String
  new_items : Nat
  updated_items : Nat

/-- The body of the loop of `MergeDataAndStartSyncing`, for the app list
specifics `data` of one entry of `initial_sync_data`. -/
def mergeStep (e : ItemListMethods L) (loop : MergeLoop L) (data : AppListSpecifics) :
    MergeLoop L :=
  let (created, s1) := ProcessSyncItemSpecifics e data loop.service
  { service := s1,
    unsynced_items := StdSet.erase data.item_id loop.unsynced_items,
    new_items := if created then loop.new_items + 1 else loop.new_items,
    updated_items := if created then loop.updated_items else loop.updated_items + 1 }

/-- The change list for the unsynced items: an `ACTION_ADD` with the data of
the sync item found for each id, in order; `FindSyncItem` returning `NULL` for
an id leaves no defined result: `none`. -/
def unsyncedChanges (s : AppListSyncableService L) : List String → Option (List SyncChange)
  | [] => some []
  | id :: rest =>
      match FindSyncItem id s with
      | none => none
      | some sync_item =>
          match unsyncedChanges s rest with
          | none => none
          | some change_list =>
              some ({ change_type := SyncChangeType.ACTION_ADD,
                      specifics := GetSyncSpecificsFromSyncItem sync_item } :: change_list)

/-- The method `MergeDataAndStartSyncing`, for the app list specifics of the
entries of `initial_sync_data`: the merge result and the state after.  (The
`DCHECK`s are debug-only; the counts are taken as natural numbers.) -/
def MergeDataAndStartSyncing (e : ItemListMethods L) (initial_sync_data : List AppListSpecifics)
    (s : AppListSyncableService L) : Option (SyncMergeResult × AppListSyncableService L) :=
  let s0 := { s with sync_processor_ := true, sync_error_handler_ := true }
  let before := s0.sync_items_.length
  let unsynced_items : StdSet String :=
    s0.sync_items_.foldl (fun set it => StdSet.insert it.1 set) []
  let loop := initial_sync_data.foldl (mergeStep e)
    { service := s0, unsynced_items := unsynced_items, new_items := 0, updated_items := 0 }
  let result : SyncMergeResult :=
    { num_items_before_association := before,
      num_items_after_association := loop.service.sync_items_.length,
      num_items_added := loop.new_items,
      num_items_deleted := 0,
      num_items_modified := loop.updated_items }
  match unsyncedChanges loop.service loop.unsynced_items with
  | none => none
  | some change_list =>
      some (result, { loop.service with
        calls := loop.service.calls ++ [ServiceCall.SyncProcessor_ProcessSyncChanges change_list] })

/-- The calls of `ProcessSyncItemSpecifics` for the entries of a list, in
order: what each call returned, and the state after the last. -/
def processAll (e : ItemListMethods L) :
    List AppListSpecifics → AppListSyncableService L → List Bool × AppListSyncableService L
  | [], s => ([], s)
  | data :: rest, s =>
      let (created, s1) := ProcessSyncItemSpecifics e data s
      let (results, s2) := processAll e rest s1
      (created :: results, s2)

end AppListSyncableService

/-- An example: the app `"app"` was installed by default and has a `TYPE_APP`
entry; `"dir"` is a folder; sync has been started. -/
def exampleAppsService : AppListSyncableService (List AppListItem) :=
  { sync_items_ := [("app", SyncItem.new "app" AppListItemType.TYPE_APP),
                    ("dir", SyncItem.new "dir" AppListItemType.TYPE_FOLDER)],
    sync_processor_ := true, sync_error_handler_ := true, flare_ := false, item_list := [],
    extension_service := some { installed := ["app"], installed_by_default := ["app"] },
    calls := [] }

end app_list

/-! ## Theorems -/

open media.cast.transport media.cast.transport.CastTransportSenderImpl

section Recording

theorem newCalls_eq_of_calls_eq {f : Recorder → Recorder} {r : Recorder} {l : List Call}
    (h : (f r).calls = r.calls ++ l) : newCalls f r = l := by
  unfold newCalls
  rw [h]
  exact List.drop_left _ _

theorem statusReports_append (l₁ l₂ : List Call) :
    statusReports (l₁ ++ l₂) = statusReports l₁ ++ statusReports l₂ := by
  induction l₁ with
  | nil => rfl
  | cons c rest ih => cases c <;> simp [statusReports, ih]

theorem callsOn_append (c : Callee) (l₁ l₂ : List Call) :
    callsOn c (l₁ ++ l₂) = callsOn c l₁ ++ callsOn c l₂ := by
  simp [callsOn]

/-- The calls of the member initialiser list, in the order of the list. -/
theorem ctor_members_calls (clock : TickClock) (config : CastTransportConfig)
    (cb : CastTransportStatusCallback) (runner : TaskRunner) (r : Recorder) :
    (ctor_members recorder clock config cb runner r).calls =
      r.calls ++ [Call.pacer_ctor clock config none runner cb,
                  Call.rtcp_builder_ctor Callee.pacer_,
                  Call.audio_sender_ctor config clock Callee.pacer_,
                  Call.video_sender_ctor config clock Callee.pacer_] := by
  simp [ctor_members, recorder, Recorder.record]

theorem ctor_members_answers (clock : TickClock) (config : CastTransportConfig)
    (cb : CastTransportStatusCallback) (runner : TaskRunner) (r : Recorder) :
    (ctor_members recorder clock config cb runner r).audio_initialized = r.audio_initialized ∧
    (ctor_members recorder clock config cb runner r).video_initialized = r.video_initialized := by
  simp [ctor_members, recorder, Recorder.record]

/-- The calls of the constructor body. -/
theorem ctor_body_calls (cb : CastTransportStatusCallback) (r : Recorder) :
    (ctor_body recorder cb r).calls =
      r.calls ++ (Call.audio_sender_initialized ::
        ((if r.audio_initialized then [Call.video_sender_initialized] else []) ++
          [Call.status_callback_Run cb
            (if r.audio_initialized && r.video_initialized
              then CastTransportStatus.TRANSPORT_INITIALIZED
              else CastTransportStatus.TRANSPORT_UNINITIALIZED)])) := by
  cases ha : r.audio_initialized <;> cases hv : r.video_initialized <;>
    simp [ctor_body, recorder, Recorder.record, ha, hv]

/-- The calls of the whole constructor: member initialisers, then the body. -/
theorem ctor_calls (clock : TickClock) (config : CastTransportConfig)
    (cb : CastTransportStatusCallback) (runner : TaskRunner) (r : Recorder) :
    (ctor recorder clock config cb runner r).calls =
      r.calls ++ ([Call.pacer_ctor clock config none runner cb,
                   Call.rtcp_builder_ctor Callee.pacer_,
                   Call.audio_sender_ctor config clock Callee.pacer_,
                   Call.video_sender_ctor config clock Callee.pacer_] ++
        (Call.audio_sender_initialized ::
          ((if r.audio_initialized then [Call.video_sender_initialized] else []) ++
            [Call.status_callback_Run cb
              (if r.audio_initialized && r.video_initialized
                then CastTransportStatus.TRANSPORT_INITIALIZED
                else CastTransportStatus.TRANSPORT_UNINITIALIZED)]))) := by
  unfold ctor
  rw [ctor_body_calls, ctor_members_calls, (ctor_members_answers clock config cb runner r).1,
    (ctor_members_answers clock config cb runner r).2, List.append_assoc]

/-- The statuses the constructor hands to the status callback. -/
theorem ctor_statusReports (clock : TickClock) (config : CastTransportConfig)
    (cb : CastTransportStatusCallback) (runner : TaskRunner) (r : Recorder) :
    statusReports (newCalls (ctor recorder clock config cb runner) r) =
      [if r.audio_initialized && r.video_initialized
        then CastTransportStatus.TRANSPORT_INITIALIZED
        else CastTransportStatus.TRANSPORT_UNINITIALIZED] := by
  rw [newCalls_eq_of_calls_eq (ctor_calls clock config cb runner r)]
  cases r.audio_initialized <;> simp [statusReports]

end Recording

/-- C1: constructing the transport sender hands the status callback
`TRANSPORT_INITIALIZED` if and only if both the audio sender and the video
sender answer `initialized()` with true; when only the audio sender, only the
video sender, or neither is initialized it hands it `TRANSPORT_UNINITIALIZED`. -/
theorem C1_ctor_reports_initialized_iff_both (clock : TickClock)
    (config : CastTransportConfig) (cb : CastTransportStatusCallback) (runner : TaskRunner)
    (r : Recorder) :
    (statusReports (newCalls (ctor recorder clock config cb runner) r) =
        [CastTransportStatus.TRANSPORT_INITIALIZED] ↔
      (r.audio_initialized = true ∧ r.video_initialized = true)) ∧
    statusReports (newCalls (ctor recorder clock config cb runner)
        { r with audio_initialized := true, video_initialized := true }) =
      [CastTransportStatus.TRANSPORT_INITIALIZED] ∧
    statusReports (newCalls (ctor recorder clock config cb runner)
        { r with audio_initialized := true, video_initialized := false }) =
      [CastTransportStatus.TRANSPORT_UNINITIALIZED] ∧
    statusReports (newCalls (ctor recorder clock config cb runner)
        { r with audio_initialized := false, video_initialized := true }) =
      [CastTransportStatus.TRANSPORT_UNINITIALIZED] ∧
    statusReports (newCalls (ctor recorder clock config cb runner)
        { r with audio_initialized := false, video_initialized := false }) =
      [CastTransportStatus.TRANSPORT_UNINITIALIZED] := by
  refine ⟨?_, ?_, ?_, ?_, ?_⟩
  · rw [ctor_statusReports]
    cases r.audio_initialized <;> cases r.video_initialized <;> simp
  all_goals rw [ctor_statusReports]; rfl

/-- C2: for every configuration and every answer of the two senders, the body
of the constructor calls the status callback it was given exactly once, and so
does the constructor as a whole; the constructor is a total function, it has
no other way to report the outcome. -/
theorem C2_ctor_runs_status_callback_exactly_once (clock : TickClock)
    (config : CastTransportConfig) (cb : CastTransportStatusCallback) (runner : TaskRunner)
    (r : Recorder) :
    callsOn Callee.status_callback (newCalls (ctor_body recorder cb) r) =
      [Call.status_callback_Run cb
        (if r.audio_initialized && r.video_initialized
          then CastTransportStatus.TRANSPORT_INITIALIZED
          else CastTransportStatus.TRANSPORT_UNINITIALIZED)] ∧
    (callsOn Callee.status_callback (newCalls (ctor_body recorder cb) r)).length = 1 ∧
    (callsOn Callee.status_callback
      (newCalls (ctor recorder clock config cb runner) r)).length = 1 := by
  rw [newCalls_eq_of_calls_eq (ctor_body_calls cb r),
    newCalls_eq_of_calls_eq (ctor_calls clock config cb runner r)]
  cases r.audio_initialized <;> simp [callsOn, Call.callee]

/-- C3: `ResendPackets(is_audio, m)` makes exactly one call, `ResendPackets(m)`
on the audio sender when `is_audio` is true and on the video sender when it is
false, with the map unchanged, and no call on the other sender; in every world
it is the chosen sender's `ResendPackets(m)` and nothing more. -/
theorem C3_ResendPackets_routes_by_media_kind (m : MissingFramesAndPacketsMap)
    (r : Recorder) :
    newCalls (ResendPackets recorder true m) r = [Call.audio_sender_ResendPackets m] ∧
    callsOn Callee.video_sender_ (newCalls (ResendPackets recorder true m) r) = [] ∧
    newCalls (ResendPackets recorder false m) r = [Call.video_sender_ResendPackets m] ∧
    callsOn Callee.audio_sender_ (newCalls (ResendPackets recorder false m) r) = [] ∧
    (∀ (W : Type) (d : Members W) (w : W),
      ResendPackets d true m w = d.audio_sender_ResendPackets m w ∧
      ResendPackets d false m w = d.video_sender_ResendPackets m w) := by
  have ha : newCalls (ResendPackets recorder true m) r = [Call.audio_sender_ResendPackets m] :=
    newCalls_eq_of_calls_eq (by simp [ResendPackets, recorder, Recorder.record])
  have hv : newCalls (ResendPackets recorder false m) r = [Call.video_sender_ResendPackets m] :=
    newCalls_eq_of_calls_eq (by simp [ResendPackets, recorder, Recorder.record])
  refine ⟨ha, ?_, hv, ?_, ?_⟩
  · rw [ha]; simp [callsOn, Call.callee]
  · rw [hv]; simp [callsOn, Call.callee]
  · intro W d w
    simp [ResendPackets]

/-- C4: `InsertCodedAudioFrame(frame, recorded_time)` makes exactly one call,
`InsertCodedAudioFrame` on the audio sender with the same frame and time, and
none on the video sender; `InsertCodedVideoFrame(frame, capture_time)` makes
exactly one call, `InsertCodedVideoFrame` on the video sender with the same
frame and time, and none on the audio sender. -/
theorem C4_InsertCodedFrame_forwards_to_matching_sender (fa : EncodedAudioFrame)
    (fv : EncodedVideoFrame) (t : TimeTicks) (r : Recorder) :
    newCalls (InsertCodedAudioFrame recorder fa t) r =
      [Call.audio_sender_InsertCodedAudioFrame fa t] ∧
    callsOn Callee.video_sender_ (newCalls (InsertCodedAudioFrame recorder fa t) r) = [] ∧
    newCalls (InsertCodedVideoFrame recorder fv t) r =
      [Call.video_sender_InsertCodedVideoFrame fv t] ∧
    callsOn Callee.audio_sender_ (newCalls (InsertCodedVideoFrame recorder fv t) r) = [] ∧
    (∀ (W : Type) (d : Members W) (w : W),
      InsertCodedAudioFrame d fa t w = d.audio_sender_InsertCodedAudioFrame fa t w ∧
      InsertCodedVideoFrame d fv t w = d.video_sender_InsertCodedVideoFrame fv t w) := by
  have ha : newCalls (InsertCodedAudioFrame recorder fa t) r =
      [Call.audio_sender_InsertCodedAudioFrame fa t] :=
    newCalls_eq_of_calls_eq (by simp [InsertCodedAudioFrame, recorder, Recorder.record])
  have hv : newCalls (InsertCodedVideoFrame recorder fv t) r =
      [Call.video_sender_InsertCodedVideoFrame fv t] :=
    newCalls_eq_of_calls_eq (by simp [InsertCodedVideoFrame, recorder, Recorder.record])
  refine ⟨ha, ?_, hv, ?_, ?_⟩
  · rw [ha]; simp [callsOn, Call.callee]
  · rw [hv]; simp [callsOn, Call.callee]
  · intro W d w
    exact ⟨rfl, rfl⟩

/-- C5: `RtpAudioStatistics(now, sender_info)` yields exactly what the audio
sender's `GetStatistics(now, sender_info)` yields and makes that one call only
(none on the video sender); `RtpVideoStatistics(now, sender_info)` yields
exactly what the video sender's `GetStatistics(now, sender_info)` yields and
makes that one call only (none on the audio sender). -/
theorem C5_RtpStatistics_forward_to_matching_sender (now : TimeTicks)
    (sender_info : RtcpSenderInfo) (r : Recorder) :
    (RtpAudioStatistics recorder now sender_info r).1 = r.audio_statistics now sender_info ∧
    newCalls (fun x => (RtpAudioStatistics recorder now sender_info x).2) r =
      [Call.audio_sender_GetStatistics now sender_info] ∧
    callsOn Callee.video_sender_
      (newCalls (fun x => (RtpAudioStatistics recorder now sender_info x).2) r) = [] ∧
    (RtpVideoStatistics recorder now sender_info r).1 = r.video_statistics now sender_info ∧
    newCalls (fun x => (RtpVideoStatistics recorder now sender_info x).2) r =
      [Call.video_sender_GetStatistics now sender_info] ∧
    callsOn Callee.audio_sender_
      (newCalls (fun x => (RtpVideoStatistics recorder now sender_info x).2) r) = [] ∧
    (∀ (W : Type) (d : Members W) (w : W),
      RtpAudioStatistics d now sender_info w = d.audio_sender_GetStatistics now sender_info w ∧
      RtpVideoStatistics d now sender_info w = d.video_sender_GetStatistics now sender_info w) := by
  have ha : newCalls (fun x => (RtpAudioStatistics recorder now sender_info x).2) r =
      [Call.audio_sender_GetStatistics now sender_info] :=
    newCalls_eq_of_calls_eq (by simp [RtpAudioStatistics, recorder, Recorder.record])
  have hv : newCalls (fun x => (RtpVideoStatistics recorder now sender_info x).2) r =
      [Call.video_sender_GetStatistics now sender_info] :=
    newCalls_eq_of_calls_eq (by simp [RtpVideoStatistics, recorder, Recorder.record])
  refine ⟨rfl, ha, ?_, rfl, hv, ?_, ?_⟩
  · rw [ha]; simp [callsOn, Call.callee]
  · rw [hv]; simp [callsOn, Call.callee]
  · intro W d w
    exact ⟨rfl, rfl⟩

/-- C6: `SendRtcpFromRtpSender(packet_type_flags, sender_info, dlrr,
sender_log, sending_ssrc, c_name)` makes exactly one call,
`SendRtcpFromRtpSender` on the RTCP builder with the same six values in the
same positions, and calls neither per-media sender. -/
theorem C6_SendRtcpFromRtpSender_forwards_to_rtcp_builder (packet_type_flags : Nat)
    (sender_info : RtcpSenderInfo) (dlrr : RtcpDlrrReportBlock)
    (sender_log : RtcpSenderLogMessage) (sending_ssrc : Nat) (c_name : String)
    (r : Recorder) :
    newCalls (SendRtcpFromRtpSender recorder packet_type_flags sender_info dlrr sender_log
        sending_ssrc c_name) r =
      [Call.rtcp_builder_SendRtcpFromRtpSender packet_type_flags sender_info dlrr sender_log
        sending_ssrc c_name] ∧
    callsOn Callee.audio_sender_
      (newCalls (SendRtcpFromRtpSender recorder packet_type_flags sender_info dlrr sender_log
        sending_ssrc c_name) r) = [] ∧
    callsOn Callee.video_sender_
      (newCalls (SendRtcpFromRtpSender recorder packet_type_flags sender_info dlrr sender_log
        sending_ssrc c_name) r) = [] ∧
    (∀ (W : Type) (d : Members W) (w : W),
      SendRtcpFromRtpSender d packet_type_flags sender_info dlrr sender_log sending_ssrc
          c_name w =
        d.rtcp_builder_SendRtcpFromRtpSender packet_type_flags sender_info dlrr sender_log
          sending_ssrc c_name w) := by
  have h : newCalls (SendRtcpFromRtpSender recorder packet_type_flags sender_info dlrr
      sender_log sending_ssrc c_name) r =
      [Call.rtcp_builder_SendRtcpFromRtpSender packet_type_flags sender_info dlrr sender_log
        sending_ssrc c_name] :=
    newCalls_eq_of_calls_eq (by simp [SendRtcpFromRtpSender, recorder, Recorder.record])
  refine ⟨h, ?_, ?_, ?_⟩
  · rw [h]; simp [callsOn, Call.callee]
  · rw [h]; simp [callsOn, Call.callee]
  · intro W d w
    rfl

/-- C7: `SetPacketReceiver(r)` makes exactly one call, `SetPacketReceiver(r)`
on the Pacer, and `InsertFakeTransportForTesting(t)` makes exactly one call,
`InsertFakeTransportForTesting(t)` on the Pacer; each passes its argument
unchanged and calls no other object. -/
theorem C7_receiver_and_fake_transport_go_to_pacer (receiver : PacketReceiver)
    (fake_transport : PacketSender) (r : Recorder) :
    newCalls (SetPacketReceiver recorder receiver) r =
      [Call.pacer_SetPacketReceiver receiver] ∧
    newCalls (InsertFakeTransportForTesting recorder fake_transport) r =
      [Call.pacer_InsertFakeTransportForTesting fake_transport] ∧
    (∀ c : Callee, c ≠ Callee.pacer_ →
      callsOn c (newCalls (SetPacketReceiver recorder receiver) r) = [] ∧
      callsOn c (newCalls (InsertFakeTransportForTesting recorder fake_transport) r) = []) ∧
    (∀ (W : Type) (d : Members W) (w : W),
      SetPacketReceiver d receiver w = d.pacer_SetPacketReceiver receiver w ∧
      InsertFakeTransportForTesting d fake_transport w =
        d.pacer_InsertFakeTransportForTesting fake_transport w) := by
  have hs : newCalls (SetPacketReceiver recorder receiver) r =
      [Call.pacer_SetPacketReceiver receiver] :=
    newCalls_eq_of_calls_eq (by simp [SetPacketReceiver, recorder, Recorder.record])
  have hf : newCalls (InsertFakeTransportForTesting recorder fake_transport) r =
      [Call.pacer_InsertFakeTransportForTesting fake_transport] :=
    newCalls_eq_of_calls_eq (by simp [InsertFakeTransportForTesting, recorder, Recorder.record])
  refine ⟨hs, hf, ?_, ?_⟩
  · intro c hc
    rw [hs, hf]
    have hc2 : ¬ Callee.pacer_ = c := fun h => hc h.symm
    simp [callsOn, Call.callee, hc2]
  · intro W d w
    exact ⟨rfl, rfl⟩

section Operations

theorem Op_run_calls (op : Op) (r : Recorder) :
    (op.run recorder r).2.calls = r.calls ++ [op.call] := by
  cases op with
  | ResendPackets a m => cases a <;> rfl
  | _ => rfl

theorem Op_run_answers (op : Op) (r : Recorder) :
    (op.run recorder r).2.audio_initialized = r.audio_initialized ∧
    (op.run recorder r).2.video_initialized = r.video_initialized := by
  cases op with
  | ResendPackets a m => cases a <;> exact ⟨rfl, rfl⟩
  | _ => exact ⟨rfl, rfl⟩

theorem runOps_calls (ops : List Op) (r : Recorder) :
    (runOps recorder ops r).calls = r.calls ++ ops.map Op.call := by
  induction ops generalizing r with
  | nil => simp [runOps]
  | cons op rest ih =>
      simp only [runOps, List.map_cons]
      rw [ih, Op_run_calls, List.append_assoc]
      rfl

theorem callsOn_status_map_call (ops : List Op) :
    callsOn Callee.status_callback (ops.map Op.call) = [] := by
  induction ops with
  | nil => rfl
  | cons op rest ih =>
      have h : callsOn Callee.status_callback [op.call] = [] := by
        cases op with
        | ResendPackets a m => cases a <;> rfl
        | _ => rfl
      have h2 := callsOn_append Callee.status_callback [op.call] (rest.map Op.call)
      simp only [List.singleton_append] at h2
      rw [List.map_cons, h2, h, ih]
      rfl

theorem statusReports_map_call (ops : List Op) :
    statusReports (ops.map Op.call) = [] := by
  induction ops with
  | nil => rfl
  | cons op rest ih =>
      cases op with
      | ResendPackets a m => cases a <;> simpa [statusReports, Op.call] using ih
      | _ => simpa [statusReports, Op.call] using ih

end Operations

/-- C8: after construction, for every sequence of facade operations
(`SetPacketReceiver`, `InsertCodedAudioFrame`, `InsertCodedVideoFrame`,
`SendRtcpFromRtpSender`, `ResendPackets`, `RtpAudioStatistics`,
`RtpVideoStatistics`, `InsertFakeTransportForTesting`) the operations make no
call on the status callback, the statuses reported stay the one status
reported at construction, and what an operation returns to its caller is
nothing, or for the two statistics methods what the sender wrote: there is no
error value. -/
theorem C8_status_decided_once_at_construction (clock : TickClock)
    (config : CastTransportConfig) (cb : CastTransportStatusCallback) (runner : TaskRunner)
    (r : Recorder) (ops : List Op) :
    callsOn Callee.status_callback
      (newCalls (runOps recorder ops) (ctor recorder clock config cb runner r)) = [] ∧
    statusReports (runOps recorder ops (ctor recorder clock config cb runner r)).calls =
      statusReports (ctor recorder clock config cb runner r).calls ∧
    statusReports
        (newCalls (fun x => runOps recorder ops (ctor recorder clock config cb runner x)) r) =
      [if r.audio_initialized && r.video_initialized
        then CastTransportStatus.TRANSPORT_INITIALIZED
        else CastTransportStatus.TRANSPORT_UNINITIALIZED] ∧
    (∀ (op : Op) (x : Recorder),
      (op.run recorder x).1 =
        match op with
        | Op.RtpAudioStatistics now si => some (x.audio_statistics now si)
        | Op.RtpVideoStatistics now si => some (x.video_statistics now si)
        | _ => none) := by
  refine ⟨?_, ?_, ?_, ?_⟩
  · rw [newCalls_eq_of_calls_eq (runOps_calls ops _)]
    exact callsOn_status_map_call ops
  · rw [runOps_calls, statusReports_append, statusReports_map_call, List.append_nil]
  · have h : (runOps recorder ops (ctor recorder clock config cb runner r)).calls =
        r.calls ++ (newCalls (ctor recorder clock config cb runner) r ++ ops.map Op.call) := by
      rw [runOps_calls, ctor_calls, newCalls_eq_of_calls_eq (ctor_calls clock config cb runner r),
        List.append_assoc]
    have h2 : newCalls (fun x => runOps recorder ops (ctor recorder clock config cb runner x)) r =
        newCalls (ctor recorder clock config cb runner) r ++ ops.map Op.call :=
      newCalls_eq_of_calls_eq h
    rw [h2, statusReports_append, statusReports_map_call, List.append_nil, ctor_statusReports]
  · intro op x
    cases op with
    | ResendPackets a m => cases a <;> rfl
    | _ => rfl

section SpecModel

variable (pa : EncodedAudioFrame → TimeTicks → PacketList)
  (pv : EncodedVideoFrame → TimeTicks → PacketList) (base : Members SessionModel)

theorem insertAudio_uninitialized (f : EncodedAudioFrame) (t : TimeTicks) (w : SessionModel)
    (h : w.audio_sender.initialized = false) :
    InsertCodedAudioFrame (specMembers pa pv base) f t w = w := by
  simp [InsertCodedAudioFrame, specMembers, SenderModel.insert_coded_frame, h]

theorem insertVideo_uninitialized (f : EncodedVideoFrame) (t : TimeTicks) (w : SessionModel)
    (h : w.video_sender.initialized = false) :
    InsertCodedVideoFrame (specMembers pa pv base) f t w = w := by
  simp [InsertCodedVideoFrame, specMembers, SenderModel.insert_coded_frame, h]

theorem insertAudioFrames_uninitialized (frames : List (EncodedAudioFrame × TimeTicks))
    (w : SessionModel) (h : w.audio_sender.initialized = false) :
    insertAudioFrames (specMembers pa pv base) frames w = w := by
  induction frames with
  | nil => rfl
  | cons ft rest ih =>
      obtain ⟨f, t⟩ := ft
      simp only [insertAudioFrames]
      rw [insertAudio_uninitialized pa pv base f t w h, ih]

theorem insertVideoFrames_uninitialized (frames : List (EncodedVideoFrame × TimeTicks))
    (w : SessionModel) (h : w.video_sender.initialized = false) :
    insertVideoFrames (specMembers pa pv base) frames w = w := by
  induction frames with
  | nil => rfl
  | cons ft rest ih =>
      obtain ⟨f, t⟩ := ft
      simp only [insertVideoFrames]
      rw [insertVideo_uninitialized pa pv base f t w h, ih]

/-- What the constructor body does in the specified session: it appends the
status to the statuses reported and changes nothing else. -/
theorem ctor_body_spec (cb : CastTransportStatusCallback) (w : SessionModel) :
    ctor_body (specMembers pa pv base) cb w =
      { w with statuses := w.statuses ++
          [if w.audio_sender.initialized && w.video_sender.initialized
            then CastTransportStatus.TRANSPORT_INITIALIZED
            else CastTransportStatus.TRANSPORT_UNINITIALIZED] } := by
  cases ha : w.audio_sender.initialized <;> cases hv : w.video_sender.initialized <;>
    simp [ctor_body, specMembers, ha, hv]

/-- An initialized sender does hand its packets to the Pacer and counts them. -/
theorem insertAudio_initialized (f : EncodedAudioFrame) (t : TimeTicks) (w : SessionModel)
    (h : w.audio_sender.initialized = true) :
    (InsertCodedAudioFrame (specMembers pa pv base) f t w).pacer.queued =
      w.pacer.queued ++ pa f t ∧
    (InsertCodedAudioFrame (specMembers pa pv base) f t w).audio_sender.send_packet_count =
      w.audio_sender.send_packet_count + (pa f t).length := by
  simp [InsertCodedAudioFrame, specMembers, SenderModel.insert_coded_frame, h,
    PacerModel.enqueue]

end SpecModel

/-- C9: in the specified session, if a per-media sender does not report
`initialized()`, the constructor body reports `TRANSPORT_UNINITIALIZED`, and
every sequence of coded-frame insertions made through the facade for that
media kind, before or after that report, leaves the whole session as it was:
the Pacer's queue, both senders and the statuses reported are unchanged. -/
theorem C9_insert_on_uninitialized_sender_is_noop
    (pa : EncodedAudioFrame → TimeTicks → PacketList)
    (pv : EncodedVideoFrame → TimeTicks → PacketList) (base : Members SessionModel)
    (cb : CastTransportStatusCallback) (w : SessionModel)
    (h : w.audio_sender.initialized = false ∨ w.video_sender.initialized = false) :
    (ctor_body (specMembers pa pv base) cb w).statuses =
      w.statuses ++ [CastTransportStatus.TRANSPORT_UNINITIALIZED] ∧
    (w.audio_sender.initialized = false →
      ∀ frames : List (EncodedAudioFrame × TimeTicks),
        insertAudioFrames (specMembers pa pv base) frames w = w ∧
        insertAudioFrames (specMembers pa pv base) frames
            (ctor_body (specMembers pa pv base) cb w) =
          ctor_body (specMembers pa pv base) cb w) ∧
    (w.video_sender.initialized = false →
      ∀ frames : List (EncodedVideoFrame × TimeTicks),
        insertVideoFrames (specMembers pa pv base) frames w = w ∧
        insertVideoFrames (specMembers pa pv base) frames
            (ctor_body (specMembers pa pv base) cb w) =
          ctor_body (specMembers pa pv base) cb w) := by
  refine ⟨?_, ?_, ?_⟩
  · rw [ctor_body_spec]
    rcases h with h | h
    · simp [h]
    · simp [h]
  · intro ha frames
    refine ⟨insertAudioFrames_uninitialized pa pv base frames w ha, ?_⟩
    apply insertAudioFrames_uninitialized
    rw [ctor_body_spec]
    exact ha
  · intro hv frames
    refine ⟨insertVideoFrames_uninitialized pa pv base frames w hv, ?_⟩
    apply insertVideoFrames_uninitialized
    rw [ctor_body_spec]
    exact hv

/-- C9 at the example session, whose audio sender is not initialized: the
constructor body reports `TRANSPORT_UNINITIALIZED` and inserting an audio
frame changes nothing. -/
theorem C9_insert_on_uninitialized_sender_is_noop_witness :
    (exampleSession.audio_sender.initialized = false ∨
      exampleSession.video_sender.initialized = false) ∧
    (ctor_body (specMembers examplePacketizeAudio examplePacketizeVideo idleMembers) ⟨0⟩
        exampleSession).statuses = [CastTransportStatus.TRANSPORT_UNINITIALIZED] ∧
    insertAudioFrames (specMembers examplePacketizeAudio examplePacketizeVideo idleMembers)
        [(exampleAudioFrame, 0)] exampleSession = exampleSession :=
  have h := C9_insert_on_uninitialized_sender_is_noop examplePacketizeAudio
    examplePacketizeVideo idleMembers ⟨0⟩ exampleSession (Or.inl rfl)
  ⟨Or.inl rfl, h.1, (h.2.1 rfl [(exampleAudioFrame, 0)]).1⟩

/-- C10 (as amended): starting from a new delegate, `StartAudio` and
`StartVideo` called once each, in either order, trigger session start-up
exactly once, with the two configurations supplied, and not before both have
been supplied; when frame-input construction succeeds each of the two
registered callbacks is then run exactly once with the frame-input handle, in
the order of registration, and when it fails no callback is run. -/
theorem C10_StartAudio_StartVideo_start_once
    (create : media.cast.AudioSenderConfig → media.cast.VideoSenderConfig →
      Option media.cast.FrameInput)
    (ca : media.cast.AudioSenderConfig) (cv : media.cast.VideoSenderConfig)
    (ka kv : FrameInputAvailableCallback) :
    (CastSessionDelegate.StartAudio create ca ka CastSessionDelegate.new).startups = [] ∧
    (CastSessionDelegate.StartAudio create ca ka CastSessionDelegate.new).runs = [] ∧
    (CastSessionDelegate.StartVideo create cv kv CastSessionDelegate.new).startups = [] ∧
    (CastSessionDelegate.StartVideo create cv kv CastSessionDelegate.new).runs = [] ∧
    (CastSessionDelegate.StartVideo create cv kv
      (CastSessionDelegate.StartAudio create ca ka CastSessionDelegate.new)).startups =
        [(ca, cv)] ∧
    (CastSessionDelegate.StartAudio create ca ka
      (CastSessionDelegate.StartVideo create cv kv CastSessionDelegate.new)).startups =
        [(ca, cv)] ∧
    (CastSessionDelegate.StartVideo create cv kv
      (CastSessionDelegate.StartAudio create ca ka CastSessionDelegate.new)).runs =
        (match create ca cv with
          | some h => [(ka, h), (kv, h)]
          | none => []) ∧
    (CastSessionDelegate.StartAudio create ca ka
      (CastSessionDelegate.StartVideo create cv kv CastSessionDelegate.new)).runs =
        (match create ca cv with
          | some h => [(kv, h), (ka, h)]
          | none => []) := by
  cases hc : create ca cv <;>
    simp [CastSessionDelegate.StartAudio, CastSessionDelegate.StartVideo,
      CastSessionDelegate.StartSendingInternal, CastSessionDelegate.new, hc]

/-- C10 as stated fails when frame-input construction fails: after
`StartAudio` and `StartVideo` the session start-up has been triggered once,
yet no registered callback has been run, so there is no handle with which
each callback was run exactly once. -/
theorem C10_counterexample_no_callback_when_construction_fails :
    (CastSessionDelegate.StartVideo (fun _ _ => none) ⟨2⟩ ⟨20⟩
      (CastSessionDelegate.StartAudio (fun _ _ => none) ⟨1⟩ ⟨10⟩
        CastSessionDelegate.new)).startups = [(⟨1⟩, ⟨2⟩)] ∧
    (CastSessionDelegate.StartVideo (fun _ _ => none) ⟨2⟩ ⟨20⟩
      (CastSessionDelegate.StartAudio (fun _ _ => none) ⟨1⟩ ⟨10⟩
        CastSessionDelegate.new)).runs = [] ∧
    ¬ ∃ h : media.cast.FrameInput,
      (CastSessionDelegate.StartVideo (fun _ _ => none) ⟨2⟩ ⟨20⟩
        (CastSessionDelegate.StartAudio (fun _ _ => none) ⟨1⟩ ⟨10⟩
          CastSessionDelegate.new)).runs = [(⟨10⟩, h), (⟨20⟩, h)] := by
  refine ⟨by decide, by decide, ?_⟩
  rintro ⟨h, hh⟩
  have h0 : (CastSessionDelegate.StartVideo (fun _ _ => none) ⟨2⟩ ⟨20⟩
      (CastSessionDelegate.StartAudio (fun _ _ => none) ⟨1⟩ ⟨10⟩
        CastSessionDelegate.new)).runs = [] := by decide
  rw [h0] at hh
  exact List.noConfusion hh

/-- C16: the constructor creates the Pacer with a null external transport and
hands `&pacer_`, the Pacer it owns, to the RTCP builder, the audio sender and
the video sender as their packet sink; no constructor call is given any other
sink, and none is given a network sender. -/
theorem C16_members_share_the_owned_pacer (clock : TickClock)
    (config : CastTransportConfig) (cb : CastTransportStatusCallback) (runner : TaskRunner)
    (r : Recorder) :
    newCalls (ctor_members recorder clock config cb runner) r =
      [Call.pacer_ctor clock config none runner cb,
       Call.rtcp_builder_ctor Callee.pacer_,
       Call.audio_sender_ctor config clock Callee.pacer_,
       Call.video_sender_ctor config clock Callee.pacer_] ∧
    (newCalls (ctor recorder clock config cb runner) r).filterMap Call.packet_sink =
      [Callee.pacer_, Callee.pacer_, Callee.pacer_] ∧
    (newCalls (ctor recorder clock config cb runner) r).filterMap Call.network_sender = [] := by
  refine ⟨newCalls_eq_of_calls_eq (ctor_members_calls clock config cb runner r), ?_, ?_⟩
  · rw [newCalls_eq_of_calls_eq (ctor_calls clock config cb runner r)]
    cases r.audio_initialized <;> simp [Call.packet_sink]
  · rw [newCalls_eq_of_calls_eq (ctor_calls clock config cb runner r)]
    cases r.audio_initialized <;> simp [Call.network_sender]

section Resend

theorem enqueue_nil (p : PacerModel) : p.enqueue [] = p := by
  simp [PacerModel.enqueue]

/-- A frame with no buffered copy inside the window yields no packet. -/
theorem resendFrame_outside_window (ms : Int) (now : TimeTicks) (history : List StoredFrame)
    (frame_id : Nat) (indices : List Nat)
    (h : ∀ f ∈ history, f.frame_id = frame_id → ms < now - f.time) :
    resendFrame ms now history frame_id indices = [] := by
  unfold resendFrame
  cases hf : history.find? (fun f => f.frame_id == frame_id) with
  | none => rfl
  | some f =>
      have hmem : f ∈ history := List.mem_of_find?_eq_some hf
      have hid : f.frame_id = frame_id := by
        have := List.find?_some hf
        simpa using this
      have hold := h f hmem hid
      have hw : withinHistory ms now f = false := by
        unfold withinHistory
        exact decide_eq_false (not_le.mpr hold)
      simp [hw]

theorem resend_packets_drop_frame (ms : Int) (now : TimeTicks) (history : List StoredFrame)
    (frame_id : Nat) (h : ∀ f ∈ history, f.frame_id = frame_id → ms < now - f.time)
    (missing : MissingFramesAndPacketsMap) (p : PacerModel) :
    resend_packets ms now history missing p =
      resend_packets ms now history (missing.filter (fun e => decide (e.1 ≠ frame_id))) p := by
  induction missing generalizing p with
  | nil => rfl
  | cons e rest ih =>
      obtain ⟨k, idxs⟩ := e
      by_cases hk : k = frame_id
      · subst hk
        simp only [resend_packets, List.filter, resendFrame_outside_window ms now history k idxs h,
          enqueue_nil, ne_eq, not_true_eq_false, decide_False]
        exact ih p
      · simp only [resend_packets, List.filter, ne_eq, hk, not_false_eq_true, decide_True]
        exact ih _

theorem resend_packets_single_outside (ms : Int) (now : TimeTicks) (history : List StoredFrame)
    (frame_id : Nat) (h : ∀ f ∈ history, f.frame_id = frame_id → ms < now - f.time)
    (indices : List Nat) (p : PacerModel) :
    resend_packets ms now history [(frame_id, indices)] p = p := by
  simp [resend_packets, resendFrame_outside_window ms now history frame_id indices h,
    enqueue_nil]

end Resend

/-- C11: in the specified session, if the frame id of a retransmission
request is older than the configured RTP history window of the media kind (no
buffered frame with that id is within the window), then `ResendPackets`
through the facade does exactly what it does for the request without that
frame, a request for that frame alone leaves the whole session unchanged (no
packet reaches the Pacer), and no status is reported for any request. -/
theorem C11_resend_outside_history_window_is_dropped (config : CastTransportConfig)
    (pa : EncodedAudioFrame → TimeTicks → PacketList)
    (pv : EncodedVideoFrame → TimeTicks → PacketList) (base : Members ResendSession)
    (w : ResendSession) (is_audio : Bool) (missing : MissingFramesAndPacketsMap)
    (frame_id : Nat)
    (h : ∀ f ∈ w.history is_audio, f.frame_id = frame_id →
      config.rtp_history_ms is_audio < w.now - f.time) :
    ResendPackets (resendMembers config pa pv base) is_audio missing w =
      ResendPackets (resendMembers config pa pv base) is_audio
        (missing.filter (fun e => decide (e.1 ≠ frame_id))) w ∧
    (∀ indices : List Nat,
      ResendPackets (resendMembers config pa pv base) is_audio [(frame_id, indices)] w = w) ∧
    (ResendPackets (resendMembers config pa pv base) is_audio missing w).session.statuses =
      w.session.statuses := by
  cases is_audio with
  | true =>
      have h2 : ∀ f ∈ w.audio_history, f.frame_id = frame_id →
          config.audio_rtp_history_ms < w.now - f.time := by
        simpa [ResendSession.history, CastTransportConfig.rtp_history_ms] using h
      refine ⟨?_, ?_, ?_⟩
      · simp only [ResendPackets, resendMembers, if_true]
        rw [← resend_packets_drop_frame _ _ _ frame_id h2]
      · intro indices
        simp only [ResendPackets, resendMembers, if_true]
        rw [resend_packets_single_outside _ _ _ frame_id h2]
      · simp [ResendPackets, resendMembers]
  | false =>
      have h2 : ∀ f ∈ w.video_history, f.frame_id = frame_id →
          config.video_rtp_history_ms < w.now - f.time := by
        simpa [ResendSession.history, CastTransportConfig.rtp_history_ms] using h
      refine ⟨?_, ?_, ?_⟩
      · simp only [ResendPackets, resendMembers, Bool.false_eq_true, if_false]
        rw [← resend_packets_drop_frame _ _ _ frame_id h2]
      · intro indices
        simp only [ResendPackets, resendMembers, Bool.false_eq_true, if_false]
        rw [resend_packets_single_outside _ _ _ frame_id h2]
      · simp [ResendPackets, resendMembers]

/-- C11 at the example session (time 5000 ms, window 1000 ms): frame 1 was
sent at time 0, so a request for packets 0 and 1 of frame 1 and packet 0 of
frame 20 re-emits only the packet of frame 20. -/
theorem C11_resend_outside_history_window_is_dropped_witness :
    (∀ f ∈ exampleResendSession.history true, f.frame_id = 1 →
      exampleConfig.rtp_history_ms true < exampleResendSession.now - f.time) ∧
    (ResendPackets
      (resendMembers exampleConfig examplePacketizeAudio examplePacketizeVideo idleResendMembers)
      true [(1, [0, 1]), (20, [0])] exampleResendSession).session.pacer.queued = [[20, 0]] ∧
    ResendPackets
      (resendMembers exampleConfig examplePacketizeAudio examplePacketizeVideo idleResendMembers)
      true [(1, [0, 1])] exampleResendSession = exampleResendSession := by
  have hold : ∀ f ∈ exampleResendSession.history true, f.frame_id = 1 →
      exampleConfig.rtp_history_ms true < exampleResendSession.now - f.time := by
    decide
  have h := C11_resend_outside_history_window_is_dropped exampleConfig examplePacketizeAudio
    examplePacketizeVideo idleResendMembers exampleResendSession true [(1, [0, 1]), (20, [0])] 1
    hold
  refine ⟨hold, ?_, h.2.1 [0, 1]⟩
  rw [h.1]
  decide
section Statistics

variable (ntp : TimeTicks → Nat × Nat) (rtpA rtpV : TimeTicks → Nat) (stores : FieldStores)
  (pa : EncodedAudioFrame → TimeTicks → PacketList)
  (pv : EncodedVideoFrame → TimeTicks → PacketList) (base : Members SessionModel)

end Statistics
section StatisticsReported

variable (ntp : TimeTicks → Nat × Nat) (rtpA rtpV : TimeTicks → Nat) (stores : FieldStores)
  (pa : EncodedAudioFrame → TimeTicks → PacketList)
  (pv : EncodedVideoFrame → TimeTicks → PacketList) (base : Members SessionModel)

end StatisticsReported

section StdMapLemmas

variable {K V : Type} [DecidableEq K]

theorem StdMap.find_modify_self (k : K) (f : V → V) (m : StdMap K V) :
    StdMap.find k (StdMap.modify k f m) = (StdMap.find k m).map f := by
  induction m with
  | nil => rfl
  | cons e rest ih =>
      obtain ⟨k', v'⟩ := e
      by_cases h : k' = k
      · simp [StdMap.modify, StdMap.find, h]
      · simp [StdMap.modify, StdMap.find, h, ih]

theorem StdMap.find_modify_ne (j k : K) (f : V → V) (m : StdMap K V) (hne : j ≠ k) :
    StdMap.find j (StdMap.modify k f m) = StdMap.find j m := by
  induction m with
  | nil => rfl
  | cons e rest ih =>
      obtain ⟨k', v'⟩ := e
      by_cases h : k' = k
      · have hj2 : ¬ k = j := fun h2 => hne h2.symm
        subst h
        simp [StdMap.modify, StdMap.find, hj2]
      · by_cases h3 : k' = j
        · subst h3
          simp [StdMap.modify, StdMap.find, hne]
        · simp [StdMap.modify, StdMap.find, h, h3, ih]

theorem StdMap.find_filter_key (p : K → Bool) (k : K) (m : StdMap K V) :
    StdMap.find k (m.filter (fun e => p e.1)) = if p k then StdMap.find k m else none := by
  induction m with
  | nil => simp [StdMap.find]
  | cons e rest ih =>
      obtain ⟨k', v'⟩ := e
      by_cases hp : p k' = true
      · by_cases h : k' = k
        · subst h
          simp [List.filter, hp, StdMap.find]
        · simp [List.filter, hp, StdMap.find, h, ih]
      · by_cases h : k' = k
        · subst h
          simp [List.filter, hp, StdMap.find, ih]
        · simp [List.filter, hp, StdMap.find, h, ih]

theorem StdMap.find_erase_self (k : K) (m : StdMap K V) :
    StdMap.find k (StdMap.erase k m) = none := by
  unfold StdMap.erase
  rw [StdMap.find_filter_key (fun x => decide (x ≠ k)) k m]
  simp

theorem StdMap.find_erase_ne (j k : K) (m : StdMap K V) (hne : j ≠ k) :
    StdMap.find j (StdMap.erase k m) = StdMap.find j m := by
  unfold StdMap.erase
  rw [StdMap.find_filter_key (fun x => decide (x ≠ k)) j m]
  simp [hne]

theorem StdMap.mem_of_find (k : K) (v : V) (m : StdMap K V) (h : StdMap.find k m = some v) :
    (k, v) ∈ m := by
  induction m with
  | nil => simp [StdMap.find] at h
  | cons e rest ih =>
      obtain ⟨k', v'⟩ := e
      by_cases hk : k' = k
      · simp [StdMap.find, hk] at h
        simp [hk, h]
      · simp [StdMap.find, hk] at h
        exact List.mem_cons_of_mem _ (ih h)

theorem StdMap.find_isSome_of_mem (k : K) (v : V) (m : StdMap K V) (h : (k, v) ∈ m) :
    ∃ v0, StdMap.find k m = some v0 := by
  induction m with
  | nil => simp at h
  | cons e rest ih =>
      obtain ⟨k', v'⟩ := e
      by_cases hk : k' = k
      · exact ⟨v', by simp [StdMap.find, hk]⟩
      · have : (k, v) ∈ rest := by
          rcases List.mem_cons.mp h with h1 | h1
          · exact absurd (congrArg Prod.fst h1).symm hk
          · exact h1
        obtain ⟨v0, hv0⟩ := ih this
        exact ⟨v0, by simp [StdMap.find, hk, hv0]⟩

theorem StdMap.mem_keys_iff (k : K) (m : StdMap K V) :
    k ∈ StdMap.keys m ↔ ∃ v, StdMap.find k m = some v := by
  constructor
  · intro h
    obtain ⟨e, he, hk⟩ := List.mem_map.mp h
    obtain ⟨k', v⟩ := e
    simp only at hk
    subst hk
    exact StdMap.find_isSome_of_mem _ v m he
  · rintro ⟨v, hv⟩
    exact List.mem_map.mpr ⟨(k, v), StdMap.mem_of_find k v m hv, rfl⟩

/-- In a map with distinct keys, the entry found for a key is the only entry
with that key. -/

theorem StdMap.find_eq_of_mem_nodup (k : K) (v : V) (m : StdMap K V)
    (hnd : (StdMap.keys m).Nodup) (h : (k, v) ∈ m) : StdMap.find k m = some v := by
  induction m with
  | nil => simp at h
  | cons e rest ih =>
      obtain ⟨k', v'⟩ := e
      simp only [StdMap.keys, List.map_cons, List.nodup_cons] at hnd
      rcases List.mem_cons.mp h with h1 | h1
      · cases h1
        simp [StdMap.find]
      · have hk : ¬ k' = k := by
          intro hk
          subst hk
          exact hnd.1 (List.mem_map.mpr ⟨(k', v), h1, rfl⟩)
        simp only [StdMap.find, hk, if_false]
        exact ih hnd.2 h1

theorem StdMap.mem_modify (e : K × V) (k : K) (f : V → V) (m : StdMap K V)
    (h : e ∈ StdMap.modify k f m) : e ∈ m ∨ ∃ v, (k, v) ∈ m ∧ e = (k, f v) := by
  induction m with
  | nil => simp [StdMap.modify] at h
  | cons e' rest ih =>
      obtain ⟨k', v'⟩ := e'
      by_cases hk : k' = k
      · simp only [StdMap.modify, hk, if_true] at h
        rcases List.mem_cons.mp h with h3 | h3
        · exact Or.inr ⟨v', by simp [hk], h3⟩
        · exact Or.inl (List.mem_cons_of_mem _ h3)
      · simp only [StdMap.modify, hk, if_false] at h
        rcases List.mem_cons.mp h with h3 | h3
        · exact Or.inl (by rw [h3]; exact List.mem_cons_self _ _)
        · rcases ih h3 with h4 | ⟨v, hv, he⟩
          · exact Or.inl (List.mem_cons_of_mem _ h4)
          · exact Or.inr ⟨v, List.mem_cons_of_mem _ hv, he⟩

theorem StdMap.keys_modify (k : K) (f : V → V) (m : StdMap K V) :
    StdMap.keys (StdMap.modify k f m) = StdMap.keys m := by
  induction m with
  | nil => rfl
  | cons e rest ih =>
      obtain ⟨k', v'⟩ := e
      simp only [StdMap.keys] at ih
      by_cases hk : k' = k
      · simp [StdMap.modify, StdMap.keys, hk]
      · simp [StdMap.modify, StdMap.keys, hk, ih]

end StdMapLemmas

section StdMapInsertLemmas

variable {K V : Type} [DecidableEq K] [StdLess K]

theorem StdMap.find_insert_self (k : K) (v : V) (m : StdMap K V) :
    StdMap.find k (StdMap.insert k v m) = some v := by
  induction m with
  | nil => simp [StdMap.insert, StdMap.find]
  | cons e rest ih =>
      obtain ⟨k', v'⟩ := e
      unfold StdMap.insert
      cases h1 : StdLess.less k k'
      · by_cases h2 : k = k'
        · simp [h2, StdMap.find]
        · have h3 : ¬ k' = k := fun h => h2 h.symm
          simp [h2, h3, StdMap.find, ih]
      · simp [StdMap.find]

theorem StdMap.find_insert_ne (j k : K) (v : V) (m : StdMap K V) (hne : j ≠ k) :
    StdMap.find j (StdMap.insert k v m) = StdMap.find j m := by
  have hkj : ¬ k = j := fun h => hne h.symm
  induction m with
  | nil => simp [StdMap.insert, StdMap.find, hkj]
  | cons e rest ih =>
      obtain ⟨k', v'⟩ := e
      unfold StdMap.insert
      cases h1 : StdLess.less k k'
      · by_cases h2 : k = k'
        · subst h2
          simp [StdMap.find, hkj]
        · by_cases h3 : k' = j
          · subst h3
            simp [hkj, StdMap.find]
          · simp [h2, h3, StdMap.find, ih]
      · simp [StdMap.find, hkj]

theorem StdMap.mem_insert (e : K × V) (k : K) (v : V) (m : StdMap K V)
    (h : e ∈ StdMap.insert k v m) : e = (k, v) ∨ e ∈ m := by
  induction m with
  | nil => simpa [StdMap.insert] using h
  | cons e' rest ih =>
      obtain ⟨k', v'⟩ := e'
      unfold StdMap.insert at h
      cases h1 : StdLess.less k k'
      · by_cases h2 : k = k'
        · subst h2
          simp only [h1, if_true, Bool.false_eq_true, if_false] at h
          rcases List.mem_cons.mp h with h3 | h3
          · exact Or.inl h3
          · exact Or.inr (List.mem_cons_of_mem _ h3)
        · simp only [h1, h2, if_false, Bool.false_eq_true] at h
          rcases List.mem_cons.mp h with h3 | h3
          · exact Or.inr (by rw [h3]; exact List.mem_cons_self _ _)
          · rcases ih h3 with h4 | h4
            · exact Or.inl h4
            · exact Or.inr (List.mem_cons_of_mem _ h4)
      · simp only [h1, if_true] at h
        rcases List.mem_cons.mp h with h2 | h2
        · exact Or.inl h2
        · exact Or.inr h2

theorem StdSet.mem_insert_self (k : K) (s : StdSet K) : k ∈ StdSet.insert k s := by
  induction s with
  | nil => simp [StdSet.insert]
  | cons k' rest ih =>
      unfold StdSet.insert
      cases h1 : StdLess.less k k'
      · by_cases h2 : k = k'
        · simp [h2]
        · simp [h2, ih]
      · simp

theorem StdSet.mem_insert_of_mem (j k : K) (s : StdSet K) (h : j ∈ s) :
    j ∈ StdSet.insert k s := by
  induction s with
  | nil => simp at h
  | cons k' rest ih =>
      unfold StdSet.insert
      cases h1 : StdLess.less k k'
      · by_cases h2 : k = k'
        · simp only [h2, if_true, Bool.false_eq_true, if_false]
          exact h
        · simp only [h2, if_false, Bool.false_eq_true]
          rcases List.mem_cons.mp h with h3 | h3
          · rw [h3]; exact List.mem_cons_self _ _
          · exact List.mem_cons_of_mem _ (ih h3)
      · simp only [if_true]
        exact List.mem_cons_of_mem _ h

end StdMapInsertLemmas
section GalleryList

/-- What an `int` holds is in the range of `int`. -/
theorem wrapInt_range (x : Int) : -2 ^ 31 ≤ wrapInt x ∧ wrapInt x < 2 ^ 31 := by
  unfold wrapInt kIntBits
  norm_num
  omega

/-- The order the comparator induces: `b` may follow `a` when `a` has the
larger `int` total, or the same and a path that is not greater. -/
theorem ScanResultsComparator_false_iff (a b : ScanResult) :
    ScanResultsComparator b a = false ↔
      (wrapInt b.media_count < wrapInt a.media_count ∨
        (wrapInt a.media_count = wrapInt b.media_count ∧
          a.pref_info.absolute_path ≤ b.pref_info.absolute_path)) := by
  unfold ScanResultsComparator ScanResult.media_count
  simp only
  by_cases h : wrapInt (b.pref_info.image_count + b.pref_info.music_count +
      b.pref_info.video_count) =
      wrapInt (a.pref_info.image_count + a.pref_info.music_count + a.pref_info.video_count)
  · simp only [h, if_true, lt_self_iff_false, false_or, true_and]
    show decide (b.pref_info.absolute_path.toList < a.pref_info.absolute_path.toList) = false ↔ _
    rw [decide_eq_false_iff_not, String.le_iff_toList_le]
    exact not_lt
  · simp only [h, if_false, gt_iff_lt, decide_eq_false_iff_not, not_lt]
    constructor
    · intro hle
      exact Or.inl (lt_of_le_of_ne hle h)
    · rintro (hlt | ⟨heq, _⟩)
      · exact le_of_lt hlt
      · exact absurd heq.symm h

instance ScanResultsComparator_total :
    IsTotal ScanResult (fun a b => ScanResultsComparator b a = false) where
  total a b := by
    simp only [ScanResultsComparator_false_iff]
    rcases lt_trichotomy (wrapInt a.media_count) (wrapInt b.media_count) with h | h | h
    · exact Or.inr (Or.inl h)
    · rcases le_total a.pref_info.absolute_path b.pref_info.absolute_path with hp | hp
      · exact Or.inl (Or.inr ⟨h, hp⟩)
      · exact Or.inr (Or.inr ⟨h.symm, hp⟩)
    · exact Or.inl (Or.inl h)

instance ScanResultsComparator_trans :
    IsTrans ScanResult (fun a b => ScanResultsComparator b a = false) where
  trans a b c := by
    simp only [ScanResultsComparator_false_iff]
    rintro (h1 | ⟨h1, p1⟩) (h2 | ⟨h2, p2⟩)
    · exact Or.inl (lt_trans h2 h1)
    · exact Or.inl (by rw [← h2]; exact h1)
    · exact Or.inl (by rw [h1]; exact h2)
    · exact Or.inr ⟨h1.trans h2, le_trans p1 p2⟩

end GalleryList

/-- C14: `DialogFinished(false)` makes no `SetGalleryPermissionForExtension`
and no `ForgetGalleryById` call; `DialogFinished(true)` calls
`SetGalleryPermissionForExtension(extension, id, true)` for the ids of the
held scan results whose `selected` flag is true, in key order, and then
`ForgetGalleryById` for the ids of `results_to_remove_`, and makes no other
call that changes the preferences; in both cases `on_finish_` is run exactly
once. -/
theorem C14_DialogFinished_calls (storage_monitor : Bool)
    (c : MediaGalleriesScanResultDialogController) :
    (MediaGalleriesScanResultDialogController.DialogFinished false storage_monitor c).filter
        DialogCall.changesPreferences = [] ∧
    (MediaGalleriesScanResultDialogController.DialogFinished true storage_monitor c).filter
        DialogCall.changesPreferences =
      (c.scan_results_.filter (fun it => it.2.selected)).map
          (fun it => DialogCall.SetGalleryPermissionForExtension c.extension_ it.1 true) ++
        c.results_to_remove_.map DialogCall.ForgetGalleryById ∧
    (MediaGalleriesScanResultDialogController.DialogFinished false storage_monitor c).count
        DialogCall.on_finish_Run = 1 ∧
    (MediaGalleriesScanResultDialogController.DialogFinished true storage_monitor c).count
        DialogCall.on_finish_Run = 1 := by
  have hgrant : ∀ l : List (MediaGalleryPrefId × ScanResult),
      (l.map (fun it => DialogCall.SetGalleryPermissionForExtension c.extension_ it.1 true)).filter
        DialogCall.changesPreferences =
      l.map (fun it => DialogCall.SetGalleryPermissionForExtension c.extension_ it.1 true) := by
    intro l
    apply List.filter_eq_self.mpr
    intro x hx
    obtain ⟨it, _, rfl⟩ := List.mem_map.mp hx
    rfl
  have hforget : ∀ l : List MediaGalleryPrefId,
      (l.map DialogCall.ForgetGalleryById).filter DialogCall.changesPreferences =
      l.map DialogCall.ForgetGalleryById := by
    intro l
    apply List.filter_eq_self.mpr
    intro x hx
    obtain ⟨it, _, rfl⟩ := List.mem_map.mp hx
    rfl
  have hgrant0 : ∀ l : List (MediaGalleryPrefId × ScanResult),
      (l.map (fun it => DialogCall.SetGalleryPermissionForExtension c.extension_ it.1 true)).count
        DialogCall.on_finish_Run = 0 := by
    intro l
    apply List.count_eq_zero.mpr
    intro hx
    obtain ⟨it, _, h⟩ := List.mem_map.mp hx
    cases h
  have hforget0 : ∀ l : List MediaGalleryPrefId,
      (l.map DialogCall.ForgetGalleryById).count DialogCall.on_finish_Run = 0 := by
    intro l
    apply List.count_eq_zero.mpr
    intro hx
    obtain ⟨it, _, h⟩ := List.mem_map.mp hx
    cases h
  refine ⟨?_, ?_, ?_, ?_⟩
  · cases storage_monitor <;>
      simp [MediaGalleriesScanResultDialogController.DialogFinished,
        MediaGalleriesScanResultDialogController.destructor_calls,
        DialogCall.changesPreferences]
  · cases storage_monitor <;>
      simp only [MediaGalleriesScanResultDialogController.DialogFinished,
        MediaGalleriesScanResultDialogController.destructor_calls, if_true, List.filter_append,
        hgrant, hforget] <;>
      simp [DialogCall.changesPreferences]
  · cases storage_monitor <;>
      simp [MediaGalleriesScanResultDialogController.DialogFinished,
        MediaGalleriesScanResultDialogController.destructor_calls]
  · cases storage_monitor <;>
      simp only [MediaGalleriesScanResultDialogController.DialogFinished,
        MediaGalleriesScanResultDialogController.destructor_calls, if_true, List.count_append,
        hgrant0, hforget0] <;>
      simp
section UpdateFromPreferencesLemmas

open MediaGalleriesScanResultDialogController

variable (P R : StdSet MediaGalleryPrefId)

theorem find_addOrUpdate (m : StdMap MediaGalleryPrefId ScanResult) (g : MediaGalleryPrefInfo)
    (k : MediaGalleryPrefId) :
    StdMap.find k (addOrUpdate P R m g) =
      if wanted P R g = true ∧ g.pref_id = k then
        some { pref_info := g, selected := ((StdMap.find k m).map (fun r => r.selected)).getD true }
      else StdMap.find k m := by
  unfold addOrUpdate
  by_cases hw : wanted P R g = true
  · by_cases hk : g.pref_id = k
    · subst hk
      cases hf : StdMap.find g.pref_id m with
      | none => simp [hw, StdMap.find_insert_self]
      | some r => simp [hw, StdMap.find_modify_self, hf]
    · have hk2 : k ≠ g.pref_id := fun h => hk h.symm
      cases hf : StdMap.find g.pref_id m with
      | none => simp [hw, hk, StdMap.find_insert_ne _ _ _ _ hk2]
      | some r => simp [hw, hk, StdMap.find_modify_ne _ _ _ _ hk2]
  · simp [hw]

theorem addOrUpdateAll_append_singleton (l : StdMap MediaGalleryPrefId MediaGalleryPrefInfo)
    (x : MediaGalleryPrefId × MediaGalleryPrefInfo) (m : StdMap MediaGalleryPrefId ScanResult) :
    addOrUpdateAll P R (l ++ [x]) m = addOrUpdate P R (addOrUpdateAll P R l m) x.2 := by
  simp [addOrUpdateAll, List.foldl_append]

theorem lastWanted_append_singleton (k : MediaGalleryPrefId)
    (l : StdMap MediaGalleryPrefId MediaGalleryPrefInfo)
    (x : MediaGalleryPrefId × MediaGalleryPrefInfo) :
    lastWanted P R k (l ++ [x]) =
      if wanted P R x.2 = true ∧ x.2.pref_id = k then some x.2 else lastWanted P R k l := by
  unfold lastWanted
  by_cases h : wanted P R x.2 = true ∧ x.2.pref_id = k
  · have hb : (wanted P R x.2 && decide (x.2.pref_id = k)) = true := by simp [h.1, h.2]
    simp [List.filter_append, List.filter, hb, h]
  · have hb : (wanted P R x.2 && decide (x.2.pref_id = k)) = false := by
      by_cases hw : wanted P R x.2 = true
      · have hk : ¬ x.2.pref_id = k := fun hk => h ⟨hw, hk⟩
        simp [hw, hk]
      · simp [hw]
    simp [List.filter_append, List.filter, hb, h]

/-- The entry for a key after the first loop: the last gallery added or
updated under the key, with the `selected` flag the entry had before the loop
(true if there was none); the entry is as before if no gallery was. -/
theorem find_addOrUpdateAll (l : StdMap MediaGalleryPrefId MediaGalleryPrefInfo)
    (m : StdMap MediaGalleryPrefId ScanResult) (k : MediaGalleryPrefId) :
    StdMap.find k (addOrUpdateAll P R l m) =
      match lastWanted P R k l with
      | none => StdMap.find k m
      | some g =>
          some { pref_info := g,
                 selected := ((StdMap.find k m).map (fun r => r.selected)).getD true } := by
  induction l using List.reverseRecOn with
  | nil => simp [addOrUpdateAll, lastWanted]
  | append_singleton l x ih =>
      rw [addOrUpdateAll_append_singleton, find_addOrUpdate, lastWanted_append_singleton, ih]
      by_cases h : wanted P R x.2 = true ∧ x.2.pref_id = k
      · simp only [h, and_self, if_true]
        cases lastWanted P R k l <;> simp
      · simp only [h, if_false]

theorem lastWanted_some (k : MediaGalleryPrefId)
    (l : StdMap MediaGalleryPrefId MediaGalleryPrefInfo) (g : MediaGalleryPrefInfo)
    (h : lastWanted P R k l = some g) :
    (∃ key, (key, g) ∈ l) ∧ wanted P R g = true ∧ g.pref_id = k := by
  unfold lastWanted at h
  obtain ⟨it, hit, hg⟩ := Option.map_eq_some'.mp h
  have hmem := List.mem_of_getLast?_eq_some hit
  have hf := List.mem_filter.mp hmem
  obtain ⟨key, g'⟩ := it
  simp only at hg
  subst hg
  simp only [Bool.and_eq_true, decide_eq_true_eq] at hf
  exact ⟨⟨key, hf.1⟩, hf.2.1, hf.2.2⟩

theorem lastWanted_none (k : MediaGalleryPrefId)
    (l : StdMap MediaGalleryPrefId MediaGalleryPrefInfo) (h : lastWanted P R k l = none) :
    ∀ it ∈ l, ¬ (wanted P R it.2 = true ∧ it.2.pref_id = k) := by
  unfold lastWanted at h
  intro it hit hc
  have hnil : l.filter
      (fun it => wanted P R it.2 && decide (it.2.pref_id = k)) = [] := by
    cases hl : (l.filter (fun it => wanted P R it.2 && decide (it.2.pref_id = k))).getLast? with
    | none => exact List.getLast?_eq_none_iff.mp hl
    | some y => simp [hl] at h
  have : it ∈ l.filter (fun it => wanted P R it.2 && decide (it.2.pref_id = k)) := by
    apply List.mem_filter.mpr
    exact ⟨hit, by simp [hc.1, hc.2]⟩
  rw [hnil] at this
  simp at this

end UpdateFromPreferencesLemmas
section UpdateFromPreferencesProperties

open MediaGalleriesScanResultDialogController

theorem wanted_iff (P R : StdSet MediaGalleryPrefId) (g : MediaGalleryPrefInfo) :
    wanted P R g = true ↔
      (g.type = MediaGalleryType.kScanResult ∧ g.pref_id ∉ P ∧ g.pref_id ∉ R) := by
  simp [wanted, StdSet.contains, and_assoc]

theorem noLongerValid_false_iff (galleries : StdMap MediaGalleryPrefId MediaGalleryPrefInfo)
    (P : StdSet MediaGalleryPrefId) (k : MediaGalleryPrefId) :
    noLongerValid galleries P k = false ↔
      ∃ g, StdMap.find k galleries = some g ∧ g.type = MediaGalleryType.kScanResult ∧ k ∉ P := by
  unfold noLongerValid
  cases h : StdMap.find k galleries with
  | none => simp
  | some g => simp [StdSet.contains]

/-- The entry for a key after `UpdateFromPreferences`. -/
theorem find_UpdateFromPreferences (prefs : MediaGalleriesPreferences)
    (c : MediaGalleriesScanResultDialogController) (k : MediaGalleryPrefId) :
    StdMap.find k (UpdateFromPreferences prefs c).scan_results_ =
      if noLongerValid prefs.known_galleries (prefs.GalleriesForExtension c.extension_) k = false
      then StdMap.find k
        (addOrUpdateAll (prefs.GalleriesForExtension c.extension_) c.results_to_remove_
          prefs.known_galleries c.scan_results_)
      else none := by
  unfold UpdateFromPreferences
  simp only
  rw [StdMap.find_filter_key
    (fun key => !noLongerValid prefs.known_galleries (prefs.GalleriesForExtension c.extension_) key)]
  cases noLongerValid prefs.known_galleries (prefs.GalleriesForExtension c.extension_) k <;> simp

/-- The `selected` flag of an entry held after `UpdateFromPreferences` is the
flag the entry had before, or true if there was none. -/
theorem selected_UpdateFromPreferences (prefs : MediaGalleriesPreferences)
    (c : MediaGalleriesScanResultDialogController) (k : MediaGalleryPrefId) (r : ScanResult)
    (h : StdMap.find k (UpdateFromPreferences prefs c).scan_results_ = some r) :
    r.selected = ((StdMap.find k c.scan_results_).map (fun x => x.selected)).getD true := by
  rw [find_UpdateFromPreferences] at h
  by_cases hv : noLongerValid prefs.known_galleries
      (prefs.GalleriesForExtension c.extension_) k = false
  · simp only [hv, if_true] at h
    rw [find_addOrUpdateAll] at h
    cases hl : lastWanted (prefs.GalleriesForExtension c.extension_) c.results_to_remove_ k
        prefs.known_galleries with
    | none =>
        simp only [hl] at h
        simp [h]
    | some g =>
        simp only [hl, Option.some.injEq] at h
        rw [← h]
  · simp [hv] at h

theorem keyedByPrefId_addOrUpdate (P R : StdSet MediaGalleryPrefId)
    (m : StdMap MediaGalleryPrefId ScanResult) (g : MediaGalleryPrefInfo)
    (h : ∀ it ∈ m, it.2.pref_info.pref_id = it.1) :
    ∀ it ∈ addOrUpdate P R m g, it.2.pref_info.pref_id = it.1 := by
  intro it hit
  unfold addOrUpdate at hit
  by_cases hw : wanted P R g = true
  · simp only [hw, if_true] at hit
    cases hf : StdMap.find g.pref_id m with
    | none =>
        simp only [hf] at hit
        rcases StdMap.mem_insert _ _ _ _ hit with h1 | h1
        · rw [h1]
        · exact h it h1
    | some r =>
        simp only [hf] at hit
        rcases StdMap.mem_modify _ _ _ _ hit with h1 | ⟨v, _, h1⟩
        · exact h it h1
        · rw [h1]
  · simp only [hw, Bool.false_eq_true, if_false] at hit
    exact h it hit

theorem keyedByPrefId_addOrUpdateAll (P R : StdSet MediaGalleryPrefId)
    (l : StdMap MediaGalleryPrefId MediaGalleryPrefInfo)
    (m : StdMap MediaGalleryPrefId ScanResult)
    (h : ∀ it ∈ m, it.2.pref_info.pref_id = it.1) :
    ∀ it ∈ addOrUpdateAll P R l m, it.2.pref_info.pref_id = it.1 := by
  induction l generalizing m with
  | nil => simpa [addOrUpdateAll] using h
  | cons x rest ih =>
      have := ih (addOrUpdate P R m x.2) (keyedByPrefId_addOrUpdate P R m x.2 h)
      simpa [addOrUpdateAll] using this

/-- The invariant holds after `UpdateFromPreferences` if it held before. -/
theorem keyedByPrefId_UpdateFromPreferences (prefs : MediaGalleriesPreferences)
    (c : MediaGalleriesScanResultDialogController) (h : keyedByPrefId c) :
    keyedByPrefId (UpdateFromPreferences prefs c) := by
  intro it hit
  unfold UpdateFromPreferences at hit
  simp only at hit
  exact keyedByPrefId_addOrUpdateAll _ _ _ _ h it (List.mem_filter.mp hit).1

/-- The invariant holds for the controller as constructed. -/
theorem keyedByPrefId_create (extension : String) (prefs : MediaGalleriesPreferences)
    (is_null : Bool) : keyedByPrefId (create extension prefs is_null) := by
  unfold create
  simp only
  have h0 : keyedByPrefId
      { extension_ := extension, scan_results_ := [], results_to_remove_ := [],
        dialog_ := false, dialog_updates := 0 } := by
    intro it hit
    simp at hit
  exact keyedByPrefId_UpdateFromPreferences prefs _ h0

/-- The invariant holds after `DidToggleGalleryId` if it held before. -/
theorem keyedByPrefId_DidToggleGalleryId (pref_id : MediaGalleryPrefId) (selected : Bool)
    (c c1 : MediaGalleriesScanResultDialogController) (h : keyedByPrefId c)
    (hc : DidToggleGalleryId pref_id selected c = some c1) : keyedByPrefId c1 := by
  unfold DidToggleGalleryId at hc
  cases hf : StdMap.find pref_id c.scan_results_ with
  | none => simp [hf] at hc
  | some r =>
      simp only [hf, Option.some.injEq] at hc
      subst hc
      intro it hit
      rcases StdMap.mem_modify _ _ _ _ hit with h1 | ⟨v, hv, h1⟩
      · exact h it h1
      · rw [h1]
        exact h (pref_id, v) hv

/-- The invariant holds after `DidForgetGallery` if it held before. -/
theorem keyedByPrefId_DidForgetGallery (pref_id : MediaGalleryPrefId)
    (c c1 : MediaGalleriesScanResultDialogController) (h : keyedByPrefId c)
    (hc : DidForgetGallery pref_id c = some c1) : keyedByPrefId c1 := by
  unfold DidForgetGallery UpdateResults at hc
  by_cases hd : c.dialog_ = true
  · simp only [hd, if_true, Option.some.injEq] at hc
    subst hc
    intro it hit
    exact h it (List.mem_filter.mp hit).1
  · simp [hd] at hc

/-- A forgotten gallery is not added again by `UpdateFromPreferences`. -/
theorem find_forgotten_UpdateFromPreferences (prefs : MediaGalleriesPreferences)
    (c : MediaGalleriesScanResultDialogController) (id : MediaGalleryPrefId)
    (hr : id ∈ c.results_to_remove_) (hf : StdMap.find id c.scan_results_ = none) :
    StdMap.find id (UpdateFromPreferences prefs c).scan_results_ = none := by
  rw [find_UpdateFromPreferences]
  by_cases hv : noLongerValid prefs.known_galleries
      (prefs.GalleriesForExtension c.extension_) id = false
  · simp only [hv, if_true]
    rw [find_addOrUpdateAll]
    cases hl : lastWanted (prefs.GalleriesForExtension c.extension_) c.results_to_remove_ id
        prefs.known_galleries with
    | none => simpa using hf
    | some g =>
        obtain ⟨_, hw, hid⟩ := lastWanted_some _ _ _ _ _ hl
        rw [wanted_iff] at hw
        exact absurd (hid ▸ hr) hw.2.2
  · simp [hv]

end UpdateFromPreferencesProperties
/-- C18: let `known_galleries` be a map (its keys are distinct) in which every
entry is keyed by its own `pref_id`, and let no held scan result be in
`results_to_remove_`.  Then after `UpdateFromPreferences` the ids of the held
scan results are exactly the ids of the known galleries of type `kScanResult`
that the extension is not permitted to access and that are not in
`results_to_remove_`, and the `pref_info` of each held entry is the current
preference entry for its id. -/
theorem C18_UpdateFromPreferences_held_ids (prefs : MediaGalleriesPreferences)
    (c : MediaGalleriesScanResultDialogController)
    (hmap : (StdMap.keys prefs.known_galleries).Nodup)
    (h1 : ∀ k ∈ StdMap.keys c.scan_results_, k ∉ c.results_to_remove_)
    (h2 : ∀ it ∈ prefs.known_galleries, it.2.pref_id = it.1) :
    (∀ k : MediaGalleryPrefId,
      k ∈ StdMap.keys
          (MediaGalleriesScanResultDialogController.UpdateFromPreferences prefs c).scan_results_ ↔
        ∃ g, StdMap.find k prefs.known_galleries = some g ∧
          g.type = MediaGalleryType.kScanResult ∧
          k ∉ prefs.GalleriesForExtension c.extension_ ∧ k ∉ c.results_to_remove_) ∧
    (∀ (k : MediaGalleryPrefId) (r : ScanResult),
      StdMap.find k
          (MediaGalleriesScanResultDialogController.UpdateFromPreferences prefs c).scan_results_ =
        some r →
      StdMap.find k prefs.known_galleries = some r.pref_info) := by
  refine ⟨?_, ?_⟩
  · intro k
    rw [StdMap.mem_keys_iff]
    constructor
    · rintro ⟨r, hr⟩
      rw [find_UpdateFromPreferences] at hr
      by_cases hv : MediaGalleriesScanResultDialogController.noLongerValid prefs.known_galleries
          (prefs.GalleriesForExtension c.extension_) k = false
      · simp only [hv, if_true] at hr
        obtain ⟨g, hg, ht, hp⟩ := (noLongerValid_false_iff _ _ _).mp hv
        refine ⟨g, hg, ht, hp, ?_⟩
        rw [find_addOrUpdateAll] at hr
        cases hl : MediaGalleriesScanResultDialogController.lastWanted
            (prefs.GalleriesForExtension c.extension_) c.results_to_remove_ k
            prefs.known_galleries with
        | none =>
            simp only [hl] at hr
            exact h1 k ((StdMap.mem_keys_iff _ _).mpr ⟨r, hr⟩)
        | some g' =>
            obtain ⟨_, hw, hid⟩ := lastWanted_some _ _ _ _ _ hl
            rw [wanted_iff] at hw
            exact hid ▸ hw.2.2
      · simp [hv] at hr
    · rintro ⟨g, hg, ht, hp, hr⟩
      have hmem := StdMap.mem_of_find _ _ _ hg
      have hid : g.pref_id = k := h2 _ hmem
      have hv : MediaGalleriesScanResultDialogController.noLongerValid prefs.known_galleries
          (prefs.GalleriesForExtension c.extension_) k = false :=
        (noLongerValid_false_iff _ _ _).mpr ⟨g, hg, ht, hp⟩
      rw [find_UpdateFromPreferences, find_addOrUpdateAll]
      simp only [hv, if_true]
      cases hl : MediaGalleriesScanResultDialogController.lastWanted
          (prefs.GalleriesForExtension c.extension_) c.results_to_remove_ k
          prefs.known_galleries with
      | none =>
          have hw : MediaGalleriesScanResultDialogController.wanted
              (prefs.GalleriesForExtension c.extension_) c.results_to_remove_ g = true :=
            (wanted_iff _ _ _).mpr ⟨ht, hid ▸ hp, hid ▸ hr⟩
          exact absurd ⟨hw, hid⟩ (lastWanted_none _ _ _ _ hl (k, g) hmem)
      | some g' => exact ⟨_, rfl⟩
  · intro k r hr
    rw [find_UpdateFromPreferences] at hr
    by_cases hv : MediaGalleriesScanResultDialogController.noLongerValid prefs.known_galleries
        (prefs.GalleriesForExtension c.extension_) k = false
    · simp only [hv, if_true] at hr
      obtain ⟨g, hg, ht, hp⟩ := (noLongerValid_false_iff _ _ _).mp hv
      have hmem := StdMap.mem_of_find _ _ _ hg
      have hid : g.pref_id = k := h2 _ hmem
      rw [find_addOrUpdateAll] at hr
      cases hl : MediaGalleriesScanResultDialogController.lastWanted
          (prefs.GalleriesForExtension c.extension_) c.results_to_remove_ k
          prefs.known_galleries with
      | none =>
          simp only [hl] at hr
          have hnr : k ∉ c.results_to_remove_ := h1 k ((StdMap.mem_keys_iff _ _).mpr ⟨r, hr⟩)
          have hw : MediaGalleriesScanResultDialogController.wanted
              (prefs.GalleriesForExtension c.extension_) c.results_to_remove_ g = true :=
            (wanted_iff _ _ _).mpr ⟨ht, hid ▸ hp, hid ▸ hnr⟩
          exact absurd ⟨hw, hid⟩ (lastWanted_none _ _ _ _ hl (k, g) hmem)
      | some g' =>
          simp only [hl, Option.some.injEq] at hr
          obtain ⟨⟨key, hkey⟩, _, hid'⟩ := lastWanted_some _ _ _ _ _ hl
          have hk : key = k := by
            have := h2 _ hkey
            simp only at this
            rw [← this, hid']
          subst hk
          rw [← hr]
          exact StdMap.find_eq_of_mem_nodup _ _ _ hmap hkey
    · simp [hv] at hr

/-- C18 at the example preferences, for a controller that holds nothing yet:
after `UpdateFromPreferences` exactly the scan results 1 and 2 are held. -/
theorem C18_UpdateFromPreferences_held_ids_witness :
    (StdMap.keys examplePrefs.known_galleries).Nodup ∧
    (∀ it ∈ examplePrefs.known_galleries, it.2.pref_id = it.1) ∧
    StdMap.keys (MediaGalleriesScanResultDialogController.UpdateFromPreferences examplePrefs
      { extension_ := "ext", scan_results_ := [], results_to_remove_ := [], dialog_ := true,
        dialog_updates := 0 }).scan_results_ = [1, 2] ∧
    (1 ∈ StdMap.keys (MediaGalleriesScanResultDialogController.UpdateFromPreferences examplePrefs
      { extension_ := "ext", scan_results_ := [], results_to_remove_ := [], dialog_ := true,
        dialog_updates := 0 }).scan_results_ ↔
      ∃ g, StdMap.find 1 examplePrefs.known_galleries = some g ∧
        g.type = MediaGalleryType.kScanResult ∧
        1 ∉ examplePrefs.GalleriesForExtension "ext" ∧ 1 ∉ ([] : StdSet MediaGalleryPrefId)) :=
  ⟨by decide, by decide, by decide,
    (C18_UpdateFromPreferences_held_ids examplePrefs
      { extension_ := "ext", scan_results_ := [], results_to_remove_ := [], dialog_ := true,
        dialog_updates := 0 } (by decide) (by decide) (by decide)).1 1⟩

section Forget

open MediaGalleriesScanResultDialogController

/-- What holds from `DidForgetGallery(id)` on: the invariant of
`scan_results_`, `id` is to be removed, `id` is not held, and the dialog
exists. -/
theorem forgotten_UpdateFromPreferences (prefs : MediaGalleriesPreferences)
    (c : MediaGalleriesScanResultDialogController) (id : MediaGalleryPrefId)
    (h : keyedByPrefId c ∧ id ∈ c.results_to_remove_ ∧
      StdMap.find id c.scan_results_ = none ∧ c.dialog_ = true) :
    keyedByPrefId (UpdateFromPreferences prefs c) ∧
      id ∈ (UpdateFromPreferences prefs c).results_to_remove_ ∧
      StdMap.find id (UpdateFromPreferences prefs c).scan_results_ = none ∧
      (UpdateFromPreferences prefs c).dialog_ = true :=
  ⟨keyedByPrefId_UpdateFromPreferences prefs c h.1, h.2.1,
    find_forgotten_UpdateFromPreferences prefs c id h.2.1 h.2.2.1, h.2.2.2⟩

theorem forgotten_UpdateResults (c : MediaGalleriesScanResultDialogController)
    (id : MediaGalleryPrefId)
    (h : keyedByPrefId c ∧ id ∈ c.results_to_remove_ ∧
      StdMap.find id c.scan_results_ = none ∧ c.dialog_ = true) :
    ∃ c1, UpdateResults c = some c1 ∧ keyedByPrefId c1 ∧ id ∈ c1.results_to_remove_ ∧
      StdMap.find id c1.scan_results_ = none ∧ c1.dialog_ = true := by
  refine ⟨{ c with dialog_updates := c.dialog_updates + 1 }, ?_, h.1, h.2.1, h.2.2.1, h.2.2.2⟩
  simp [UpdateResults, h.2.2.2]

theorem forgotten_run (u : Update) (c : MediaGalleriesScanResultDialogController)
    (id : MediaGalleryPrefId)
    (h : keyedByPrefId c ∧ id ∈ c.results_to_remove_ ∧
      StdMap.find id c.scan_results_ = none ∧ c.dialog_ = true) :
    ∃ c1, u.run c = some c1 ∧ keyedByPrefId c1 ∧ id ∈ c1.results_to_remove_ ∧
      StdMap.find id c1.scan_results_ = none ∧ c1.dialog_ = true := by
  cases u with
  | UpdateFromPreferences prefs =>
      exact ⟨_, rfl, forgotten_UpdateFromPreferences prefs c id h⟩
  | OnPreferenceUpdate prefs extension_id pref_id =>
      have hup := forgotten_UpdateResults _ id (forgotten_UpdateFromPreferences prefs c id h)
      simp only [Update.run, OnPreferenceUpdate]
      by_cases he : extension_id = c.extension_
      · simp only [he, if_true]
        cases hf : StdMap.find pref_id prefs.known_galleries with
        | none => exact hup
        | some it =>
            by_cases ht : it.type = MediaGalleryType.kScanResult ∨
                it.type = MediaGalleryType.kRemovedScan
            · simp only [ht, if_true]
              exact hup
            · simp only [ht, if_false]
              exact ⟨c, rfl, h⟩
      · simp only [he, if_false]
        exact ⟨c, rfl, h⟩

theorem forgotten_runUpdates (updates : List Update)
    (c : MediaGalleriesScanResultDialogController) (id : MediaGalleryPrefId)
    (h : keyedByPrefId c ∧ id ∈ c.results_to_remove_ ∧
      StdMap.find id c.scan_results_ = none ∧ c.dialog_ = true) :
    ∃ c1, runUpdates updates c = some c1 ∧ keyedByPrefId c1 ∧ id ∈ c1.results_to_remove_ ∧
      StdMap.find id c1.scan_results_ = none ∧ c1.dialog_ = true := by
  induction updates generalizing c with
  | nil => exact ⟨c, rfl, h⟩
  | cons u rest ih =>
      obtain ⟨c1, hc1, h1⟩ := forgotten_run u c id h
      obtain ⟨c2, hc2, h2⟩ := ih c1 h1
      exact ⟨c2, by simp [runUpdates, hc1, hc2], h2⟩

theorem forgotten_after_DidForgetGallery (c c1 : MediaGalleriesScanResultDialogController)
    (id : MediaGalleryPrefId) (hinv : keyedByPrefId c)
    (hc : DidForgetGallery id c = some c1) :
    keyedByPrefId c1 ∧ id ∈ c1.results_to_remove_ ∧
      StdMap.find id c1.scan_results_ = none ∧ c1.dialog_ = true := by
  have hk := keyedByPrefId_DidForgetGallery id c c1 hinv hc
  unfold DidForgetGallery UpdateResults at hc
  by_cases hd : c.dialog_ = true
  · simp only [hd, if_true, Option.some.injEq] at hc
    subst hc
    exact ⟨hk, StdSet.mem_insert_self _ _, StdMap.find_erase_self _ _, rfl⟩
  · simp [hd] at hc

theorem forgotten_not_listed (c : MediaGalleriesScanResultDialogController)
    (id : MediaGalleryPrefId) (hinv : keyedByPrefId c)
    (hf : StdMap.find id c.scan_results_ = none) :
    ∀ r ∈ GetGalleryList c, r.pref_info.pref_id ≠ id := by
  intro r hr hid
  have hperm : List.Perm (GetGalleryList c) (StdMap.values c.scan_results_) := by
    unfold GetGalleryList stdSort
    exact List.perm_insertionSort _ _
  have hv : r ∈ StdMap.values c.scan_results_ := hperm.mem_iff.mp hr
  obtain ⟨it, hit, hsnd⟩ := List.mem_map.mp hv
  obtain ⟨k, v⟩ := it
  simp only at hsnd
  subst hsnd
  have hk : v.pref_info.pref_id = k := hinv _ hit
  obtain ⟨v0, hv0⟩ := StdMap.find_isSome_of_mem k v _ hit
  rw [← hk, hid, hf] at hv0
  cases hv0

end Forget

/-- C19: for a controller whose scan results are keyed by the `pref_id` of
their `pref_info` (as in every state the controller reaches), after
`DidForgetGallery(id)` has returned, every later sequence of
`UpdateFromPreferences` and `OnPreferenceUpdate` calls, each with any contents
of the preferences, runs to the end, and after it `GetGalleryList` has no
entry with pref id `id` and `id` is still in `results_to_remove_`. -/
theorem C19_forgotten_gallery_stays_forgotten
    (c c1 : MediaGalleriesScanResultDialogController) (id : MediaGalleryPrefId)
    (hinv : MediaGalleriesScanResultDialogController.keyedByPrefId c)
    (hforget : MediaGalleriesScanResultDialogController.DidForgetGallery id c = some c1)
    (updates : List MediaGalleriesScanResultDialogController.Update) :
    ∃ c2, MediaGalleriesScanResultDialogController.runUpdates updates c1 = some c2 ∧
      (∀ r ∈ MediaGalleriesScanResultDialogController.GetGalleryList c2,
        r.pref_info.pref_id ≠ id) ∧
      id ∈ c2.results_to_remove_ := by
  obtain ⟨c2, hrun, hk, hr, hf, _⟩ :=
    forgotten_runUpdates updates c1 id (forgotten_after_DidForgetGallery c c1 id hinv hforget)
  exact ⟨c2, hrun, forgotten_not_listed c2 id hk hf, hr⟩

/-- C19 at the example controller: gallery 1 is forgotten, then the
preferences, which still list gallery 1 as a scan result the extension has no
access to, are read twice. -/
theorem C19_forgotten_gallery_stays_forgotten_witness :
    MediaGalleriesScanResultDialogController.keyedByPrefId exampleController ∧
    MediaGalleriesScanResultDialogController.DidForgetGallery 1 exampleController =
      some exampleForgotten ∧
    ∃ c2, MediaGalleriesScanResultDialogController.runUpdates
        [MediaGalleriesScanResultDialogController.Update.OnPreferenceUpdate examplePrefs "ext" 1,
         MediaGalleriesScanResultDialogController.Update.UpdateFromPreferences examplePrefs]
        exampleForgotten = some c2 ∧
      (∀ r ∈ MediaGalleriesScanResultDialogController.GetGalleryList c2,
        r.pref_info.pref_id ≠ 1) ∧
      1 ∈ c2.results_to_remove_ :=
  ⟨by decide, by decide,
    C19_forgotten_gallery_stays_forgotten exampleController exampleForgotten 1 (by decide)
      (by decide) _⟩

/-- C20: `UpdateFromPreferences` gives every scan result it newly adds
`selected = true` and leaves the `selected` flag of every scan result held
before and after the call as it was; `DidToggleGalleryId(id, s)`, for a held
entry `id`, sets the `selected` flag of that entry to `s` and changes nothing
else: every other entry, the keys, and the other members are as before. -/
theorem C20_selected_flags (prefs : MediaGalleriesPreferences)
    (c : MediaGalleriesScanResultDialogController) :
    (∀ (k : MediaGalleryPrefId) (r : ScanResult),
      StdMap.find k c.scan_results_ = none →
      StdMap.find k
          (MediaGalleriesScanResultDialogController.UpdateFromPreferences prefs c).scan_results_ =
        some r →
      r.selected = true) ∧
    (∀ (k : MediaGalleryPrefId) (r0 r1 : ScanResult),
      StdMap.find k c.scan_results_ = some r0 →
      StdMap.find k
          (MediaGalleriesScanResultDialogController.UpdateFromPreferences prefs c).scan_results_ =
        some r1 →
      r1.selected = r0.selected) ∧
    (∀ (id : MediaGalleryPrefId) (s : Bool) (r0 : ScanResult),
      StdMap.find id c.scan_results_ = some r0 →
      ∃ c1, MediaGalleriesScanResultDialogController.DidToggleGalleryId id s c = some c1 ∧
        StdMap.find id c1.scan_results_ = some { r0 with selected := s } ∧
        (∀ k, k ≠ id → StdMap.find k c1.scan_results_ = StdMap.find k c.scan_results_) ∧
        StdMap.keys c1.scan_results_ = StdMap.keys c.scan_results_ ∧
        c1.results_to_remove_ = c.results_to_remove_ ∧ c1.extension_ = c.extension_ ∧
        c1.dialog_ = c.dialog_ ∧ c1.dialog_updates = c.dialog_updates) := by
  refine ⟨?_, ?_, ?_⟩
  · intro k r hbefore hafter
    have := selected_UpdateFromPreferences prefs c k r hafter
    simpa [hbefore] using this
  · intro k r0 r1 hbefore hafter
    have := selected_UpdateFromPreferences prefs c k r1 hafter
    simpa [hbefore] using this
  · intro id s r0 hheld
    refine ⟨{ c with scan_results_ :=
        StdMap.modify id (fun entry => { entry with selected := s }) c.scan_results_ },
      ?_, ?_, ?_, ?_, rfl, rfl, rfl, rfl⟩
    · simp [MediaGalleriesScanResultDialogController.DidToggleGalleryId, hheld]
    · simp [StdMap.find_modify_self, hheld]
    · intro k hk
      exact StdMap.find_modify_ne k id _ _ hk
    · exact StdMap.keys_modify _ _ _

/-- C15: when syncing has not been started (`sync_processor_` is not set)
`ProcessSyncChanges` returns a `DATATYPE_ERROR` error and leaves the service,
its sync items and the item list of the model included, as it was, for every
change list; when syncing has been started it returns no error, for every
change list. -/
theorem C15_ProcessSyncChanges_error_iff_not_started {L : Type}
    (e : app_list.ItemListMethods L) (change_list : List app_list.SyncChange)
    (s : app_list.AppListSyncableService L) :
    (s.sync_processor_ = false →
      app_list.AppListSyncableService.ProcessSyncChanges e change_list s =
        ({ error_type := app_list.SyncErrorType.DATATYPE_ERROR,
           message := "App List syncable service is not started." }, s)) ∧
    (s.sync_processor_ = true →
      (app_list.AppListSyncableService.ProcessSyncChanges e change_list s).1 =
        app_list.SyncError.unset) := by
  constructor
  · intro h
    simp [app_list.AppListSyncableService.ProcessSyncChanges, h]
  · intro h
    simp [app_list.AppListSyncableService.ProcessSyncChanges, h]

/-- What `RemoveDefaultApp` does: after the `CHECK_EQ` the type of the sync
item is `TYPE_REMOVE_DEFAULT_APP`, so the test for `TYPE_APP` fails; the sync
item is deleted and the result is false, whether or not the app was installed
by default. -/
theorem RemoveDefaultApp_eq {L : Type} (item : app_list.AppListItem)
    (sync_item : app_list.SyncItem) (s : app_list.AppListSyncableService L) :
    app_list.AppListSyncableService.RemoveDefaultApp item sync_item s =
      if sync_item.item_type = app_list.AppListItemType.TYPE_REMOVE_DEFAULT_APP then
        some (false, app_list.AppListSyncableService.DeleteSyncItem sync_item.item_id s)
      else none := by
  unfold app_list.AppListSyncableService.RemoveDefaultApp
  by_cases h : sync_item.item_type = app_list.AppListItemType.TYPE_REMOVE_DEFAULT_APP
  · simp [h]
  · simp [h]

/-- C17, the code at the example: the app `"app"` is installed and was
installed by default, and the service holds a `TYPE_REMOVE_DEFAULT_APP` entry
for it.  `RemoveDefaultApp` returns false, deletes the entry and does not
call `UninstallExtension`; `AddOrUpdateSyncItem` returns the sync item for
`"app"`, now a `TYPE_APP` entry, and the app stays installed. -/
theorem C17_RemoveDefaultApp_at_default_app :
    app_list.AppIsDefault app_list.exampleService.extension_service "app" = true ∧
    app_list.AppListSyncableService.FindSyncItem "app" app_list.exampleService =
      some (app_list.SyncItem.new "app" app_list.AppListItemType.TYPE_REMOVE_DEFAULT_APP) ∧
    (app_list.AppListSyncableService.RemoveDefaultApp app_list.exampleAppItem
        (app_list.SyncItem.new "app" app_list.AppListItemType.TYPE_REMOVE_DEFAULT_APP)
        app_list.exampleService).map
      (fun r => (r.1, StdMap.keys r.2.sync_items_,
        r.2.calls.count (app_list.ServiceCall.ExtensionService_UninstallExtension "app"))) =
      some (false, [], 0) ∧
    (app_list.AppListSyncableService.AddOrUpdateSyncItem app_list.exampleAppItem
        app_list.exampleService).map
      (fun r => (r.1, r.2.sync_items_.map (fun it => (it.1, it.2.item_type)),
        r.2.calls.count (app_list.ServiceCall.ExtensionService_UninstallExtension "app"),
        r.2.extension_service)) =
      some (some "app", [("app", app_list.AppListItemType.TYPE_APP)], 0,
        some { installed := ["app"], installed_by_default := ["app"] }) := by
  decide

section SyncItemsOfMethods

open app_list app_list.AppListSyncableService

variable {L : Type}

theorem SyncStarted_sync_items (s : AppListSyncableService L) :
    (SyncStarted s).2.sync_items_ = s.sync_items_ ∧
    (SyncStarted s).2.extension_service = s.extension_service := by
  unfold SyncStarted
  cases s.sync_processor_ <;> cases s.flare_ <;> simp

theorem SendSyncChange_sync_items (id : String) (t : SyncChangeType)
    (s : AppListSyncableService L) :
    (SendSyncChange id t s).sync_items_ = s.sync_items_ := by
  have h := (SyncStarted_sync_items s).1
  unfold SendSyncChange
  cases hs : SyncStarted s with
  | mk started s1 =>
      rw [hs] at h
      simp only at h
      cases started
      · simpa using h
      · simp only [Bool.not_true, Bool.false_eq_true, if_false]
        cases hf : StdMap.find id s1.sync_items_ <;> simpa using h

theorem DeleteSyncItem_sync_items (id : String) (s : AppListSyncableService L) :
    (DeleteSyncItem id s).sync_items_ = StdMap.erase id s.sync_items_ := by
  have h := (SyncStarted_sync_items s).1
  unfold DeleteSyncItem
  cases hs : SyncStarted s with
  | mk started s1 =>
      rw [hs] at h
      simp only at h
      cases started
      · simp [h]
      · simp only [if_true]
        cases hf : StdMap.find id s1.sync_items_ <;> simp [h]

theorem UninstallExtension_sync_items (id : String) (s : AppListSyncableService L) :
    (UninstallExtension id s).sync_items_ = s.sync_items_ := by
  unfold UninstallExtension
  cases s.extension_service with
  | none => rfl
  | some service =>
      by_cases h : id ∈ service.installed <;> simp [h]

theorem ProcessNewSyncItem_sync_items (item : SyncItem) (s : AppListSyncableService L) :
    (ProcessNewSyncItem item s).sync_items_ = s.sync_items_ := by
  unfold ProcessNewSyncItem
  cases item.item_type <;> simp [UninstallExtension_sync_items]

theorem ProcessExistingSyncItem_sync_items (e : ItemListMethods L) (item : SyncItem)
    (s : AppListSyncableService L) :
    (ProcessExistingSyncItem e item s).sync_items_ = s.sync_items_ := by
  unfold ProcessExistingSyncItem UpdateAppItemFromSyncItem
  by_cases h : item.item_type = AppListItemType.TYPE_REMOVE_DEFAULT_APP
  · simp [h]
  · simp only [h, if_false]
    cases e.FindItem item.item_id s.item_list with
    | none => rfl
    | some app_item =>
        simp only
        cases (!app_item.position.Equals item.item_ordinal) <;> simp

/-- The sync items after `RemoveSyncItem(id)`. -/
theorem RemoveSyncItem_sync_items (id : String) (s : AppListSyncableService L) :
    (RemoveSyncItem id s).sync_items_ =
      match StdMap.find id s.sync_items_ with
      | none => s.sync_items_
      | some sync_item =>
          if sync_item.item_type = AppListItemType.TYPE_REMOVE_DEFAULT_APP then s.sync_items_
          else if sync_item.item_type = AppListItemType.TYPE_APP ∧
              AppIsDefault s.extension_service id = true then
            StdMap.modify id
              (fun item => { item with item_type := AppListItemType.TYPE_REMOVE_DEFAULT_APP })
              s.sync_items_
          else StdMap.erase sync_item.item_id s.sync_items_ := by
  unfold RemoveSyncItem
  cases hf : StdMap.find id s.sync_items_ with
  | none => rfl
  | some sync_item =>
      simp only
      by_cases h1 : sync_item.item_type = AppListItemType.TYPE_REMOVE_DEFAULT_APP
      · simp [h1]
      · by_cases h2 : sync_item.item_type = AppListItemType.TYPE_APP ∧
            AppIsDefault s.extension_service id = true
        · simp only [if_neg h1, if_pos h2]
          rw [SendSyncChange_sync_items]
        · simp only [if_neg h1, if_neg h2]
          rw [DeleteSyncItem_sync_items]

end SyncItemsOfMethods

/-- C21: for a service whose sync items are stored under their own `item_id`
(as in every state the service reaches), `RemoveSyncItem(id)` leaves the
service as it is when there is no entry for `id` or the entry has type
`TYPE_REMOVE_DEFAULT_APP`; when the entry has type `TYPE_APP` and the app was
installed by default it keeps the entry, with the same keys, and changes its
type to `TYPE_REMOVE_DEFAULT_APP`; in every other case there is no entry for
`id` afterwards; and the entry for any other id is as before. -/
theorem C21_RemoveSyncItem_cases {L : Type} (id : String)
    (s : app_list.AppListSyncableService L)
    (hinv : app_list.AppListSyncableService.keyedByItemId s) :
    (StdMap.find id s.sync_items_ = none →
      app_list.AppListSyncableService.RemoveSyncItem id s = s) ∧
    (∀ sync_item, StdMap.find id s.sync_items_ = some sync_item →
      sync_item.item_type = app_list.AppListItemType.TYPE_REMOVE_DEFAULT_APP →
      app_list.AppListSyncableService.RemoveSyncItem id s = s) ∧
    (∀ sync_item, StdMap.find id s.sync_items_ = some sync_item →
      sync_item.item_type = app_list.AppListItemType.TYPE_APP →
      app_list.AppIsDefault s.extension_service id = true →
      StdMap.find id (app_list.AppListSyncableService.RemoveSyncItem id s).sync_items_ =
        some { sync_item with item_type := app_list.AppListItemType.TYPE_REMOVE_DEFAULT_APP } ∧
      StdMap.keys (app_list.AppListSyncableService.RemoveSyncItem id s).sync_items_ =
        StdMap.keys s.sync_items_) ∧
    (∀ sync_item, StdMap.find id s.sync_items_ = some sync_item →
      sync_item.item_type ≠ app_list.AppListItemType.TYPE_REMOVE_DEFAULT_APP →
      ¬ (sync_item.item_type = app_list.AppListItemType.TYPE_APP ∧
          app_list.AppIsDefault s.extension_service id = true) →
      StdMap.find id (app_list.AppListSyncableService.RemoveSyncItem id s).sync_items_ = none) ∧
    (∀ k, k ≠ id →
      StdMap.find k (app_list.AppListSyncableService.RemoveSyncItem id s).sync_items_ =
        StdMap.find k s.sync_items_) := by
  have hkey : ∀ sync_item, StdMap.find id s.sync_items_ = some sync_item →
      sync_item.item_id = id :=
    fun sync_item hf => hinv (id, sync_item) (StdMap.mem_of_find _ _ _ hf)
  refine ⟨?_, ?_, ?_, ?_, ?_⟩
  · intro hf
    simp [app_list.AppListSyncableService.RemoveSyncItem, hf]
  · intro sync_item hf ht
    simp [app_list.AppListSyncableService.RemoveSyncItem, hf, ht]
  · intro sync_item hf ht hd
    have h1 : ¬ sync_item.item_type = app_list.AppListItemType.TYPE_REMOVE_DEFAULT_APP := by
      rw [ht]; decide
    rw [RemoveSyncItem_sync_items]
    simp only [hf, if_neg h1, if_pos (And.intro ht hd)]
    exact ⟨by simp [StdMap.find_modify_self, hf], StdMap.keys_modify _ _ _⟩
  · intro sync_item hf h1 h2
    rw [RemoveSyncItem_sync_items]
    simp only [hf, if_neg h1, if_neg h2]
    rw [hkey sync_item hf]
    exact StdMap.find_erase_self _ _
  · intro k hk
    rw [RemoveSyncItem_sync_items]
    cases hf : StdMap.find id s.sync_items_ with
    | none => rfl
    | some sync_item =>
        simp only
        by_cases h1 : sync_item.item_type = app_list.AppListItemType.TYPE_REMOVE_DEFAULT_APP
        · simp [h1]
        · by_cases h2 : sync_item.item_type = app_list.AppListItemType.TYPE_APP ∧
              app_list.AppIsDefault s.extension_service id = true
          · simp only [if_neg h1, if_pos h2]
            exact StdMap.find_modify_ne k id _ _ hk
          · simp only [if_neg h1, if_neg h2]
            rw [hkey sync_item hf]
            exact StdMap.find_erase_ne k id _ hk

/-- C21 at the example service: removing the default-installed app `"app"`
turns its entry into a `TYPE_REMOVE_DEFAULT_APP` entry and leaves the folder
`"dir"`; removing `"dir"` deletes its entry. -/
theorem C21_RemoveSyncItem_cases_witness :
    app_list.AppListSyncableService.keyedByItemId app_list.exampleAppsService ∧
    (app_list.AppListSyncableService.RemoveSyncItem "app"
        app_list.exampleAppsService).sync_items_.map (fun it => (it.1, it.2.item_type)) =
      [("app", app_list.AppListItemType.TYPE_REMOVE_DEFAULT_APP),
       ("dir", app_list.AppListItemType.TYPE_FOLDER)] ∧
    StdMap.find "dir" (app_list.AppListSyncableService.RemoveSyncItem "app"
        app_list.exampleAppsService).sync_items_ =
      StdMap.find "dir" app_list.exampleAppsService.sync_items_ ∧
    StdMap.find "dir" (app_list.AppListSyncableService.RemoveSyncItem "dir"
        app_list.exampleAppsService).sync_items_ = none :=
  ⟨by decide, by decide,
    (C21_RemoveSyncItem_cases "app" app_list.exampleAppsService (by decide)).2.2.2.2 "dir"
      (by decide),
    (C21_RemoveSyncItem_cases "dir" app_list.exampleAppsService (by decide)).2.2.2.1
      (app_list.SyncItem.new "dir" app_list.AppListItemType.TYPE_FOLDER) (by decide)
      (by decide) (by decide)⟩

section ProcessSpecifics

open app_list app_list.AppListSyncableService

variable {L : Type}

theorem UpdateSyncItemFromSync_item_id (e : ItemListMethods L) (specifics : AppListSpecifics)
    (item : SyncItem) : (UpdateSyncItemFromSync e specifics item).item_id = item.item_id := by
  unfold UpdateSyncItemFromSync
  by_cases h1 : specifics.page_ordinal = "" <;> by_cases h2 : specifics.item_ordinal = "" <;>
    simp [h1, h2]

theorem UpdateSyncItemFromAppItem_item_id (app_item : AppListItem) (item : SyncItem) :
    (UpdateSyncItemFromAppItem app_item item).2.item_id = item.item_id := by
  unfold UpdateSyncItemFromAppItem
  by_cases h1 : item.item_name = app_item.title
  · simp only [h1, ne_eq, not_true_eq_false, if_false]
    split <;> rfl
  · simp only [ne_eq, h1, not_false_eq_true, if_true]
    split <;> rfl

/-- The sync items after `ProcessSyncItemSpecifics`. -/
theorem ProcessSyncItemSpecifics_sync_items (e : ItemListMethods L) (specifics : AppListSpecifics)
    (s : AppListSyncableService L) :
    (ProcessSyncItemSpecifics e specifics s).2.sync_items_ =
      if specifics.item_id = "" then s.sync_items_
      else
        match StdMap.find specifics.item_id s.sync_items_ with
        | some sync_item =>
            if sync_item.item_type = specifics.item_type then
              StdMap.modify specifics.item_id
                (fun _ => UpdateSyncItemFromSync e specifics sync_item) s.sync_items_
            else
              StdMap.modify specifics.item_id
                (fun _ => UpdateSyncItemFromSync e specifics
                  (SyncItem.new specifics.item_id specifics.item_type))
                (StdMap.insert specifics.item_id
                  (SyncItem.new specifics.item_id specifics.item_type)
                  (StdMap.erase specifics.item_id s.sync_items_))
        | none =>
            StdMap.modify specifics.item_id
              (fun _ => UpdateSyncItemFromSync e specifics
                (SyncItem.new specifics.item_id specifics.item_type))
              (StdMap.insert specifics.item_id
                (SyncItem.new specifics.item_id specifics.item_type) s.sync_items_) := by
  unfold ProcessSyncItemSpecifics
  by_cases h0 : specifics.item_id = ""
  · simp [h0]
  · simp only [h0, if_false, FindSyncItem]
    cases hf : StdMap.find specifics.item_id s.sync_items_ with
    | none =>
        simp only [ProcessNewSyncItem_sync_items, CreateSyncItem]
    | some sync_item =>
        simp only
        by_cases ht : sync_item.item_type = specifics.item_type
        · simp only [if_pos ht, ProcessExistingSyncItem_sync_items]
        · simp only [if_neg ht, ProcessNewSyncItem_sync_items, CreateSyncItem]
          split <;> rfl

/-- `ProcessSyncItemSpecifics` changes no entry for another id. -/
theorem ProcessSyncItemSpecifics_find_ne (e : ItemListMethods L) (specifics : AppListSpecifics)
    (s : AppListSyncableService L) (k : String) (hk : k ≠ specifics.item_id) :
    StdMap.find k (ProcessSyncItemSpecifics e specifics s).2.sync_items_ =
      StdMap.find k s.sync_items_ := by
  rw [ProcessSyncItemSpecifics_sync_items]
  by_cases h0 : specifics.item_id = ""
  · simp [h0]
  · simp only [h0, if_false]
    cases hf : StdMap.find specifics.item_id s.sync_items_ with
    | none =>
        simp only
        rw [StdMap.find_modify_ne k _ _ _ hk, StdMap.find_insert_ne k _ _ _ hk]
    | some sync_item =>
        simp only
        by_cases ht : sync_item.item_type = specifics.item_type
        · simp only [if_pos ht]
          exact StdMap.find_modify_ne k _ _ _ hk
        · simp only [if_neg ht]
          rw [StdMap.find_modify_ne k _ _ _ hk, StdMap.find_insert_ne k _ _ _ hk,
            StdMap.find_erase_ne k _ _ hk]

end ProcessSpecifics

section KeyedByItemId

open app_list app_list.AppListSyncableService

variable {L : Type}

theorem keyedByItemId_of_sync_items (s s1 : AppListSyncableService L)
    (h : keyedByItemId s) (hsub : ∀ it ∈ s1.sync_items_, it ∈ s.sync_items_ ∨ it.2.item_id = it.1) :
    keyedByItemId s1 := by
  intro it hit
  rcases hsub it hit with h1 | h1
  · exact h it h1
  · exact h1

/-- `RemoveSyncItem` keeps every sync item stored under its own id. -/
theorem keyedByItemId_RemoveSyncItem (id : String) (s : AppListSyncableService L)
    (h : keyedByItemId s) : keyedByItemId (RemoveSyncItem id s) := by
  apply keyedByItemId_of_sync_items s _ h
  intro it hit
  rw [RemoveSyncItem_sync_items] at hit
  cases hf : StdMap.find id s.sync_items_ with
  | none => rw [hf] at hit; exact Or.inl hit
  | some sync_item =>
      rw [hf] at hit
      simp only at hit
      by_cases h1 : sync_item.item_type = AppListItemType.TYPE_REMOVE_DEFAULT_APP
      · rw [if_pos h1] at hit; exact Or.inl hit
      · rw [if_neg h1] at hit
        by_cases h2 : sync_item.item_type = AppListItemType.TYPE_APP ∧
            AppIsDefault s.extension_service id = true
        · rw [if_pos h2] at hit
          rcases StdMap.mem_modify _ _ _ _ hit with h3 | ⟨v, hv, he⟩
          · exact Or.inl h3
          · refine Or.inr ?_
            rw [he]
            exact h (id, v) hv
        · rw [if_neg h2] at hit
          exact Or.inl (List.mem_filter.mp hit).1

/-- `ProcessSyncItemSpecifics` keeps every sync item stored under its own id. -/
theorem keyedByItemId_ProcessSyncItemSpecifics (e : ItemListMethods L)
    (specifics : AppListSpecifics) (s : AppListSyncableService L)
    (h : keyedByItemId s) : keyedByItemId (ProcessSyncItemSpecifics e specifics s).2 := by
  apply keyedByItemId_of_sync_items s _ h
  intro it hit
  rw [ProcessSyncItemSpecifics_sync_items] at hit
  by_cases h0 : specifics.item_id = ""
  · rw [if_pos h0] at hit; exact Or.inl hit
  · rw [if_neg h0] at hit
    cases hf : StdMap.find specifics.item_id s.sync_items_ with
    | none =>
        rw [hf] at hit
        simp only at hit
        rcases StdMap.mem_modify _ _ _ _ hit with h3 | ⟨v, hv, he⟩
        · rcases StdMap.mem_insert _ _ _ _ h3 with h4 | h4
          · exact Or.inr (by rw [h4]; rfl)
          · exact Or.inl h4
        · refine Or.inr ?_
          rw [he]
          simp only [UpdateSyncItemFromSync_item_id]
          rfl
    | some sync_item =>
        rw [hf] at hit
        simp only at hit
        by_cases ht : sync_item.item_type = specifics.item_type
        · rw [if_pos ht] at hit
          rcases StdMap.mem_modify _ _ _ _ hit with h3 | ⟨v, hv, he⟩
          · exact Or.inl h3
          · refine Or.inr ?_
            rw [he]
            simp only [UpdateSyncItemFromSync_item_id]
            exact h _ (StdMap.mem_of_find _ _ _ hf)
        · rw [if_neg ht] at hit
          rcases StdMap.mem_modify _ _ _ _ hit with h3 | ⟨v, hv, he⟩
          · rcases StdMap.mem_insert _ _ _ _ h3 with h4 | h4
            · exact Or.inr (by rw [h4]; rfl)
            · exact Or.inl (List.mem_filter.mp h4).1
          · refine Or.inr ?_
            rw [he]
            simp only [UpdateSyncItemFromSync_item_id]
            rfl

theorem keyedByItemId_processAll (e : ItemListMethods L) (data : List AppListSpecifics)
    (s : AppListSyncableService L) (h : keyedByItemId s) :
    keyedByItemId (processAll e data s).2 := by
  induction data generalizing s with
  | nil => exact h
  | cons d rest ih =>
      simp only [processAll]
      exact ih _ (keyedByItemId_ProcessSyncItemSpecifics e d s h)

end KeyedByItemId

section StdSetMore

variable {K : Type} [DecidableEq K] [StdLess K]

theorem StdSet.mem_insert_inv (j k : K) (s : StdSet K) (h : j ∈ StdSet.insert k s) :
    j = k ∨ j ∈ s := by
  induction s with
  | nil => simpa [StdSet.insert] using h
  | cons k' rest ih =>
      unfold StdSet.insert at h
      cases h1 : StdLess.less k k'
      · by_cases h2 : k = k'
        · subst h2
          simp only [h1, Bool.false_eq_true, if_false, if_true] at h
          exact Or.inr h
        · simp only [h1, Bool.false_eq_true, if_false, h2] at h
          rcases List.mem_cons.mp h with h3 | h3
          · exact Or.inr (by rw [h3]; exact List.mem_cons_self _ _)
          · rcases ih h3 with h4 | h4
            · exact Or.inl h4
            · exact Or.inr (List.mem_cons_of_mem _ h4)
      · simp only [h1, if_true] at h
        rcases List.mem_cons.mp h with h3 | h3
        · exact Or.inl h3
        · exact Or.inr h3

theorem StdSet.mem_foldl_insert {V : Type} (m : StdMap K V) (acc : StdSet K) (j : K)
    (h : j ∈ m.foldl (fun set it => StdSet.insert it.1 set) acc) :
    j ∈ acc ∨ j ∈ StdMap.keys m := by
  induction m generalizing acc with
  | nil => exact Or.inl h
  | cons it rest ih =>
      simp only [List.foldl_cons] at h
      rcases ih _ h with h1 | h1
      · rcases StdSet.mem_insert_inv _ _ _ h1 with h2 | h2
        · exact Or.inr (by simp [StdMap.keys, h2])
        · exact Or.inl h2
      · exact Or.inr (by
          simp only [StdMap.keys, List.map_cons, List.mem_cons]
          exact Or.inr h1)

end StdSetMore

section Merge

open app_list app_list.AppListSyncableService

variable {L : Type}

/-- The loop of `MergeDataAndStartSyncing` makes the calls of `processAll`
and counts what they return. -/
theorem foldl_mergeStep (e : ItemListMethods L) (data : List AppListSpecifics)
    (loop : MergeLoop L) :
    (data.foldl (mergeStep e) loop).service = (processAll e data loop.service).2 ∧
    (data.foldl (mergeStep e) loop).new_items =
      loop.new_items + (processAll e data loop.service).1.count true ∧
    (data.foldl (mergeStep e) loop).updated_items =
      loop.updated_items + (processAll e data loop.service).1.count false := by
  induction data generalizing loop with
  | nil => simp [processAll]
  | cons d rest ih =>
      simp only [List.foldl_cons, processAll]
      obtain ⟨h1, h2, h3⟩ := ih (mergeStep e loop d)
      have hs : (mergeStep e loop d).service = (ProcessSyncItemSpecifics e d loop.service).2 := rfl
      rw [hs] at h1 h2 h3
      refine ⟨h1, ?_, ?_⟩
      · rw [h2]
        cases hc : (ProcessSyncItemSpecifics e d loop.service).1 <;>
          simp [mergeStep, hc, List.count_cons, Nat.add_assoc, Nat.add_comm]
      · rw [h3]
        cases hc : (ProcessSyncItemSpecifics e d loop.service).1 <;>
          simp [mergeStep, hc, List.count_cons, Nat.add_assoc, Nat.add_comm]

theorem processAll_length (e : ItemListMethods L) (data : List AppListSpecifics)
    (s : AppListSyncableService L) : (processAll e data s).1.length = data.length := by
  induction data generalizing s with
  | nil => rfl
  | cons d rest ih => simp [processAll, ih]

theorem count_true_add_count_false (l : List Bool) :
    l.count true + l.count false = l.length := by
  induction l with
  | nil => rfl
  | cons b rest ih =>
      cases b <;> simp [List.count_cons] <;> omega

/-- Every id still in `unsynced_items` after the loop has a sync item. -/
theorem foldl_mergeStep_unsynced (e : ItemListMethods L) (data : List AppListSpecifics)
    (loop : MergeLoop L)
    (h : ∀ id ∈ loop.unsynced_items, ∃ v, StdMap.find id loop.service.sync_items_ = some v) :
    ∀ id ∈ (data.foldl (mergeStep e) loop).unsynced_items,
      ∃ v, StdMap.find id (data.foldl (mergeStep e) loop).service.sync_items_ = some v := by
  induction data generalizing loop with
  | nil => exact h
  | cons d rest ih =>
      simp only [List.foldl_cons]
      apply ih
      intro id hid
      have hmem : id ∈ StdSet.erase d.item_id loop.unsynced_items := hid
      unfold StdSet.erase at hmem
      obtain ⟨h1, h2⟩ := List.mem_filter.mp hmem
      have hne : id ≠ d.item_id := by simpa using h2
      obtain ⟨v, hv⟩ := h id h1
      refine ⟨v, ?_⟩
      have hs : (mergeStep e loop d).service = (ProcessSyncItemSpecifics e d loop.service).2 := rfl
      rw [hs, ProcessSyncItemSpecifics_find_ne e d loop.service id hne]
      exact hv

theorem unsyncedChanges_isSome (s : AppListSyncableService L) (ids : List String)
    (h : ∀ id ∈ ids, ∃ v, StdMap.find id s.sync_items_ = some v) :
    ∃ change_list, unsyncedChanges s ids = some change_list := by
  induction ids with
  | nil => exact ⟨[], rfl⟩
  | cons id rest ih =>
      obtain ⟨v, hv⟩ := h id (List.mem_cons_self _ _)
      obtain ⟨l, hl⟩ := ih (fun j hj => h j (List.mem_cons_of_mem _ hj))
      refine ⟨{ change_type := SyncChangeType.ACTION_ADD,
                specifics := GetSyncSpecificsFromSyncItem v } :: l, ?_⟩
      simp [unsyncedChanges, FindSyncItem, hv, hl]

/-- `ProcessSyncItemSpecifics` returns true exactly when it reaches
`CreateSyncItem`: the id is not empty and no sync item of the same type is
stored under it. -/
theorem ProcessSyncItemSpecifics_created_iff (e : ItemListMethods L)
    (specifics : AppListSpecifics) (s : AppListSyncableService L) :
    (ProcessSyncItemSpecifics e specifics s).1 = true ↔
      specifics.item_id ≠ "" ∧
        ∀ sync_item, FindSyncItem specifics.item_id s = some sync_item →
          sync_item.item_type ≠ specifics.item_type := by
  unfold ProcessSyncItemSpecifics
  by_cases h0 : specifics.item_id = ""
  · simp [h0]
  · simp only [h0, if_false]
    cases hf : FindSyncItem specifics.item_id s with
    | none => simp [h0]
    | some sync_item =>
        simp only
        by_cases ht : sync_item.item_type = specifics.item_type
        · simp [if_pos ht, ht]
        · simp [if_neg ht, ht, h0]

/-- The value returned by `MergeDataAndStartSyncing` once the changes for the
unsynced items have been built. -/
theorem MergeDataAndStartSyncing_eq (e : ItemListMethods L) (data : List AppListSpecifics)
    (s : AppListSyncableService L) (change_list : List SyncChange)
    (hcl : unsyncedChanges
      (data.foldl (mergeStep e)
        { service := { s with sync_processor_ := true, sync_error_handler_ := true },
          unsynced_items := s.sync_items_.foldl (fun set it => StdSet.insert it.1 set) [],
          new_items := 0, updated_items := 0 }).service
      (data.foldl (mergeStep e)
        { service := { s with sync_processor_ := true, sync_error_handler_ := true },
          unsynced_items := s.sync_items_.foldl (fun set it => StdSet.insert it.1 set) [],
          new_items := 0, updated_items := 0 }).unsynced_items = some change_list) :
    MergeDataAndStartSyncing e data s =
      some
        ({ num_items_before_association := s.sync_items_.length,
           num_items_after_association :=
             (data.foldl (mergeStep e)
               { service := { s with sync_processor_ := true, sync_error_handler_ := true },
                 unsynced_items := s.sync_items_.foldl (fun set it => StdSet.insert it.1 set) [],
                 new_items := 0, updated_items := 0 }).service.sync_items_.length,
           num_items_added :=
             (data.foldl (mergeStep e)
               { service := { s with sync_processor_ := true, sync_error_handler_ := true },
                 unsynced_items := s.sync_items_.foldl (fun set it => StdSet.insert it.1 set) [],
                 new_items := 0, updated_items := 0 }).new_items,
           num_items_deleted := 0,
           num_items_modified :=
             (data.foldl (mergeStep e)
               { service := { s with sync_processor_ := true, sync_error_handler_ := true },
                 unsynced_items := s.sync_items_.foldl (fun set it => StdSet.insert it.1 set) [],
                 new_items := 0, updated_items := 0 }).updated_items },
         { (data.foldl (mergeStep e)
               { service := { s with sync_processor_ := true, sync_error_handler_ := true },
                 unsynced_items := s.sync_items_.foldl (fun set it => StdSet.insert it.1 set) [],
                 new_items := 0, updated_items := 0 }).service with
           calls :=
             (data.foldl (mergeStep e)
               { service := { s with sync_processor_ := true, sync_error_handler_ := true },
                 unsynced_items := s.sync_items_.foldl (fun set it => StdSet.insert it.1 set) [],
                 new_items := 0, updated_items := 0 }).service.calls ++
               [ServiceCall.SyncProcessor_ProcessSyncChanges change_list] }) := by
  unfold MergeDataAndStartSyncing
  simp only [hcl]

end Merge

section MergeEffects

open app_list app_list.AppListSyncableService

variable {L : Type}

theorem UpdateSyncItemFromSync_item_type (e : ItemListMethods L) (specifics : AppListSpecifics)
    (item : SyncItem) :
    (UpdateSyncItemFromSync e specifics item).item_type = specifics.item_type := by
  unfold UpdateSyncItemFromSync
  by_cases h1 : specifics.page_ordinal = "" <;> by_cases h2 : specifics.item_ordinal = "" <;>
    simp [h1, h2]

/-- A call of `ProcessSyncItemSpecifics` that returns true leaves the sync item
it created, updated from the specifics, stored under the id. -/
theorem ProcessSyncItemSpecifics_find_created (e : ItemListMethods L)
    (specifics : AppListSpecifics) (s : AppListSyncableService L)
    (h : (ProcessSyncItemSpecifics e specifics s).1 = true) :
    StdMap.find specifics.item_id (ProcessSyncItemSpecifics e specifics s).2.sync_items_ =
      some (UpdateSyncItemFromSync e specifics
        (SyncItem.new specifics.item_id specifics.item_type)) := by
  obtain ⟨h0, hne⟩ := (ProcessSyncItemSpecifics_created_iff e specifics s).mp h
  rw [ProcessSyncItemSpecifics_sync_items, if_neg h0]
  cases hf : StdMap.find specifics.item_id s.sync_items_ with
  | none =>
      simp only
      rw [StdMap.find_modify_self, StdMap.find_insert_self]
      rfl
  | some sync_item =>
      simp only
      rw [if_neg (hne sync_item hf), StdMap.find_modify_self, StdMap.find_insert_self]
      rfl

/-- A call of `ProcessSyncItemSpecifics` that finds a sync item of the same
type returns false and leaves that item, updated from the specifics. -/
theorem ProcessSyncItemSpecifics_find_updated (e : ItemListMethods L)
    (specifics : AppListSpecifics) (s : AppListSyncableService L) (sync_item : SyncItem)
    (h0 : specifics.item_id ≠ "")
    (hf : StdMap.find specifics.item_id s.sync_items_ = some sync_item)
    (ht : sync_item.item_type = specifics.item_type) :
    (ProcessSyncItemSpecifics e specifics s).1 = false ∧
    StdMap.find specifics.item_id (ProcessSyncItemSpecifics e specifics s).2.sync_items_ =
      some (UpdateSyncItemFromSync e specifics sync_item) := by
  constructor
  · cases hr : (ProcessSyncItemSpecifics e specifics s).1 with
    | false => rfl
    | true =>
        exact absurd ht (((ProcessSyncItemSpecifics_created_iff e specifics s).mp hr).2
          sync_item hf)
  · rw [ProcessSyncItemSpecifics_sync_items, if_neg h0, hf]
    simp only
    rw [if_pos ht, StdMap.find_modify_self, hf]
    rfl

/-- A call of `ProcessSyncItemSpecifics` with an empty id changes nothing. -/
theorem ProcessSyncItemSpecifics_empty_id (e : ItemListMethods L)
    (specifics : AppListSpecifics) (s : AppListSyncableService L)
    (h0 : specifics.item_id = "") :
    ProcessSyncItemSpecifics e specifics s = (false, s) := by
  unfold ProcessSyncItemSpecifics
  simp [h0]

/-- After `ProcessSyncItemSpecifics` with an id that is not empty a sync item
of the type of the specifics is stored under the id. -/
theorem ProcessSyncItemSpecifics_find_self (e : ItemListMethods L)
    (specifics : AppListSpecifics) (s : AppListSyncableService L)
    (h0 : specifics.item_id ≠ "") :
    ∃ item, StdMap.find specifics.item_id
        (ProcessSyncItemSpecifics e specifics s).2.sync_items_ = some item ∧
      item.item_type = specifics.item_type := by
  cases hr : (ProcessSyncItemSpecifics e specifics s).1 with
  | true =>
      exact ⟨_, ProcessSyncItemSpecifics_find_created e specifics s hr,
        UpdateSyncItemFromSync_item_type e specifics _⟩
  | false =>
      cases hf : StdMap.find specifics.item_id s.sync_items_ with
      | none =>
          have : (ProcessSyncItemSpecifics e specifics s).1 = true :=
            (ProcessSyncItemSpecifics_created_iff e specifics s).mpr
              ⟨h0, fun sync_item hs => by simp [FindSyncItem, hf] at hs⟩
          rw [hr] at this
          exact absurd this (by decide)
      | some sync_item =>
          by_cases ht : sync_item.item_type = specifics.item_type
          · exact ⟨_, (ProcessSyncItemSpecifics_find_updated e specifics s sync_item h0 hf ht).2,
              UpdateSyncItemFromSync_item_type e specifics _⟩
          · have : (ProcessSyncItemSpecifics e specifics s).1 = true :=
              (ProcessSyncItemSpecifics_created_iff e specifics s).mpr
                ⟨h0, fun item hs => by
                  have h2 : item = sync_item := by
                    simpa [FindSyncItem, hf] using hs.symm
                  rw [h2]
                  exact ht⟩
            rw [hr] at this
            exact absurd this (by decide)

/-- The calls of `ProcessSyncItemSpecifics` for a list change no entry for an
id that is not the id of an entry of the list. -/
theorem processAll_find_frame (e : ItemListMethods L) (data : List AppListSpecifics)
    (s : AppListSyncableService L) (k : String) (hk : ∀ d ∈ data, d.item_id ≠ k) :
    StdMap.find k (processAll e data s).2.sync_items_ = StdMap.find k s.sync_items_ := by
  induction data generalizing s with
  | nil => rfl
  | cons d rest ih =>
      simp only [processAll]
      rw [ih _ (fun x hx => hk x (List.mem_cons_of_mem _ hx))]
      exact ProcessSyncItemSpecifics_find_ne e d s k
        (fun h => hk d (List.mem_cons_self _ _) h.symm)

/-- After the calls of `ProcessSyncItemSpecifics` for a list, every id of the
list that is not empty has a sync item, of the type of an entry of the list
with that id. -/
theorem processAll_find_entry (e : ItemListMethods L) (data : List AppListSpecifics)
    (s : AppListSyncableService L) (k : String) (h0 : k ≠ "")
    (hk : ∃ d ∈ data, d.item_id = k) :
    ∃ item, StdMap.find k (processAll e data s).2.sync_items_ = some item ∧
      ∃ d1 ∈ data, d1.item_id = k ∧ item.item_type = d1.item_type := by
  induction data generalizing s with
  | nil =>
      obtain ⟨d, hd, _⟩ := hk
      simp at hd
  | cons x rest ih =>
      simp only [processAll]
      by_cases hlater : ∃ d2 ∈ rest, d2.item_id = k
      · obtain ⟨item, hfind, d1, hd1, hid1, hty⟩ :=
          ih (ProcessSyncItemSpecifics e x s).2 hlater
        exact ⟨item, hfind, d1, List.mem_cons_of_mem _ hd1, hid1, hty⟩
      · have hx : x.item_id = k := by
          obtain ⟨d, hd, hid⟩ := hk
          rcases List.mem_cons.mp hd with h | h
          · rw [← h]; exact hid
          · exact absurd ⟨d, h, hid⟩ hlater
        have hframe := processAll_find_frame e rest (ProcessSyncItemSpecifics e x s).2 k
          (fun d2 hd2 hid => hlater ⟨d2, hd2, hid⟩)
        obtain ⟨item, hfind, hty⟩ := ProcessSyncItemSpecifics_find_self e x s
          (by rw [hx]; exact h0)
        rw [hx] at hfind
        exact ⟨item, by rw [hframe]; exact hfind, x, List.mem_cons_self _ _, hx, hty⟩

end MergeEffects

/-- C22: for every `initial_sync_data` list `MergeDataAndStartSyncing` returns
a result, in which `num_items_added + num_items_modified` is the number of
entries of the list, `num_items_deleted` is 0, `num_items_before_association`
is the number of sync items before the call, `num_items_after_association` is
the number of sync items after `ProcessSyncItemSpecifics` has been called for
every entry in order, which is the number of sync items when the call returns,
`num_items_added` is the number of these calls that created a new sync item
and `num_items_modified` the number of those that did not; sending the
unsynced items afterwards leaves the sync items as they are.  A call of
`ProcessSyncItemSpecifics` returns true exactly when it creates a sync item:
the id is not empty and no sync item of the same type is stored under it, and
then the new item, updated from the specifics, is stored under the id
afterwards; a call that finds a sync item of the same type returns false and
leaves that item, updated from the specifics; a call with an empty id changes
nothing; no call changes the entry for another id.  When
`MergeDataAndStartSyncing` returns, every id of the list that is not empty has
a sync item, of the type of an entry of the list with that id, and the entry
for an id that is not in the list is as before. -/
theorem C22_MergeDataAndStartSyncing_counts {L : Type} (e : app_list.ItemListMethods L)
    (initial_sync_data : List app_list.AppListSpecifics)
    (s : app_list.AppListSyncableService L) :
    ∃ result s1,
      app_list.AppListSyncableService.MergeDataAndStartSyncing e initial_sync_data s =
        some (result, s1) ∧
      result.num_items_added + result.num_items_modified = initial_sync_data.length ∧
      result.num_items_deleted = 0 ∧
      result.num_items_before_association = s.sync_items_.length ∧
      result.num_items_after_association =
        (app_list.AppListSyncableService.processAll e initial_sync_data
          { s with sync_processor_ := true, sync_error_handler_ := true }).2.sync_items_.length ∧
      result.num_items_added =
        (app_list.AppListSyncableService.processAll e initial_sync_data
          { s with sync_processor_ := true, sync_error_handler_ := true }).1.count true ∧
      result.num_items_modified =
        (app_list.AppListSyncableService.processAll e initial_sync_data
          { s with sync_processor_ := true, sync_error_handler_ := true }).1.count false ∧
      s1.sync_items_ =
        (app_list.AppListSyncableService.processAll e initial_sync_data
          { s with sync_processor_ := true, sync_error_handler_ := true }).2.sync_items_ ∧
      (∀ (specifics : app_list.AppListSpecifics) (s0 : app_list.AppListSyncableService L),
        (app_list.AppListSyncableService.ProcessSyncItemSpecifics e specifics s0).1 = true ↔
          specifics.item_id ≠ "" ∧
            ∀ sync_item,
              app_list.AppListSyncableService.FindSyncItem specifics.item_id s0 = some sync_item →
                sync_item.item_type ≠ specifics.item_type) ∧
      result.num_items_after_association = s1.sync_items_.length ∧
      (∀ (specifics : app_list.AppListSpecifics) (s0 : app_list.AppListSyncableService L),
        (app_list.AppListSyncableService.ProcessSyncItemSpecifics e specifics s0).1 = true →
          StdMap.find specifics.item_id
              (app_list.AppListSyncableService.ProcessSyncItemSpecifics e specifics
                s0).2.sync_items_ =
            some (app_list.UpdateSyncItemFromSync e specifics
              (app_list.SyncItem.new specifics.item_id specifics.item_type))) ∧
      (∀ (specifics : app_list.AppListSpecifics) (s0 : app_list.AppListSyncableService L)
          (sync_item : app_list.SyncItem),
        specifics.item_id ≠ "" →
        StdMap.find specifics.item_id s0.sync_items_ = some sync_item →
        sync_item.item_type = specifics.item_type →
          (app_list.AppListSyncableService.ProcessSyncItemSpecifics e specifics s0).1 = false ∧
          StdMap.find specifics.item_id
              (app_list.AppListSyncableService.ProcessSyncItemSpecifics e specifics
                s0).2.sync_items_ =
            some (app_list.UpdateSyncItemFromSync e specifics sync_item)) ∧
      (∀ (specifics : app_list.AppListSpecifics) (s0 : app_list.AppListSyncableService L),
        specifics.item_id = "" →
          app_list.AppListSyncableService.ProcessSyncItemSpecifics e specifics s0 =
            (false, s0)) ∧
      (∀ (specifics : app_list.AppListSpecifics) (s0 : app_list.AppListSyncableService L)
          (k : String),
        k ≠ specifics.item_id →
          StdMap.find k
              (app_list.AppListSyncableService.ProcessSyncItemSpecifics e specifics
                s0).2.sync_items_ =
            StdMap.find k s0.sync_items_) ∧
      (∀ d ∈ initial_sync_data, d.item_id ≠ "" →
        ∃ item, StdMap.find d.item_id s1.sync_items_ = some item ∧
          ∃ d1 ∈ initial_sync_data, d1.item_id = d.item_id ∧ item.item_type = d1.item_type) ∧
      (∀ k : String, (∀ d ∈ initial_sync_data, d.item_id ≠ k) →
        StdMap.find k s1.sync_items_ = StdMap.find k s.sync_items_) := by
  have hinit : ∀ id ∈ (s.sync_items_.foldl (fun set it => StdSet.insert it.1 set)
      ([] : StdSet String)), ∃ v, StdMap.find id s.sync_items_ = some v := by
    intro id hid
    rcases StdSet.mem_foldl_insert s.sync_items_ [] id hid with h | h
    · simp at h
    · exact (StdMap.mem_keys_iff _ _).mp h
  obtain ⟨hserv, hnew, hupd⟩ := foldl_mergeStep e initial_sync_data
    { service := { s with sync_processor_ := true, sync_error_handler_ := true },
      unsynced_items := s.sync_items_.foldl (fun set it => StdSet.insert it.1 set) [],
      new_items := 0, updated_items := 0 }
  have hun := foldl_mergeStep_unsynced e initial_sync_data
    { service := { s with sync_processor_ := true, sync_error_handler_ := true },
      unsynced_items := s.sync_items_.foldl (fun set it => StdSet.insert it.1 set) [],
      new_items := 0, updated_items := 0 } hinit
  obtain ⟨change_list, hcl⟩ := unsyncedChanges_isSome _ _ hun
  simp only [Nat.zero_add] at hnew hupd
  refine ⟨_, _, MergeDataAndStartSyncing_eq e initial_sync_data s change_list hcl,
    ?_, rfl, rfl, ?_, hnew, hupd, ?_, ?_, rfl, ?_, ?_, ?_, ?_, ?_, ?_⟩
  · simp only [hnew, hupd]
    rw [count_true_add_count_false, processAll_length]
  · simp only [hserv]
  · simp only [hserv]
  · exact fun specifics s0 => ProcessSyncItemSpecifics_created_iff e specifics s0
  · exact fun specifics s0 h => ProcessSyncItemSpecifics_find_created e specifics s0 h
  · exact fun specifics s0 sync_item h0 hf ht =>
      ProcessSyncItemSpecifics_find_updated e specifics s0 sync_item h0 hf ht
  · exact fun specifics s0 h0 => ProcessSyncItemSpecifics_empty_id e specifics s0 h0
  · exact fun specifics s0 k hk => ProcessSyncItemSpecifics_find_ne e specifics s0 k hk
  · intro d hd h0
    simp only [hserv]
    exact processAll_find_entry e initial_sync_data _ d.item_id h0 ⟨d, hd, rfl⟩
  · intro k hk
    simp only [hserv]
    exact processAll_find_frame e initial_sync_data _ k hk
